import Mathlib

/-!
# BookManagement: handlers, routes and token helpers

A shallow embedding of the handlers of `controllers/`, of the route table of
`routes/UserRoutes.go` and of the helpers of `helper/helper.go`.

* Go strings are Lean strings, processed through their character lists.
* A handler is a function from the request context and the datastore state to a
  response and a new datastore state.  The datastore is reached through a
  `Driver`: the answers of `Exec` and `QueryRow` are whatever the driver gives;
  the handlers that list records reach it through a `DB`, a `Driver` with `Query`.
* The libraries for signing and hashing, and `strings.ToLower`, are arguments.
* Clock readings (`time.Now()`) and the unordered iteration of a Go map are
  explicit arguments.
-/

set_option maxRecDepth 100000

namespace BookManagement

/-! ## Standard-library helpers -/

/-- White space as defined by Go's `unicode.IsSpace`, which `strings.TrimSpace` uses. -/
def isSpace (c : Char) : Bool :=
  c == '\t' || c == '\n' || c == Char.ofNat 0x0B || c == Char.ofNat 0x0C || c == '\r'
    || c == ' ' || c == Char.ofNat 0x85 || c == Char.ofNat 0xA0 || c == Char.ofNat 0x1680
    || (0x2000 ≤ c.toNat && c.toNat ≤ 0x200A)
    || c == Char.ofNat 0x2028 || c == Char.ofNat 0x2029 || c == Char.ofNat 0x202F
    || c == Char.ofNat 0x205F || c == Char.ofNat 0x3000

/-- Go's `strings.TrimSpace`: removes leading and trailing white space. -/
def TrimSpace (s : String) : String :=
  ⟨((s.data.dropWhile isSpace).reverse.dropWhile isSpace).reverse⟩

/-- Go's `strings.Join(elems, sep)`. -/
def Join : List String → String → String
  | [], _ => ""
  | [a], _ => a
  | a :: b :: rest, sep => a ++ sep ++ Join (b :: rest) sep

/-- Whether `sub` occurs in `cs` as a contiguous block. -/
def hasBlock : List Char → List Char → Bool
  | [], sub => sub.isEmpty
  | c :: cs, sub => sub.isPrefixOf (c :: cs) || hasBlock cs sub

/-- Go's `strings.Contains(s, substr)`. -/
def Contains (s substr : String) : Bool := hasBlock s.data substr.data

/-- Number of `?` placeholders in a statement text. -/
def placeholders (q : String) : Nat := q.data.count '?'

/-- Decimal digit value of a character, if it is one of `0`..`9`. -/
def digitVal (c : Char) : Option Nat :=
  if '0' ≤ c ∧ c ≤ '9' then some (c.toNat - '0'.toNat) else none

/-- Value of a non-empty run of decimal digits read left to right from `acc`. -/
def digitsVal : List Char → Nat → Option Nat
  | [], acc => some acc
  | c :: cs, acc =>
    match digitVal c with
    | some d => digitsVal cs (acc * 10 + d)
    | none => none

/-- Go's `strconv.Atoi` on a 64-bit platform: an optional sign, then one or more
decimal digits, the value within the range of `int`; `none` stands for its error. -/
def Atoi (s : String) : Option Int :=
  let body : Bool × List Char :=
    match s.data with
    | '-' :: cs => (true, cs)
    | '+' :: cs => (false, cs)
    | cs => (false, cs)
  match body with
  | (_, []) => none
  | (neg, cs) =>
    match digitsVal cs 0 with
    | none => none
    | some n =>
      if neg then (if n ≤ 2 ^ 63 then some (-(n : Int)) else none)
      else (if n < 2 ^ 63 then some (n : Int) else none)

/-! ## Values, datastore driver, responses -/

/-- A `float64`, carried as its bit pattern; the handlers only pass it on. -/
structure Float64 where
  bits : Nat
  deriving DecidableEq, Repr

/-- A calendar date: the `time.Time` that `time.Parse("2006-01-02", _)` yields
(midnight UTC of that day) and the content of a DATE column. -/
structure Date where
  year : Nat
  month : Nat
  day : Nat
  deriving DecidableEq, Repr

/-- A value handed to, or returned by, the `database/sql` driver. -/
inductive Value where
  | null
  | str (s : String)
  | int (i : Int)
  | bool (b : Bool)
  | float (f : Float64)
  | date (d : Date)
  | instant (nanos : Int)
  deriving DecidableEq, Repr

/-- Outcome of `db.Exec`: an error, or a result whose `RowsAffected()` is an
error or a count. -/
inductive ExecResult where
  | err (e : String)
  | ok (rowsAffected : Except String Int)

/-- Outcome of `db.QueryRow(...)` as seen by `Scan`: `sql.ErrNoRows`, another
error, or the columns of the first row. -/
inductive RowResult where
  | errNoRows
  | err (e : String)
  | row (cols : List Value)

/-- The datastore behind `*sql.DB`, over a state `σ`. -/
structure Driver (σ : Type) where
  Exec : σ → String → List Value → ExecResult × σ
  QueryRow : σ → String → List Value → RowResult × σ

/-- A statement sent to the datastore. -/
structure Call where
  write : Bool
  query : String
  args : List Value
  deriving DecidableEq, Repr

/-- The driver `d` with a log: every `Exec` (`write = true`) and `QueryRow`
(`write = false`) is appended to the second component of the state. -/
def Driver.traced {σ : Type} (d : Driver σ) : Driver (σ × List Call) where
  Exec := fun s q a => ((d.Exec s.1 q a).1, ((d.Exec s.1 q a).2, s.2 ++ [⟨true, q, a⟩]))
  QueryRow := fun s q a =>
    ((d.QueryRow s.1 q a).1, ((d.QueryRow s.1 q a).2, s.2 ++ [⟨false, q, a⟩]))

/-- The `Exec` calls of a log. -/
def writes (log : List Call) : List Call := log.filter (fun c => c.write)

/-- The handle returned by `database.Database()` of `config/db.go`: the pooled
connection. -/
def Database {σ : Type} (conn : Driver σ) : Driver σ := conn

/-- The test `db == nil` on a handle returned by `database.Database()`:
`config/db.go` exits the process (`log.Fatalf`) when the connection cannot be
opened, so the handle is never `nil`. -/
def Driver.isNil {σ : Type} (_ : Driver σ) : Bool := false

/-- The `gin.Context` of a request: path parameters and the outcome of
`ShouldBindJSON` into a `β` (the binding error text, or the bound value). -/
structure Context (β : Type) where
  params : List (String × String)
  body : Except String β

/-- The method `c.Param(key)`: the path parameter, or the empty string. -/
def Context.Param {β : Type} (c : Context β) (key : String) : String :=
  (c.params.lookup key).getD ""

/-- Body of a JSON response. -/
inductive Body (ρ : Type) where
  /-- The map `gin.H` with the single key `error`. -/
  | error (msg : String)
  /-- The map `gin.H` with `error` set to a message and `data` set to `nil`. -/
  | errorData (msg : String)
  /-- The map `gin.H` with `error` set to `nil` and `data` holding a `message`. -/
  | message (msg : String)
  /-- A record serialised as the body. -/
  | record (r : ρ)
  deriving DecidableEq, Repr

/-- What `c.JSON(status, body)` sends. -/
structure Response (ρ : Type) where
  status : Nat
  body : Body ρ
  deriving DecidableEq, Repr

/-! ## `controllers/bookControllers.go` -/

/-- The input for updating a book; a `nil` pointer is `none`. -/
structure UpdateBookInput where
  TypeOfBook : Option String
  BookName : Option String
  BookAuthorName : Option String
  IsAvailable : Option Bool
  BookQuantity : Option Int
  BookPrice : Option Float64
  deriving DecidableEq, Repr

/-- The slices `setClauses` and `args` that an update handler grows side by side. -/
structure Builder where
  setClauses : List String
  args : List Value
  deriving DecidableEq, Repr

/-- The pair of statements `setClauses = append(setClauses, clause)` and
`args = append(args, arg)`. -/
def Builder.add (b : Builder) (clause : String) (arg : Value) : Builder :=
  ⟨b.setClauses ++ [clause], b.args ++ [arg]⟩

/-- The part of `UpdateBook` that builds `setClauses` and `args` from the input. -/
def UpdateBook.build (input : UpdateBookInput) : Builder := Id.run do
  let mut b : Builder := ⟨[], []⟩
  if let some v := input.TypeOfBook then
    b := b.add "typeOfBook = ?" (Value.str v)
  if let some v := input.BookName then
    b := b.add "bookName = ?" (Value.str v)
  if let some v := input.BookAuthorName then
    b := b.add "bookAuthorName = ?" (Value.str v)
  if let some v := input.IsAvailable then
    b := b.add "isAvailable = ?" (Value.bool v)
  if let some v := input.BookQuantity then
    b := b.add "bookQuantity = ?" (Value.int v)
  if let some v := input.BookPrice then
    b := b.add "bookPrice = ?" (Value.float v)
  return b

/-- The handler `UpdateBook`: dynamically updates a book from the provided input. -/
def UpdateBook {σ : Type} (conn : Driver σ) (c : Context UpdateBookInput) (s : σ) :
    Response Unit × σ :=
  let db := Database conn
  let bookID := TrimSpace (c.Param "id")
  if bookID = "" then (⟨400, .errorData "Book ID cannot be empty"⟩, s) else
  match c.body with
  | .error _ => (⟨400, .errorData "Invalid request body"⟩, s)
  | .ok input =>
    let b := UpdateBook.build input
    if b.setClauses.length = 0 then (⟨400, .errorData "No fields provided for update"⟩, s) else
    let query := "UPDATE Book SET " ++ Join b.setClauses ", " ++ " WHERE BookID = ?"
    let args := b.args ++ [Value.str bookID]
    match db.Exec s query args with
    | (.err _, s1) => (⟨500, .errorData "Failed to update book"⟩, s1)
    | (.ok (.error _), s1) => (⟨500, .errorData "Failed to verify update"⟩, s1)
    | (.ok (.ok rowsAffected), s1) =>
      if rowsAffected = 0 then (⟨404, .errorData "Book not found"⟩, s1)
      else (⟨200, .message "Book updated successfully"⟩, s1)

/-! ## `time.Parse` and `Format` for the layout `2006-01-02` -/

/-- Leap years of the Gregorian calendar, as in Go's `time` package. -/
def isLeap (year : Nat) : Bool :=
  year % 4 == 0 && (year % 100 != 0 || year % 400 == 0)

/-- Number of days of a month, as in Go's `time` package (`0` outside 1..12). -/
def daysIn (month year : Nat) : Nat :=
  if month = 2 ∧ isLeap year = true then 29 else
  match month with
  | 1 => 31 | 2 => 28 | 3 => 31 | 4 => 30 | 5 => 31 | 6 => 30
  | 7 => 31 | 8 => 31 | 9 => 30 | 10 => 31 | 11 => 30 | 12 => 31
  | _ => 0

/-- Go's `time.Parse("2006-01-02", value)`; `none` stands for its error.  The
layout asks for four year digits, `-`, two month digits, `-`, two day digits and
nothing after them, a month in 1..12 and a day that exists in that month. -/
def timeParse (value : String) : Option Date :=
  match value.data with
  | [y1, y2, y3, y4, '-', m1, m2, '-', d1, d2] =>
    match digitsVal [y1, y2, y3, y4] 0, digitsVal [m1, m2] 0, digitsVal [d1, d2] 0 with
    | some year, some month, some day =>
      if month ≤ 0 ∨ 12 < month then none
      else if day < 1 ∨ day > daysIn month year then none
      else some ⟨year, month, day⟩
    | _, _, _ => none
  | _ => none

/-- Decimal digits of `n`, padded with zeros on the left to `width` digits. -/
def zeroPad (width n : Nat) : List Char :=
  List.replicate (width - (Nat.toDigits 10 n).length) '0' ++ Nat.toDigits 10 n

/-- Go's `t.Format("2006-01-02")` for a calendar date. -/
def Date.Format (d : Date) : String :=
  ⟨zeroPad 4 d.year ++ ['-'] ++ zeroPad 2 d.month ++ ['-'] ++ zeroPad 2 d.day⟩

/-! ## `controllers/orderBookControllers.go` -/

/-- An order of the OrderBook table; a `nil` pointer is `none`. -/
structure OrderBook where
  OrderID : Int
  PersonID : Int
  BookID : Int
  BorrowDate : String
  ReturnDate : Option String
  ActualReturnDate : Option String
  Status : String
  deriving DecidableEq, Repr

/-- The map literal of `isValidStatus`. -/
def validStatuses : List (String × Bool) :=
  [("Borrowed", true), ("Returned", true), ("Overdue", true)]

/-- The function `isValidStatus`: checks if the status is valid.  Indexing a Go
map with an absent key gives the zero value `false`. -/
def isValidStatus (status : String) : Bool :=
  (validStatuses.lookup status).getD false

/-- The block of `UpdateOrderBook` for `PersonID`; an early `return` after
`c.JSON` is `Except.error`. -/
def UpdateOrderBook.personID (updateOrder : OrderBook) (b : Builder) :
    Except (Response OrderBook) Builder :=
  if updateOrder.PersonID > 0 then
    .ok (b.add "PersonID = ?" (Value.int updateOrder.PersonID))
  else if updateOrder.PersonID < 0 then
    .error ⟨400, .error "person_id must be positive"⟩
  else .ok b

/-- The block of `UpdateOrderBook` for `BookID`. -/
def UpdateOrderBook.bookID (updateOrder : OrderBook) (b : Builder) :
    Except (Response OrderBook) Builder :=
  if updateOrder.BookID > 0 then
    .ok (b.add "BookID = ?" (Value.int updateOrder.BookID))
  else if updateOrder.BookID < 0 then
    .error ⟨400, .error "book_id must be positive"⟩
  else .ok b

/-- The block of `UpdateOrderBook` for `BorrowDate`: the parsed time is the argument. -/
def UpdateOrderBook.borrowDate (updateOrder : OrderBook) (b : Builder) :
    Except (Response OrderBook) Builder :=
  if updateOrder.BorrowDate ≠ "" then
    match timeParse updateOrder.BorrowDate with
    | none => .error ⟨400, .error "borrow_date must be in YYYY-MM-DD format"⟩
    | some borrowDate => .ok (b.add "BorrowDate = ?" (Value.date borrowDate))
  else .ok b

/-- The block of `UpdateOrderBook` for `ReturnDate`: the string is the argument. -/
def UpdateOrderBook.returnDate (updateOrder : OrderBook) (b : Builder) :
    Except (Response OrderBook) Builder :=
  match updateOrder.ReturnDate with
  | some returnDate =>
    match timeParse returnDate with
    | none => .error ⟨400, .error "return_date must be in YYYY-MM-DD format"⟩
    | some _ => .ok (b.add "ReturnDate = ?" (Value.str returnDate))
  | none => .ok b

/-- The block of `UpdateOrderBook` for `ActualReturnDate`. -/
def UpdateOrderBook.actualReturnDate (updateOrder : OrderBook) (b : Builder) :
    Except (Response OrderBook) Builder :=
  match updateOrder.ActualReturnDate with
  | some actualReturnDate =>
    match timeParse actualReturnDate with
    | none => .error ⟨400, .error "actual_return_date must be in YYYY-MM-DD format"⟩
    | some _ => .ok (b.add "ActualReturnDate = ?" (Value.str actualReturnDate))
  | none => .ok b

/-- The block of `UpdateOrderBook` for `Status`, which also stores the trimmed
status back into `updateOrder`. -/
def UpdateOrderBook.status (updateOrder : OrderBook) (b : Builder) :
    Except (Response OrderBook) (Builder × OrderBook) :=
  if updateOrder.Status ≠ "" then
    let updateOrder := { updateOrder with Status := TrimSpace updateOrder.Status }
    if !isValidStatus updateOrder.Status then
      .error ⟨400, .error "status must be one of: Borrowed, Returned, Overdue"⟩
    else .ok (b.add "Status = ?" (Value.str updateOrder.Status), updateOrder)
  else .ok (b, updateOrder)

/-- The part of `UpdateOrderBook` that validates the provided fields and builds
`setClauses` and `args`, block after block in the order of the source. -/
def UpdateOrderBook.build (updateOrder : OrderBook) :
    Except (Response OrderBook) (Builder × OrderBook) := do
  let b ← UpdateOrderBook.personID updateOrder ⟨[], []⟩
  let b ← UpdateOrderBook.bookID updateOrder b
  let b ← UpdateOrderBook.borrowDate updateOrder b
  let b ← UpdateOrderBook.returnDate updateOrder b
  let b ← UpdateOrderBook.actualReturnDate updateOrder b
  UpdateOrderBook.status updateOrder b

/-- The handler `UpdateOrderBook`: handles updating an existing order. -/
def UpdateOrderBook {σ : Type} (conn : Driver σ) (c : Context OrderBook) (s : σ) :
    Response OrderBook × σ :=
  let db := Database conn
  if db.isNil then (⟨500, .error "database connection failed"⟩, s) else
  match Atoi (c.Param "id") with
  | none => (⟨400, .error "invalid order_id"⟩, s)
  | some orderID =>
    if orderID ≤ 0 then (⟨400, .error "invalid order_id"⟩, s) else
    match c.body with
    | .error e => (⟨400, .error ("invalid request body: " ++ e)⟩, s)
    | .ok updateOrder =>
      match UpdateOrderBook.build updateOrder with
      | .error response => (response, s)
      | .ok (b, updateOrder) =>
        if b.setClauses.length = 0 then
          (⟨400, .error "no valid fields provided for update"⟩, s)
        else
        let updateQuery :=
          "UPDATE OrderBook SET " ++ Join b.setClauses ", " ++ " WHERE OrderID = ?"
        let args := b.args ++ [Value.int orderID]
        match db.Exec s updateQuery args with
        | (.err _, s1) => (⟨500, .error "failed to update order"⟩, s1)
        | (.ok (.error _), s1) => (⟨500, .error "failed to verify update"⟩, s1)
        | (.ok (.ok rowsAffected), s1) =>
          if rowsAffected = 0 then (⟨404, .error "order not found"⟩, s1)
          else (⟨200, .record { updateOrder with OrderID := orderID }⟩, s1)

/-- The statement text of `GetOrderBookByID`. -/
def GetOrderBookByID.query : String :=
  "\n            SELECT OrderID, PersonID, BookID, BorrowDate, ReturnDate, ActualReturnDate, Status\n            FROM OrderBook\n            WHERE OrderID = ?"

/-- Scanning a nullable date column into a `sql.NullTime`: `Valid` is false for
NULL; `none` stands for a scan error. -/
def scanNullTime : Value → Option (Option Date)
  | .null => some none
  | .date d => some (some d)
  | _ => none

/-- The `Scan` of `GetOrderBookByID` into the seven destinations; `none` stands
for a scan error (a row of another shape). -/
def GetOrderBookByID.scan : List Value → Option (OrderBook × Date × Option Date × Option Date)
  | [.int orderID, .int personID, .int bookID, .date borrowDate, rd, ard, .str status] =>
    match scanNullTime rd, scanNullTime ard with
    | some returnDate, some actualReturnDate =>
      some (⟨orderID, personID, bookID, "", none, none, status⟩,
        borrowDate, returnDate, actualReturnDate)
    | _, _ => none
  | _ => none

/-- The handler `GetOrderBookByID`: retrieves a specific order by ID. -/
def GetOrderBookByID {σ : Type} (conn : Driver σ) (c : Context Unit) (s : σ) :
    Response OrderBook × σ :=
  let db := Database conn
  if db.isNil then (⟨500, .error "database connection failed"⟩, s) else
  match Atoi (c.Param "id") with
  | none => (⟨400, .error "invalid order_id"⟩, s)
  | some orderID =>
    if orderID ≤ 0 then (⟨400, .error "invalid order_id"⟩, s) else
    match db.QueryRow s GetOrderBookByID.query [Value.int orderID] with
    | (.errNoRows, s1) => (⟨404, .error "order not found"⟩, s1)
    | (.err _, s1) => (⟨500, .error "failed to retrieve order"⟩, s1)
    | (.row cols, s1) =>
      match GetOrderBookByID.scan cols with
      | none => (⟨500, .error "failed to retrieve order"⟩, s1)
      | some (order, borrowDate, returnDate, actualReturnDate) =>
        let order := { order with BorrowDate := borrowDate.Format }
        let order :=
          match returnDate with
          | some t => { order with ReturnDate := some t.Format }
          | none => order
        let order :=
          match actualReturnDate with
          | some t => { order with ActualReturnDate := some t.Format }
          | none => order
        (⟨200, .record order⟩, s1)

/-! ## `controllers/userControllers.go` -/

/-- A decoded JSON value, as `encoding/json` stores it in an `interface{}`. -/
inductive JsonValue where
  | null
  | bool (b : Bool)
  | number (f : Float64)
  | string (s : String)
  | array (items : List JsonValue)
  | object (fields : List (String × JsonValue))

/-- A row of the Person table as the handlers return it; times are instants in
nanoseconds. -/
structure User where
  ID : Int
  Username : String
  Email : String
  PhoneNumber : String
  FirstName : String
  LastName : String
  Password : String
  Token : String
  RefreshToken : String
  CreatedAt : Int
  UpdatedAt : Int
  UserID : String
  deriving DecidableEq, Repr

/-- The map literal `allowedFields` of `UpdateUserById`: JSON key and column. -/
def allowedFields : List (String × String) :=
  [("username", "Username"), ("email", "Email"), ("phone_number", "PhoneNumber"),
   ("first_name", "First_name"), ("last_name", "Last_name")]

/-- The loop of `UpdateUserById` over `allowedFields`, run over the entries in the
order `entries` in which the Go runtime happens to enumerate the map.  A key that
is absent from the payload, or whose value is not a string, adds nothing. -/
def UpdateUserById.loop (payload : List (String × JsonValue)) :
    List (String × String) → Builder → Except (Response User) Builder
  | [], b => .ok b
  | (jsonKey, dbColumn) :: rest, b =>
    match payload.lookup jsonKey with
    | some (JsonValue.string str) =>
      let str := TrimSpace str
      if str = "" ∧ jsonKey ≠ "phone_number" ∧ jsonKey ≠ "first_name" ∧ jsonKey ≠ "last_name" then
        UpdateUserById.loop payload rest b
      else if jsonKey = "email" ∧ (!Contains str "@" || !Contains str ".") then
        .error ⟨400, .error "invalid email format"⟩
      else
        UpdateUserById.loop payload rest (b.add (dbColumn ++ " = ?") (Value.str str))
    | _ => UpdateUserById.loop payload rest b

/-- The statement text `selectQuery` of `UpdateUserById`. -/
def UpdateUserById.selectQuery : String :=
  "\n            SELECT ID, Username, Email, PhoneNumber, First_name, Last_name,\n                   Created_at, Updated_at, User_id\n            FROM Person\n            WHERE User_id = ?"

/-- Scanning a nullable text column into a `sql.NullString` and reading its
`String` field: empty for NULL; `none` stands for a scan error. -/
def scanNullString : Value → Option String
  | .null => some ""
  | .str v => some v
  | _ => none

/-- The `Scan` of `UpdateUserById` into the nine destinations, followed by the
conversion of the nullable fields; `none` stands for a scan error. -/
def UpdateUserById.scan : List Value → Option User
  | [.int id, .str username, .str email, phone, first, last, .instant created,
      .instant updated, .str userID] =>
    match scanNullString phone, scanNullString first, scanNullString last with
    | some phoneNumber, some firstName, some lastName =>
      some ⟨id, username, email, phoneNumber, firstName, lastName, "", "", "", created,
        updated, userID⟩
    | _, _, _ => none
  | _ => none

/-- The handler `UpdateUserById`: dynamically updates a user by their User_id.
`now` is the reading of `time.Now()` and `entries` the enumeration order of
`allowedFields`. -/
def UpdateUserById {σ : Type} (conn : Driver σ) (now : Int) (entries : List (String × String))
    (c : Context (List (String × JsonValue))) (s : σ) : Response User × σ :=
  let db := Database conn
  let uid := c.Param "user_id"
  if db.isNil then (⟨500, .error "database connection failed"⟩, s) else
  match c.body with
  | .error _ => (⟨400, .error "invalid request body"⟩, s)
  | .ok payload =>
    if uid = "" ∨ uid.utf8ByteSize > 36 then (⟨400, .error "invalid user_id"⟩, s) else
    match UpdateUserById.loop payload entries ⟨[], []⟩ with
    | .error response => (response, s)
    | .ok b =>
      let b := b.add "Updated_at = ?" (Value.instant now)
      if b.setClauses.length = 1 then
        (⟨400, .error "no valid fields provided to update"⟩, s)
      else
      let query := "UPDATE Person SET " ++ Join b.setClauses ", " ++ " WHERE User_id = ?"
      let args := b.args ++ [Value.str uid]
      match db.Exec s query args with
      | (.err _, s1) => (⟨500, .error "failed to update user"⟩, s1)
      | (.ok (.error _), s1) => (⟨500, .error "failed to verify update"⟩, s1)
      | (.ok (.ok rowsAffected), s1) =>
        if rowsAffected = 0 then (⟨404, .error "user not found"⟩, s1) else
        match db.QueryRow s1 UpdateUserById.selectQuery [Value.str uid] with
        | (.errNoRows, s2) => (⟨404, .error "user not found"⟩, s2)
        | (.err _, s2) => (⟨500, .error "failed to retrieve updated user"⟩, s2)
        | (.row cols, s2) =>
          match UpdateUserById.scan cols with
          | none => (⟨500, .error "failed to retrieve updated user"⟩, s2)
          | some u => (⟨200, .record u⟩, s2)

/-! ## `helper/helper.go` -/

/-- The registered claims that the helpers set and read; a `*jwt.NumericDate` is
an optional instant in nanoseconds since the Unix epoch. -/
structure RegisteredClaims where
  ExpiresAt : Option Int
  IssuedAt : Option Int
  deriving DecidableEq, Repr

/-- The custom claims embedded in every JWT. -/
structure SignedDetails where
  Email : String
  FirstName : String
  LastName : String
  Uid : String
  RegisteredClaims : RegisteredClaims
  deriving DecidableEq, Repr

/-- The constant `time.Second`, in nanoseconds. -/
def Second : Int := 1000000000

/-- The constant `time.Hour`, in nanoseconds. -/
def Hour : Int := 3600 * Second

/-- The constructor `jwt.NewNumericDate(t)`: `t` truncated to `jwt.TimePrecision`,
one second. -/
def NewNumericDate (t : Int) : Option Int := some (t - t % Second)

/-- The value of `SECRET_KEY` after package initialisation. -/
def SECRET_KEY : String := "todoapp"

/-- A `*jwt.Token` as `ValidateToken` reads it: the claims when they are a
`*SignedDetails` (`none` when the type assertion fails) and the `Valid` flag. -/
structure Token where
  Claims : Option SignedDetails
  Valid : Bool
  deriving DecidableEq, Repr

/-- The signing library `github.com/golang-jwt/jwt/v5` with HS256: `SignedString`
takes the claims and the key; `ParseWithClaims` takes the raw token, the key given
by the key function and the library's own reading of the clock. -/
structure JWT where
  SignedString : SignedDetails → String → Except String String
  ParseWithClaims : String → String → Int → Except String Token

/-- The helper `GenerateAllTokens`: returns an access token (24 h) and a refresh
token (7 d); `now` is the reading of `time.Now()`. -/
def GenerateAllTokens (lib : JWT) (now : Int) (email first last uid : String) :
    Except String (String × String) :=
  let accessClaims : SignedDetails :=
    { Email := email, FirstName := first, LastName := last, Uid := uid,
      RegisteredClaims :=
        { ExpiresAt := NewNumericDate (now + 24 * Hour), IssuedAt := NewNumericDate now } }
  let refreshClaims : SignedDetails :=
    { Email := "", FirstName := "", LastName := "", Uid := "",
      RegisteredClaims :=
        { ExpiresAt := NewNumericDate (now + 7 * 24 * Hour), IssuedAt := NewNumericDate now } }
  match lib.SignedString accessClaims SECRET_KEY with
  | .error e => .error ("generate access token: " ++ e)
  | .ok accessToken =>
    match lib.SignedString refreshClaims SECRET_KEY with
    | .error e => .error ("generate refresh token: " ++ e)
    | .ok refreshToken => .ok (accessToken, refreshToken)

/-- The helper `ValidateToken`: parses and validates a JWT, returning its claims
or an error message.  `parseNow` is the clock as the library reads it while
parsing, `now` the later reading of `time.Now()` in the expiry test. -/
def ValidateToken (lib : JWT) (parseNow now : Int) (raw : String) :
    Option SignedDetails × String :=
  match lib.ParseWithClaims raw SECRET_KEY parseNow with
  | .error err => (none, "invalid token: " ++ err)
  | .ok token =>
    match token.Claims, token.Valid with
    | some claims, true =>
      match claims.RegisteredClaims.ExpiresAt with
      | some expiresAt =>
        if expiresAt < now then (none, "token is expired") else (some claims, "")
      | none => (some claims, "")
    | _, _ => (none, "token is invalid")

/-! ## A model of the OrderBook table -/

/-- A row of the OrderBook table. -/
structure OrderRow where
  OrderID : Int
  PersonID : Int
  BookID : Int
  BorrowDate : Date
  ReturnDate : Option Date
  ActualReturnDate : Option Date
  Status : String
  deriving DecidableEq, Repr

/-- The columns of OrderBook that an UPDATE may assign. -/
inductive OrderColumn where
  | PersonID | BookID | BorrowDate | ReturnDate | ActualReturnDate | Status
  deriving DecidableEq, Repr

/-- The column named by a clause `<column> = ?`. -/
def OrderColumn.ofClause (clause : List Char) : Option OrderColumn :=
  if clause = "PersonID = ?".data then some .PersonID
  else if clause = "BookID = ?".data then some .BookID
  else if clause = "BorrowDate = ?".data then some .BorrowDate
  else if clause = "ReturnDate = ?".data then some .ReturnDate
  else if clause = "ActualReturnDate = ?".data then some .ActualReturnDate
  else if clause = "Status = ?".data then some .Status
  else none

/-- Splits a SET list at each comma followed by a blank. -/
def splitClauses : List Char → List (List Char)
  | [] => [[]]
  | c :: rest =>
    match c, rest, splitClauses rest with
    | ',', ' ' :: _, parts => [] :: parts
    | _, _, [] => [[c]]
    | _, _, part :: parts => (c :: part) :: parts

/-- Removes the leading blank that `splitClauses` leaves on every part but the first. -/
def trimLead : List (List Char) → List (List Char)
  | [] => []
  | first :: others => first :: others.map (fun part => part.drop 1)

/-- Reads `UPDATE OrderBook SET <clauses> WHERE OrderID = ?`: the assigned columns
in the order of the text, or `none` for any other statement. -/
def parseOrderUpdate (q : String) : Option (List OrderColumn) :=
  let head := "UPDATE OrderBook SET ".data
  let tail := " WHERE OrderID = ?".data
  let cs := q.data
  if head.isPrefixOf cs ∧ tail.reverse.isPrefixOf (cs.drop head.length).reverse then
    let middle := ((cs.drop head.length).reverse.drop tail.length).reverse
    (trimLead (splitClauses middle)).mapM OrderColumn.ofClause
  else none

/-- A date column takes a date, or a string that the store converts to a date. -/
def toDate : Value → Option Date
  | .date d => some d
  | .str v => timeParse v
  | _ => none

/-- One assignment on a row; `none` when the value does not fit the column. -/
def OrderRow.assign (r : OrderRow) : OrderColumn → Value → Option OrderRow
  | .PersonID, .int v => some { r with PersonID := v }
  | .BookID, .int v => some { r with BookID := v }
  | .BorrowDate, v => (toDate v).map (fun d => { r with BorrowDate := d })
  | .ReturnDate, .null => some { r with ReturnDate := none }
  | .ReturnDate, v => (toDate v).map (fun d => { r with ReturnDate := some d })
  | .ActualReturnDate, .null => some { r with ActualReturnDate := none }
  | .ActualReturnDate, v => (toDate v).map (fun d => { r with ActualReturnDate := some d })
  | .Status, .str v => some { r with Status := v }
  | _, _ => none

/-- The assignments of a SET list, applied to a row from left to right. -/
def OrderRow.assignAll (r : OrderRow) : List OrderColumn → List Value → Option OrderRow
  | [], [] => some r
  | col :: cols, v :: vs => (r.assign col v).bind (fun r1 => r1.assignAll cols vs)
  | _, _ => none

/-- The statement `UPDATE OrderBook SET ... WHERE OrderID = id` on every row. -/
def updateRows (cols : List OrderColumn) (vals : List Value) (id : Int) :
    List OrderRow → Option (List OrderRow)
  | [] => some []
  | r :: rows =>
    if r.OrderID = id then
      match r.assignAll cols vals, updateRows cols vals id rows with
      | some r1, some rows1 => some (r1 :: rows1)
      | _, _ => none
    else (updateRows cols vals id rows).map (fun rows1 => r :: rows1)

/-- The columns of a row as `QueryRow` returns them to `Scan`. -/
def OrderRow.cols (r : OrderRow) : List Value :=
  [.int r.OrderID, .int r.PersonID, .int r.BookID, .date r.BorrowDate,
   (r.ReturnDate.map Value.date).getD .null, (r.ActualReturnDate.map Value.date).getD .null,
   .str r.Status]

/-- A datastore that holds the OrderBook table.  `Exec` understands the UPDATE of
`UpdateOrderBook`: it fails as a whole, leaving the table as it is, when a value
does not fit its column, and otherwise reports the number of rows whose OrderID
matches.  `QueryRow` understands the SELECT of `GetOrderBookByID`. -/
def orderStore : Driver (List OrderRow) where
  Exec := fun table q args =>
    match parseOrderUpdate q, args.getLast?, args.dropLast with
    | some cols, some (.int id), vals =>
      match updateRows cols vals id table with
      | some table1 =>
        (.ok (.ok ((table.filter (fun r => r.OrderID = id)).length : Int)), table1)
      | none => (.err "conversion failed", table)
    | _, _, _ => (.err "statement not understood", table)
  QueryRow := fun table q args =>
    match decide (q = GetOrderBookByID.query), args with
    | true, [.int id] =>
      match table.find? (fun r => r.OrderID = id) with
      | some r => (.row r.cols, table)
      | none => (.errNoRows, table)
    | _, _ => (.err "statement not understood", table)

/-! ## Predicates used in the statements -/

/-- A builder is aligned when it has one argument per clause and every clause
holds exactly one placeholder. -/
def Builder.aligned (b : Builder) : Prop :=
  b.setClauses.length = b.args.length ∧ ∀ cl ∈ b.setClauses, placeholders cl = 1

/-- An order update with an invalid provided field: a negative PersonID or
BookID, a non-empty BorrowDate or a present ReturnDate or ActualReturnDate that
`time.Parse` rejects, or a non-empty Status that is none of Borrowed, Returned,
Overdue once surrounding white space is trimmed. -/
def OrderBook.invalid (o : OrderBook) : Prop :=
  o.PersonID < 0 ∨ o.BookID < 0 ∨ (o.BorrowDate ≠ "" ∧ timeParse o.BorrowDate = none)
    ∨ (∃ d, o.ReturnDate = some d ∧ timeParse d = none)
    ∨ (∃ d, o.ActualReturnDate = some d ∧ timeParse d = none)
    ∨ (o.Status ≠ "" ∧ TrimSpace o.Status ∉ ["Borrowed", "Returned", "Overdue"])


/-- What one round of the loop of `UpdateUserById` does with an entry of
`allowedFields`. -/
inductive FieldAction where
  | skip
  | reject
  | assign (clause : String) (arg : Value)

/-- The action of the loop of `UpdateUserById` on one entry, read off the payload:
only a string value can be assigned; an empty username or email is skipped; an
email without `@` or without `.` is rejected. -/
def UpdateUserById.action (payload : List (String × JsonValue)) (entry : String × String) :
    FieldAction :=
  match payload.lookup entry.1 with
  | some (JsonValue.string str) =>
    if TrimSpace str = "" ∧ entry.1 ≠ "phone_number" ∧ entry.1 ≠ "first_name"
        ∧ entry.1 ≠ "last_name" then .skip
    else if entry.1 = "email" ∧ (!Contains (TrimSpace str) "@" || !Contains (TrimSpace str) ".") then
      .reject
    else .assign (entry.2 ++ " = ?") (Value.str (TrimSpace str))
  | _ => .skip

/-- The assignments that the loop of `UpdateUserById` makes over `entries`: clause
and argument, in the order of `entries`. -/
def UpdateUserById.assignments (payload : List (String × JsonValue))
    (entries : List (String × String)) : List (String × Value) :=
  entries.filterMap (fun entry =>
    match UpdateUserById.action payload entry with
    | .assign clause arg => some (clause, arg)
    | _ => none)

/-- The SET clauses that `UpdateUserById` can send. -/
def userClauses : List String :=
  ["Username = ?", "Email = ?", "PhoneNumber = ?", "First_name = ?", "Last_name = ?",
   "Updated_at = ?"]

/-- The optional fields of a book update in the order in which the specification
lists them, each with the column it stands for and its value as an argument when the
field is present. -/
def bookFields (input : UpdateBookInput) : List (String × Option Value) :=
  [("typeOfBook", input.TypeOfBook.map Value.str),
   ("bookName", input.BookName.map Value.str),
   ("bookAuthorName", input.BookAuthorName.map Value.str),
   ("isAvailable", input.IsAvailable.map Value.bool),
   ("bookQuantity", input.BookQuantity.map Value.int),
   ("bookPrice", input.BookPrice.map Value.float)]

/-- The fields that are present, in the order of `bookFields`, each with its
column and its value. -/
def presentFields (input : UpdateBookInput) : List (String × Value) :=
  (bookFields input).filterMap (fun field => field.2.map (fun v => (field.1, v)))

/-- A row of the table as a response shows it: the dates in the form
`2006-01-02`, a NULL date as an absent field. -/
def OrderRow.view (r : OrderRow) : OrderBook :=
  ⟨r.OrderID, r.PersonID, r.BookID, r.BorrowDate.Format, r.ReturnDate.map Date.Format,
   r.ActualReturnDate.map Date.Format, r.Status⟩

/-- The property asked of the signing primitive: parsing a token that was signed
with the same key recovers its claims and marks it valid, at any reading of the
clock before the expiry that the claims carry. -/
def JWT.faithful (lib : JWT) : Prop :=
  ∀ (claims : SignedDetails) (key raw : String) (t : Int),
    lib.SignedString claims key = .ok raw →
      (∀ e, claims.RegisteredClaims.ExpiresAt = some e → t < e) →
        lib.ParseWithClaims raw key t = .ok ⟨some claims, true⟩

/-- A stand-in for the signing library over a book of issued tokens (raw token
and claims).  Signing looks the claims up and parsing looks the raw token up.
As `jwt.ParseWithClaims` does by default, parsing validates the registered claims
before it marks the token valid: a token whose `exp` is not after the library's
reading of the clock is refused with the library's text for `ErrTokenExpired`. -/
def bookJWT (book : List (String × SignedDetails)) : JWT where
  SignedString := fun claims _ =>
    match book.find? (fun entry => entry.2 = claims) with
    | some entry => .ok entry.1
    | none => .error "key is of invalid type"
  ParseWithClaims := fun raw _ t =>
    match book.find? (fun entry => entry.1 = raw) with
    | none => .error "token is malformed: token contains an invalid number of segments"
    | some entry =>
      match entry.2.RegisteredClaims.ExpiresAt with
      | some expiresAt =>
        if t < expiresAt then .ok ⟨some entry.2, true⟩
        else .error "token has invalid claims: token is expired"
      | none => .ok ⟨some entry.2, true⟩

/-! ## Data for the worked examples -/

/-- A datastore without content that reports `rows` affected rows for every
`Exec` and no row for every `QueryRow`. -/
def constStore (rows : Int) : Driver Unit where
  Exec := fun s _ _ => (.ok (.ok rows), s)
  QueryRow := fun s _ _ => (.errNoRows, s)

/-- A book update whose body sets no field. -/
def noBookFields : UpdateBookInput := ⟨none, none, none, none, none, none⟩

/-- An order update whose body sets no field. -/
def noOrderFields : OrderBook := ⟨0, 0, 0, "", none, none, ""⟩

/-- A book update that sets the name, the availability and the price. -/
def someBookFields : UpdateBookInput :=
  ⟨none, some "Dune", none, some true, none, some ⟨4621819117588971520⟩⟩

/-- A user update with two allow-listed keys and two that are not. -/
def mixedPayload : List (String × JsonValue) :=
  [("role", .string "admin"), ("email", .string " a@b.c "), ("User_id", .string "root"),
   ("first_name", .string "Ann")]

/-- The allow-listed part of `mixedPayload`, in another order. -/
def listedPayload : List (String × JsonValue) :=
  [("first_name", .string "Ann"), ("email", .string " a@b.c ")]

/-- A request to update book 7 (the id comes with blanks around it). -/
def bookRequest : Context UpdateBookInput := ⟨[("id", " 7 ")], .ok someBookFields⟩

/-- The statement that `bookRequest` leads to. -/
def bookCall : Call :=
  ⟨true, "UPDATE Book SET bookName = ?, isAvailable = ?, bookPrice = ? WHERE BookID = ?",
   [.str "Dune", .bool true, .float ⟨4621819117588971520⟩, .str "7"]⟩

/-- A request to update order 5. -/
def orderRequest : Context OrderBook :=
  ⟨[("id", "5")], .ok ⟨0, 3, 0, "2024-02-29", none, none, " Returned"⟩⟩

/-- The statement that `orderRequest` leads to. -/
def orderCall : Call :=
  ⟨true, "UPDATE OrderBook SET PersonID = ?, BorrowDate = ?, Status = ? WHERE OrderID = ?",
   [.int 3, .date ⟨2024, 2, 29⟩, .str "Returned", .int 5]⟩

/-- A request to update the user `u-1`. -/
def userRequest : Context (List (String × JsonValue)) := ⟨[("user_id", "u-1")], .ok mixedPayload⟩

/-- The statement that `userRequest` leads to at instant `0`, the entries of
`allowedFields` being enumerated in the order of the source. -/
def userCall : Call :=
  ⟨true, "UPDATE Person SET Email = ?, First_name = ?, Updated_at = ? WHERE User_id = ?",
   [.str "a@b.c", .str "Ann", .instant 0, .str "u-1"]⟩

/-- The request of `userRequest` with the allow-listed keys only. -/
def listedRequest : Context (List (String × JsonValue)) :=
  ⟨[("user_id", "u-1")], .ok listedPayload⟩

/-- The body that binds from the JSON object with the single key `status` set to
"Returned": every other field keeps its zero value. -/
def returnedBody : OrderBook := ⟨0, 0, 0, "", none, none, "Returned"⟩

/-- A table with the orders 6 and 5, both Borrowed. -/
def sampleTable : List OrderRow :=
  [⟨6, 1, 3, ⟨2024, 1, 3⟩, some ⟨2024, 2, 3⟩, none, "Borrowed"⟩,
   ⟨5, 1, 2, ⟨2024, 1, 2⟩, none, none, "Borrowed"⟩]

/-- The claims of the access token issued at instant 0 to Ann Lee: it expires
after 24 hours, 86400 seconds. -/
def annClaims : SignedDetails :=
  ⟨"ann@example.com", "Ann", "Lee", "u-1", ⟨some 86400000000000, some 0⟩⟩

/-- The claims of the refresh token issued at instant 0. -/
def annRefresh : SignedDetails := ⟨"", "", "", "", ⟨some 604800000000000, some 0⟩⟩

/-- The book that holds the two tokens issued at instant 0 to Ann Lee. -/
def annBook : List (String × SignedDetails) := [("access-1", annClaims), ("refresh-1", annRefresh)]

/-! ## `helper/helper.go`: passwords, identifiers and the stored token pair -/

/-- The library `golang.org/x/crypto/bcrypt`: `GenerateFromPassword` takes the
password, the cost and the entropy it draws for the salt; `CompareHashAndPassword`
takes the hash and the password and returns `none` for a `nil` error. -/
structure Bcrypt where
  GenerateFromPassword : String → Nat → Nat → Except String String
  CompareHashAndPassword : String → String → Option String

/-- The constant `bcrypt.DefaultCost`. -/
def DefaultCost : Nat := 10

/-- The helper `HashPassword`: hashes the given plain-text password using bcrypt. -/
def HashPassword (lib : Bcrypt) (entropy : Nat) (pw : String) : Except String String :=
  match lib.GenerateFromPassword pw DefaultCost entropy with
  | .error err => .error ("hash password: " ++ err)
  | .ok hash => .ok hash

/-- The helper `VerifyPassword`: the hash is its second argument, the plain text
its first. -/
def VerifyPassword (lib : Bcrypt) (userPassword providedPassword : String) : Bool × String :=
  match lib.CompareHashAndPassword providedPassword userPassword with
  | some _ => (false, "login or password is incorrect")
  | none => (true, "")

/-- A lower-case hexadecimal digit. -/
def hexDigit (n : Nat) : Char := "0123456789abcdef".data.getD (n % 16) '0'

/-- The helper `GenerateUUID`: a random version 4 UUID as a string, built from the
128 bits `random` that `uuid.NewString()` draws: 32 hexadecimal digits in groups of
8, 4, 4, 4 and 12, with the version digit and the variant bits set. -/
def GenerateUUID (random : Nat) : String :=
  let nib : Nat → Char := fun i => hexDigit (random / 16 ^ (31 - i))
  ⟨[nib 0, nib 1, nib 2, nib 3, nib 4, nib 5, nib 6, nib 7, '-',
    nib 8, nib 9, nib 10, nib 11, '-',
    '4', nib 13, nib 14, nib 15, '-',
    hexDigit (8 + (random / 16 ^ 15) % 4), nib 17, nib 18, nib 19, '-',
    nib 20, nib 21, nib 22, nib 23, nib 24, nib 25, nib 26, nib 27, nib 28, nib 29, nib 30,
    nib 31]⟩

/-- The statement text `stmt` of `UpdateAllTokens`. -/
def UpdateAllTokens.stmt : String :=
  "\n        UPDATE Person\n        SET Token = ?,\n            Refresh_Token = ?,\n            Updated_at = ?\n        WHERE User_id = ?"

/-- The helper `UpdateAllTokens`: updates the Token and Refresh_Token for a user;
`none` is the `nil` error.  `now` is the reading of `time.Now()`; a call that runs
into the five-second timeout of the context is an `Exec` error. -/
def UpdateAllTokens {σ : Type} (conn : Driver σ) (now : Int) (access refresh userID : String)
    (s : σ) : Option String × σ :=
  let db := Database conn
  if db.isNil then (some "database connection not initialized", s) else
  match db.Exec s UpdateAllTokens.stmt
      [Value.str access, Value.str refresh, Value.instant now, Value.str userID] with
  | (.err err, s1) => (some ("failed to update tokens for user " ++ userID ++ ": " ++ err), s1)
  | (.ok (.error err), s1) =>
    (some ("failed to verify update for user " ++ userID ++ ": " ++ err), s1)
  | (.ok (.ok rowsAffected), s1) =>
    if rowsAffected = 0 then (some ("no user found with User_id " ++ userID), s1)
    else (none, s1)

/-! ## `controllers/userControllers.go`: `CreateUser` and `LoginUser` -/

/-- The statement text `dupChk` of `CreateUser`. -/
def CreateUser.dupChk : String := "SELECT 1 FROM Person WHERE Username = ? OR Email = ?"

/-- The statement text `ins` of `CreateUser`. -/
def CreateUser.ins : String :=
  "\n\t\t\tINSERT INTO Person\n        (Username, Email, First_name, Last_name, Password, PhoneNumber,\n         Created_at, Updated_at, User_id, Token, Refresh_Token)\n        VALUES (?,?,?,?,?,?,?,?,?,?,?);\n    SELECT SCOPE_IDENTITY() AS ID;\n\t\t"

/-- A `Scan` into a single `int`; `none` stands for a scan error. -/
def scanInt : List Value → Option Int
  | [.int v] => some v
  | _ => none

/-- The handler `CreateUser`.  `entropy` is what bcrypt draws for the salt, `now`
the reading of `time.Now()` in the handler, `tokenNow` the one in
`GenerateAllTokens`, and `random` the bits of the new UUID. -/
def CreateUser {σ : Type} (conn : Driver σ) (jwt : JWT) (bcrypt : Bcrypt) (entropy : Nat)
    (now tokenNow : Int) (random : Nat) (c : Context User) (s : σ) : Response User × σ :=
  let db := Database conn
  match c.body with
  | .error _ => (⟨400, .error "invalid request body"⟩, s)
  | .ok newUser =>
    let newUser := { newUser with
      Username := TrimSpace newUser.Username
      Email := TrimSpace newUser.Email
      Password := TrimSpace newUser.Password }
    if newUser.Username = "" ∨ newUser.Email = "" ∨ newUser.Password = "" then
      (⟨400, .error "username, email and password are required"⟩, s)
    else if !Contains newUser.Email "@" || !Contains newUser.Email "." then
      (⟨400, .error "invalid email format"⟩, s)
    else
    match db.QueryRow s CreateUser.dupChk [Value.str newUser.Username, Value.str newUser.Email] with
    | (.row cols, s1) =>
      match scanInt cols with
      | some _ => (⟨409, .error "username or email already exists"⟩, s1)
      | none => (⟨500, .error "internal error"⟩, s1)
    | (.err _, s1) => (⟨500, .error "internal error"⟩, s1)
    | (.errNoRows, s1) =>
      match HashPassword bcrypt entropy newUser.Password with
      | .error _ => (⟨500, .error "failed to process password"⟩, s1)
      | .ok hashed =>
        let newUser := { newUser with Password := hashed }
        let newUser := { newUser with
          CreatedAt := now
          UpdatedAt := now
          UserID := GenerateUUID random }
        match GenerateAllTokens jwt tokenNow newUser.Email newUser.FirstName newUser.LastName
            newUser.UserID with
        | .error _ => (⟨500, .error "failed to generate tokens"⟩, s1)
        | .ok (access, refresh) =>
          let newUser := { newUser with Token := access, RefreshToken := refresh }
          match db.QueryRow s1 CreateUser.ins
              [Value.str newUser.Username, Value.str newUser.Email, Value.str newUser.FirstName,
               Value.str newUser.LastName, Value.str hashed, Value.str newUser.PhoneNumber,
               Value.instant newUser.CreatedAt, Value.instant newUser.UpdatedAt,
               Value.str newUser.UserID, Value.str newUser.Token,
               Value.str newUser.RefreshToken] with
          | (.row cols, s2) =>
            match scanInt cols with
            | some id => (⟨201, .record { newUser with ID := id }⟩, s2)
            | none => (⟨500, .error "failed to create user"⟩, s2)
          | (_, s2) => (⟨500, .error "failed to create user"⟩, s2)

/-- The anonymous struct that `LoginUser` binds the body into. -/
structure LoginInput where
  Username : String
  Password : String
  deriving DecidableEq, Repr

/-- The anonymous struct that `LoginUser` answers with. -/
structure LoginResponse where
  User : User
  Token : String
  RefreshToken : String
  deriving DecidableEq, Repr

/-- The statement text `query` of `LoginUser`. -/
def LoginUser.query : String :=
  "\n            SELECT ID, Username, Email, PhoneNumber, First_name, Last_name, \n                   Password, Created_at, Updated_at, User_id\n            FROM Person \n            WHERE Username = ?"

/-- The `Scan` of `LoginUser` into the ten destinations, followed by the
conversion of the nullable fields: the user and the stored password hash; `none`
stands for a scan error. -/
def LoginUser.scan : List Value → Option (User × String)
  | [.int id, .str username, .str email, phone, first, last, .str hashedPassword,
      .instant created, .instant updated, .str userID] =>
    match scanNullString phone, scanNullString first, scanNullString last with
    | some phoneNumber, some firstName, some lastName =>
      some (⟨id, username, email, phoneNumber, firstName, lastName, "", "", "", created,
        updated, userID⟩, hashedPassword)
    | _, _, _ => none
  | _ => none

/-- The handler `LoginUser`: authenticates a user and generates tokens.
`tokenNow` is the reading of `time.Now()` in `GenerateAllTokens` and `updateNow` the
one in `UpdateAllTokens`. -/
def LoginUser {σ : Type} (conn : Driver σ) (jwt : JWT) (bcrypt : Bcrypt)
    (tokenNow updateNow : Int) (c : Context LoginInput) (s : σ) :
    Response LoginResponse × σ :=
  let db := Database conn
  if db.isNil then (⟨500, .error "database connection failed"⟩, s) else
  match c.body with
  | .error e => (⟨400, .error ("invalid request body: " ++ e)⟩, s)
  | .ok input =>
    let input : LoginInput := ⟨TrimSpace input.Username, TrimSpace input.Password⟩
    if input.Username = "" ∨ input.Password = "" then
      (⟨400, .error "username and password are required"⟩, s)
    else
    match db.QueryRow s LoginUser.query [Value.str input.Username] with
    | (.errNoRows, s1) => (⟨401, .error "invalid username or password"⟩, s1)
    | (.err _, s1) => (⟨500, .error "failed to retrieve user"⟩, s1)
    | (.row cols, s1) =>
      match LoginUser.scan cols with
      | none => (⟨500, .error "failed to retrieve user"⟩, s1)
      | some (user, hashedPassword) =>
        match VerifyPassword bcrypt input.Password hashedPassword with
        | (false, msg) => (⟨401, .error msg⟩, s1)
        | (true, _) =>
          match GenerateAllTokens jwt tokenNow user.Email user.FirstName user.LastName
              user.UserID with
          | .error _ => (⟨500, .error "failed to generate tokens"⟩, s1)
          | .ok (token, refreshToken) =>
            match UpdateAllTokens conn updateNow token refreshToken user.UserID s1 with
            | (some _, s2) => (⟨500, .error "failed to update tokens"⟩, s2)
            | (none, s2) => (⟨200, .record ⟨user, token, refreshToken⟩⟩, s2)

/-! ## A model of the Person table -/

/-- A row of the Person table; a NULL is `none`. -/
structure PersonRow where
  ID : Int
  Username : String
  Email : String
  First_name : Option String
  Last_name : Option String
  Password : String
  PhoneNumber : Option String
  Created_at : Int
  Updated_at : Int
  User_id : String
  Token : Option String
  Refresh_Token : Option String
  deriving DecidableEq, Repr

/-- The columns of Person that an UPDATE may assign: all but the identity column. -/
inductive PersonColumn where
  | Username | Email | First_name | Last_name | Password | PhoneNumber | Created_at
  | Updated_at | User_id | Token | Refresh_Token
  deriving DecidableEq, Repr

/-- The column named by a clause `<column> = ?`. -/
def PersonColumn.ofClause (clause : List Char) : Option PersonColumn :=
  if clause = "Username = ?".data then some .Username
  else if clause = "Email = ?".data then some .Email
  else if clause = "First_name = ?".data then some .First_name
  else if clause = "Last_name = ?".data then some .Last_name
  else if clause = "Password = ?".data then some .Password
  else if clause = "PhoneNumber = ?".data then some .PhoneNumber
  else if clause = "Created_at = ?".data then some .Created_at
  else if clause = "Updated_at = ?".data then some .Updated_at
  else if clause = "User_id = ?".data then some .User_id
  else if clause = "Token = ?".data then some .Token
  else if clause = "Refresh_Token = ?".data then some .Refresh_Token
  else none

/-- The clauses of the SET list of a statement `<head><clauses><tail>`, or `none`
for a text of another form. -/
def setListOf (head tail cs : List Char) : Option (List (List Char)) :=
  if head.isPrefixOf cs ∧ tail.reverse.isPrefixOf (cs.drop head.length).reverse then
    some (trimLead (splitClauses ((cs.drop head.length).reverse.drop tail.length).reverse))
  else none

/-- Reads `UPDATE Person SET <clauses> WHERE User_id = ?`: the assigned columns in
the order of the text, or `none` for any other statement. -/
def parsePersonUpdate (q : String) : Option (List PersonColumn) :=
  (setListOf "UPDATE Person SET ".data " WHERE User_id = ?".data q.data).bind
    (fun clauses => clauses.mapM PersonColumn.ofClause)

/-- A nullable text column takes a string or NULL. -/
def toNullString : Value → Option (Option String)
  | .null => some none
  | .str v => some (some v)
  | _ => none

/-- One assignment on a row; `none` when the value does not fit the column. -/
def PersonRow.assign (r : PersonRow) : PersonColumn → Value → Option PersonRow
  | .Username, .str v => some { r with Username := v }
  | .Email, .str v => some { r with Email := v }
  | .First_name, v => (toNullString v).map (fun x => { r with First_name := x })
  | .Last_name, v => (toNullString v).map (fun x => { r with Last_name := x })
  | .Password, .str v => some { r with Password := v }
  | .PhoneNumber, v => (toNullString v).map (fun x => { r with PhoneNumber := x })
  | .Created_at, .instant t => some { r with Created_at := t }
  | .Updated_at, .instant t => some { r with Updated_at := t }
  | .User_id, .str v => some { r with User_id := v }
  | .Token, v => (toNullString v).map (fun x => { r with Token := x })
  | .Refresh_Token, v => (toNullString v).map (fun x => { r with Refresh_Token := x })
  | _, _ => none

/-- The assignments of a SET list, applied to a row from left to right. -/
def PersonRow.assignAll (r : PersonRow) : List PersonColumn → List Value → Option PersonRow
  | [], [] => some r
  | col :: cols, v :: vs => (r.assign col v).bind (fun r1 => r1.assignAll cols vs)
  | _, _ => none

/-- The statement `UPDATE Person SET ... WHERE User_id = uid` on every row. -/
def updatePersons (cols : List PersonColumn) (vals : List Value) (uid : String) :
    List PersonRow → Option (List PersonRow)
  | [] => some []
  | r :: rows =>
    if r.User_id = uid then
      match r.assignAll cols vals, updatePersons cols vals uid rows with
      | some r1, some rows1 => some (r1 :: rows1)
      | _, _ => none
    else (updatePersons cols vals uid rows).map (fun rows1 => r :: rows1)

/-- A nullable text column as `QueryRow` returns it. -/
def ofNullString (v : Option String) : Value := (v.map Value.str).getD .null

/-- The identity value of the next inserted row: one more than the largest so far. -/
def nextID (table : List PersonRow) : Int := (table.map (fun r => r.ID)).foldl max 0 + 1

/-- The result of an UPDATE on the Person table: the statement fails as a whole,
leaving the table as it is, when a value does not fit its column, and otherwise
reports the number of rows whose User_id matches. -/
def execPersonUpdate (cols : List PersonColumn) (vals : List Value) (uid : String)
    (table : List PersonRow) : ExecResult × List PersonRow :=
  match updatePersons cols vals uid table with
  | some table1 => (.ok (.ok ((table.filter (fun r => r.User_id = uid)).length : Int)), table1)
  | none => (.err "conversion failed", table)

/-- White space collapsed: every run of white space becomes one blank, and a run
that follows white space (`afterSpace`) is dropped. -/
def squeeze (afterSpace : Bool) : List Char → List Char
  | [] => []
  | c :: cs =>
    if isSpace c then (if afterSpace then squeeze true cs else ' ' :: squeeze true cs)
    else c :: squeeze false cs

/-- A statement on one line, as a datastore reads it: the white space at both ends
dropped and every run of white space in between replaced by one blank. -/
def oneLine (q : String) : String :=
  ⟨(squeeze true q.data).rdropWhile (fun c => c == ' ')⟩

/-- Whether a statement is a query: its text, on one line, starts with the word
`SELECT`. -/
def isSelect (q : String) : Bool := "SELECT ".data.isPrefixOf (oneLine q).data

/-- A datastore that holds the Person table, without any constraint of its own on
the rows.  `Exec` understands every statement `UPDATE Person SET <clauses> WHERE
User_id = ?`, however its white space is laid out: it assigns the columns that the
SET list of the text names, in the order of the text, from the arguments in the same
order, on the rows selected by the last argument.  These are the UPDATE of
`UpdateAllTokens` and the UPDATE of `UpdateUserById`.  `QueryRow` understands the
duplicate check and the INSERT of `CreateUser` and the SELECT of `LoginUser` and of
`UpdateUserById`. -/
def personStore : Driver (List PersonRow) where
  Exec := fun table q args =>
    match parsePersonUpdate (oneLine q), args.getLast?, args.dropLast with
    | some cols, some (.str uid), vals => execPersonUpdate cols vals uid table
    | _, _, _ => (.err "statement not understood", table)
  QueryRow := fun table q args =>
    if q = CreateUser.dupChk then
      match args with
      | [.str username, .str email] =>
        match table.find? (fun r => r.Username = username ∨ r.Email = email) with
        | some _ => (.row [.int 1], table)
        | none => (.errNoRows, table)
      | _ => (.err "wrong arguments", table)
    else if q = CreateUser.ins then
      match args with
      | [.str username, .str email, .str first, .str last, .str password, .str phone,
          .instant created, .instant updated, .str uid, .str token, .str refresh] =>
        (.row [.int (nextID table)],
          table ++ [⟨nextID table, username, email, some first, some last, password,
            some phone, created, updated, uid, some token, some refresh⟩])
      | _ => (.err "wrong arguments", table)
    else if q = LoginUser.query then
      match args with
      | [.str username] =>
        match table.find? (fun r => r.Username = username) with
        | some r =>
          (.row [.int r.ID, .str r.Username, .str r.Email, ofNullString r.PhoneNumber,
            ofNullString r.First_name, ofNullString r.Last_name, .str r.Password,
            .instant r.Created_at, .instant r.Updated_at, .str r.User_id], table)
        | none => (.errNoRows, table)
      | _ => (.err "wrong arguments", table)
    else if q = UpdateUserById.selectQuery then
      match args with
      | [.str uid] =>
        match table.find? (fun r => r.User_id = uid) with
        | some r =>
          (.row [.int r.ID, .str r.Username, .str r.Email, ofNullString r.PhoneNumber,
            ofNullString r.First_name, ofNullString r.Last_name, .instant r.Created_at,
            .instant r.Updated_at, .str r.User_id], table)
        | none => (.errNoRows, table)
      | _ => (.err "wrong arguments", table)
    else (.err "statement not understood", table)

/-! ## A stand-in for bcrypt -/

/-- A stand-in for bcrypt that keeps the password readable: the hash is a marker
followed by the password.  As `bcrypt.GenerateFromPassword` does, it refuses a
password of more than 72 bytes; as `bcrypt.CompareHashAndPassword` does, it tells a
text that is no hash from a hash of another password, by the error it returns. -/
def plainBcrypt : Bcrypt where
  GenerateFromPassword := fun password _ _ =>
    if password.utf8ByteSize > 72 then .error "bcrypt: password length exceeds 72 bytes"
    else .ok ("$2a$10$" ++ password)
  CompareHashAndPassword := fun hashedPassword password =>
    if hashedPassword = "$2a$10$" ++ password then none
    else if "$2a$10$".data.isPrefixOf hashedPassword.data then
      some "crypto/bcrypt: hashedPassword is not the hash of the given password"
    else some "crypto/bcrypt: hashedSecret too short to be a bcrypted password"

/-! ## Predicates and data for the token and password statements -/

/-- The local variable `accessClaims` of `GenerateAllTokens`. -/
def GenerateAllTokens.accessClaims (now : Int) (email first last uid : String) : SignedDetails :=
  { Email := email, FirstName := first, LastName := last, Uid := uid,
    RegisteredClaims :=
      { ExpiresAt := NewNumericDate (now + 24 * Hour), IssuedAt := NewNumericDate now } }

/-- The local variable `refreshClaims` of `GenerateAllTokens`: the literal sets the
registered claims only, so the identity fields keep their zero value. -/
def GenerateAllTokens.refreshClaims (now : Int) : SignedDetails :=
  { Email := "", FirstName := "", LastName := "", Uid := "",
    RegisteredClaims :=
      { ExpiresAt := NewNumericDate (now + 7 * 24 * Hour), IssuedAt := NewNumericDate now } }

/-- The property asked of bcrypt: a hash that it generated compares equal to the
password it was generated from. -/
def Bcrypt.sound (lib : Bcrypt) : Prop :=
  ∀ (password hash : String) (cost entropy : Nat),
    lib.GenerateFromPassword password cost entropy = .ok hash →
      lib.CompareHashAndPassword hash password = none

/-- Another property asked of bcrypt: what it generates is a hash, not the password
it was given in place of one, nor that password with white space around it.  A hash
of bcrypt is a text of 60 characters without white space that encodes the cost, the
salt and the digest of the password, so the property says that no password is the
text of its own hash; this is asked of the digest, as of any one-way function, and
does not follow from the format. -/
def Bcrypt.hides (lib : Bcrypt) : Prop :=
  ∀ (password hash : String) (cost entropy : Nat),
    lib.GenerateFromPassword password cost entropy = .ok hash →
      hash ≠ password ∧ TrimSpace hash ≠ password

/-- A signed token is never the empty string: the compact form joins three
segments with dots. -/
def JWT.nonEmpty (lib : JWT) : Prop :=
  ∀ (claims : SignedDetails) (key raw : String), lib.SignedString claims key = .ok raw → raw ≠ ""

/-- A password of 73 bytes. -/
def longPassword : String := ⟨List.replicate 73 'a'⟩

/-- The identity alice, whose stored hash is the one of "secret123". -/
def aliceRow : PersonRow :=
  ⟨1, "alice", "alice@example.com", some "Al", none, "$2a$10$secret123", none, 0, 0, "u-1",
   some "old-access", some "old-refresh"⟩

/-- The identity bob. -/
def bobRow : PersonRow :=
  ⟨2, "bob", "bob@example.com", none, none, "$2a$10$hunter2", none, 0, 0, "u-2", none, none⟩

/-- The book that holds the two tokens issued at instant 0 to alice. -/
def aliceBook : List (String × SignedDetails) :=
  [("alice-access", GenerateAllTokens.accessClaims 0 "alice@example.com" "Al" "" "u-1"),
   ("alice-refresh", GenerateAllTokens.refreshClaims 0)]

/-- The arguments of the INSERT of `CreateUser` for the bound user, the hash, the
clock reading, the new identifier and the pair. -/
def CreateUser.insArgs (newUser : User) (hashed : String) (now : Int)
    (uid access refresh : String) : List Value :=
  [Value.str (TrimSpace newUser.Username), Value.str (TrimSpace newUser.Email),
   Value.str newUser.FirstName, Value.str newUser.LastName, Value.str hashed,
   Value.str newUser.PhoneNumber, Value.instant now, Value.instant now, Value.str uid,
   Value.str access, Value.str refresh]

/-- The registration of alice, as bound from the request body. -/
def aliceForm : User :=
  ⟨0, " alice", "alice@example.com", "", "Al", "", "secret123", "", "", 0, 0, ""⟩

/-- The book that holds the two tokens issued at instant 6 to the identity that
`aliceForm` creates with the UUID drawn from 0. -/
def newAliceBook : List (String × SignedDetails) :=
  [("alice-access", GenerateAllTokens.accessClaims 6 "alice@example.com" "Al" ""
      "00000000-0000-4000-8000-000000000000"),
   ("alice-refresh", GenerateAllTokens.refreshClaims 6)]

/-- The parts of a list joined with a separator, on character lists. -/
def joinParts (sep : List Char) : List (List Char) → List Char
  | [] => []
  | [p] => p
  | p :: q :: rest => p ++ sep ++ joinParts sep (q :: rest)

/-- What identifies a row and guards its login: the identity value, the external
identifier and the password hash. -/
def PersonRow.credentials (r : PersonRow) : Int × String × String :=
  (r.ID, r.User_id, r.Password)

/-- The columns that the statements of `UpdateUserById` and `UpdateAllTokens`
assign. -/
def mutableColumns : List PersonColumn :=
  [.Username, .Email, .PhoneNumber, .First_name, .Last_name, .Updated_at, .Token,
   .Refresh_Token]

/-- A request to `UpdateUserById` for the identity bob that asks for the username
of alice. -/
def bobRename : Context (List (String × JsonValue)) :=
  ⟨[("user_id", "u-2")], .ok [("username", JsonValue.string "alice")]⟩

/-- A login of alice with her password. -/
def aliceLogin : Context LoginInput := ⟨[], .ok ⟨"alice", "secret123"⟩⟩

/-- The usernames of a table are pairwise distinct, and so are its emails. -/
def uniqueIdentities (table : List PersonRow) : Prop :=
  (table.map PersonRow.Username).Nodup ∧ (table.map PersonRow.Email).Nodup

instance (table : List PersonRow) : Decidable (uniqueIdentities table) := by
  unfold uniqueIdentities
  exact inferInstance

/-! ## Data for the statements on tokens without expiry and on login answers -/

/-- Claims that carry an `iat` and no `exp`. -/
def openClaims : SignedDetails := ⟨"ann@example.com", "Ann", "Lee", "u-1", ⟨none, some 0⟩⟩

/-- A book that holds one token, signed over claims without `exp`. -/
def openBook : List (String × SignedDetails) := [("open-1", openClaims)]

/-- A login under a username that no identity has. -/
def carolLogin : Context LoginInput := ⟨[], .ok ⟨"carol", "wrong"⟩⟩

/-- A login of alice with a password that is not hers. -/
def aliceWrongLogin : Context LoginInput := ⟨[], .ok ⟨"alice", "wrong"⟩⟩

/-- A registration whose password is blank once trimmed. -/
def blankPasswordForm : User :=
  ⟨0, "alice", "alice@example.com", "", "Al", "", "   ", "", "", 0, 0, ""⟩

/-- A registration whose email has no dot. -/
def dotlessEmailForm : User :=
  ⟨0, "alice", "alice@example", "", "Al", "", "secret123", "", "", 0, 0, ""⟩

/-! ## Predicates and data for the statement on statement texts -/

/-- Which of the six optional fields a book update provides, in the order of the
source. -/
def UpdateBookInput.provided (input : UpdateBookInput) : List Bool :=
  [input.TypeOfBook.isSome, input.BookName.isSome, input.BookAuthorName.isSome,
   input.IsAvailable.isSome, input.BookQuantity.isSome, input.BookPrice.isSome]

/-- Which of the six fields an order update provides, in the order of the source:
a number other than zero, a string other than the empty one, a pointer other than
`nil`. -/
def OrderBook.provided (o : OrderBook) : List Bool :=
  [decide (o.PersonID ≠ 0), decide (o.BookID ≠ 0), decide (o.BorrowDate ≠ ""),
   o.ReturnDate.isSome, o.ActualReturnDate.isSome, decide (o.Status ≠ "")]

/-- Whether the loop of `UpdateUserById` takes the entry up from the payload: the
key is present with a string value, which for username and email is not blank. -/
def UpdateUserById.takes (payload : List (String × JsonValue)) (entry : String × String) :
    Bool :=
  match UpdateUserById.action payload entry with
  | .assign _ _ => true
  | _ => false

/-- The clauses whose flag is set, in order. -/
def flagged : List Bool → List String → List String
  | true :: flags, clause :: clauses => clause :: flagged flags clauses
  | false :: flags, _ :: clauses => flagged flags clauses
  | _, _ => []

/-- A user update that renames the user and sets the first name. -/
def renamePayload : List (String × JsonValue) :=
  [("username", .string "bob"), ("first_name", .string "Bo")]

/-- A user update with the same two keys, the username being blank. -/
def blankNamePayload : List (String × JsonValue) :=
  [("username", .string " "), ("first_name", .string "Bo")]

/-! ## `routes/UserRoutes.go` -/

/-- The handlers that `UserRoutes` registers. -/
inductive UserHandler where
  | CreateUser | GetUsers | GetUserById | UpdateUserById | LoginUser
  deriving DecidableEq, Repr

/-- A route of the router: method, full path pattern and handler. -/
structure Route where
  method : String
  path : String
  handler : UserHandler
  deriving DecidableEq, Repr

/-- The function `UserRoutes`: the five routes of the group `/user`, each
registered under the path of the group followed by its own relative path. -/
def UserRoutes : List Route :=
  let userGroup := "/user"
  [⟨"POST", userGroup ++ "", .CreateUser⟩,
   ⟨"GET", userGroup ++ "", .GetUsers⟩,
   ⟨"GET", userGroup ++ "/:user_id", .GetUserById⟩,
   ⟨"PUT", userGroup ++ "/:id", .UpdateUserById⟩,
   ⟨"POST", userGroup ++ "/login", .LoginUser⟩]

/-- The segments of a path: the runs of characters between slashes. -/
def segments : List Char → List (List Char)
  | [] => [[]]
  | c :: cs =>
    if c = '/' then [] :: segments cs
    else
      match segments cs with
      | [] => [[c]]
      | seg :: segs => (c :: seg) :: segs

/-- Matching of a path against a pattern of the router, segment by segment: a
segment `:name` of the pattern takes any segment that is not empty and binds it
to `name`; any other segment of the pattern takes itself only. -/
def matchSegments : List (List Char) → List (List Char) → Option (List (String × String))
  | [], [] => some []
  | (':' :: name) :: pattern, seg :: path =>
    if seg = [] then none
    else (matchSegments pattern path).map (fun params => (⟨name⟩, ⟨seg⟩) :: params)
  | p :: pattern, seg :: path => if p = seg then matchSegments pattern path else none
  | _, _ => none

/-- The route that serves a request, with the path parameters that the router
hands to its handler (read by `c.Param`): the route of the request's method whose
pattern the path matches. -/
def dispatch (routes : List Route) (method path : String) :
    Option (UserHandler × List (String × String)) :=
  routes.findSome? (fun r =>
    if r.method = method then
      (matchSegments (segments r.path.data) (segments path.data)).map (fun ps => (r.handler, ps))
    else none)

/-! ## Comparisons of `float64` -/

/-- The sign bit of a `float64`. -/
def Float64.sign (f : Float64) : Bool := decide (f.bits / 2 ^ 63 % 2 = 1)

/-- The biased exponent of a `float64`. -/
def Float64.exponent (f : Float64) : Nat := f.bits / 2 ^ 52 % 2 ^ 11

/-- The fraction bits of a `float64`. -/
def Float64.fraction (f : Float64) : Nat := f.bits % 2 ^ 52

/-- Whether a `float64` is a NaN, which compares false with everything. -/
def Float64.isNaN (f : Float64) : Bool := decide (f.exponent = 2047 ∧ f.fraction ≠ 0)

/-- Whether a `float64` is one of the two zeros. -/
def Float64.isZero (f : Float64) : Bool := decide (f.exponent = 0 ∧ f.fraction = 0)

/-- The comparison `f < 0`. -/
def Float64.ltZero (f : Float64) : Bool := f.sign && !f.isNaN && !f.isZero

/-- The comparison `f <= 0`. -/
def Float64.leZero (f : Float64) : Bool := !f.isNaN && (f.sign || f.isZero)

/-- The comparison `f > 1000000`: among the values that are not negative and not
NaN, the order is the order of the bit patterns, and 1000000 is
`0x412E848000000000`. -/
def Float64.gtMillion (f : Float64) : Bool :=
  !f.sign && !f.isNaN && decide (f.bits % 2 ^ 63 > 0x412E848000000000)

/-! ## `controllers/fineControllers.go` -/

/-- The struct `Fine`. -/
structure Fine where
  FineID : Int
  NameOfFine : String
  FineAmount : Float64
  deriving DecidableEq, Repr

/-- The bodies of `CreateFine` that are not a plain error: the map with `error` set
to "a fine with this name already exists" and `existingID`, and the fine created. -/
inductive FineReply where
  | existing (existingID : Int)
  | fine (f : Fine)
  deriving DecidableEq, Repr

/-- The statement text `checkQuery` of `CreateFine`. -/
def CreateFine.checkQuery : String := "SELECT FineID FROM FineTable WHERE NameOfFine = ?"

/-- The statement text `insertQuery` of `CreateFine`. -/
def CreateFine.insertQuery : String :=
  "\n            INSERT INTO FineTable (NameOfFine, FineAmount)\n            VALUES (?, ?);\n            SELECT SCOPE_IDENTITY() AS FineID;"

/-- The answer of `CreateFine` to an error `err` of the INSERT. -/
def CreateFine.insertFailed (ToLower : String → String) (err : String) : Response FineReply :=
  if Contains (ToLower err) "unique" then
    ⟨409, .error "a fine with this name already exists"⟩
  else ⟨500, .error "failed to create fine"⟩

/-- The handler `CreateFine`: handles the creation of a new fine.  `ToLower` is
`strings.ToLower` and `scanError` gives the text of the error with which `Scan`
refuses a row that it cannot convert. -/
def CreateFine {σ : Type} (conn : Driver σ) (ToLower : String → String)
    (scanError : List Value → String) (c : Context Fine) (s : σ) : Response FineReply × σ :=
  let db := Database conn
  if db.isNil then (⟨500, .error "database connection failed"⟩, s) else
  match c.body with
  | .error e => (⟨400, .error ("invalid request body: " ++ e)⟩, s)
  | .ok newFine =>
    let newFine := { newFine with NameOfFine := TrimSpace newFine.NameOfFine }
    if newFine.NameOfFine = "" then (⟨400, .error "name_of_fine is required"⟩, s)
    else if newFine.NameOfFine.utf8ByteSize > 100 then
      (⟨400, .error "name_of_fine is too long (max 100 characters)"⟩, s)
    else if newFine.FineAmount.ltZero then
      (⟨400, .error "fine_amount must be non-negative"⟩, s)
    else if newFine.FineAmount.gtMillion then
      (⟨400, .error "fine_amount is too large (max 1000000)"⟩, s)
    else
    match db.QueryRow s CreateFine.checkQuery [Value.str newFine.NameOfFine] with
    | (.row cols, s1) =>
      match scanInt cols with
      | some existingID => (⟨409, .record (.existing existingID)⟩, s1)
      | none => (⟨500, .error "failed to check fine existence"⟩, s1)
    | (.err _, s1) => (⟨500, .error "failed to check fine existence"⟩, s1)
    | (.errNoRows, s1) =>
      match db.QueryRow s1 CreateFine.insertQuery
          [Value.str newFine.NameOfFine, Value.float newFine.FineAmount] with
      | (.row cols, s2) =>
        match scanInt cols with
        | some id => (⟨201, .record (.fine { newFine with FineID := id })⟩, s2)
        | none => (CreateFine.insertFailed ToLower (scanError cols), s2)
      | (.errNoRows, s2) =>
        (CreateFine.insertFailed ToLower "sql: no rows in result set", s2)
      | (.err err, s2) => (CreateFine.insertFailed ToLower err, s2)

/-! ## Data for the statements on `CreateFine` -/

/-- The lower-case form of a text of ASCII characters. -/
def asciiLower (s : String) : String := ⟨s.data.map Char.toLower⟩

/-- A name of 51 characters that takes 102 bytes: 51 times the letter e with an
acute accent. -/
def accentedName : String := ⟨List.replicate 51 (Char.ofNat 0xE9)⟩

/-- A name of 100 characters and 100 bytes. -/
def plainName : String := ⟨List.replicate 100 'a'⟩

/-- A datastore that holds no fine: the check of `CreateFine` finds no row and its
INSERT returns the identity 1. -/
def fineStore : Driver Unit where
  Exec := fun s _ _ => (.ok (.ok 0), s)
  QueryRow := fun s q _ =>
    if q = CreateFine.insertQuery then (.row [.int 1], s) else (.errNoRows, s)

/-- A datastore that holds the fine names: the check of `CreateFine` finds no row
and its INSERT breaks a unique constraint. -/
def uniqueStore : Driver Unit where
  Exec := fun s _ _ => (.ok (.ok 0), s)
  QueryRow := fun s q _ =>
    if q = CreateFine.insertQuery then
      (.err "mssql: Violation of UNIQUE KEY constraint 'UQ_FineTable_Name'. Cannot insert duplicate key in object 'dbo.FineTable'.", s)
    else (.errNoRows, s)

/-! ## Rows of a query -/

/-- Outcome of `db.Query`: an error, or the rows that `rows.Next` delivers together
with the error, if any, that ends the iteration and that `rows.Err` then reports. -/
inductive RowsResult where
  | err (e : String)
  | rows (rs : List (List Value)) (iterErr : Option String)

/-- The datastore behind `*sql.DB` with `Query` next to `Exec` and `QueryRow`. -/
structure DB (σ : Type) extends Driver σ where
  Query : σ → String → List Value → RowsResult × σ

/-- The loop `for rows.Next()` whose body scans the row into a fresh record and
appends it to the slice: the records, or `none` when a `Scan` fails. -/
def scanRows {α : Type} (scan : List Value → Option α) : List (List Value) → Option (List α)
  | [] => some []
  | row :: rest =>
    match scan row with
    | none => none
    | some item => (scanRows scan rest).map (fun items => item :: items)

/-- The bodies that hold a slice of records inside a map `gin.H`. -/
inductive Listing (α : Type) where
  /-- The map with the single key `data`. -/
  | data (items : List α)
  /-- The map with `error` set to `nil` and `data` set to the slice. -/
  | nilError (items : List α)
  deriving DecidableEq, Repr

/-! ## `controllers/bookControllers.go`: creation and retrieval -/

/-- The struct `Book`. -/
structure Book where
  BookID : Int
  TypeOfBook : String
  BookName : String
  BookAuthorName : String
  IsAvailable : Bool
  BookQuantity : Int
  BookPrice : Float64
  deriving DecidableEq, Repr

/-- The `Scan` of a row of Book into the seven fields; `none` stands for a scan
error. -/
def scanBook : List Value → Option Book
  | [.int bookID, .str typeOfBook, .str bookName, .str bookAuthorName, .bool isAvailable,
      .int bookQuantity, .float bookPrice] =>
    some ⟨bookID, typeOfBook, bookName, bookAuthorName, isAvailable, bookQuantity, bookPrice⟩
  | _ => none

/-- The bodies of `CreateBook` that are not a plain error: the map with `error` set
to "A book with this name and author already exists" and `existingID`, and the map
with `data` set to the book created. -/
inductive BookReply where
  | existing (existingID : Int)
  | data (book : Book)
  deriving DecidableEq, Repr

/-- The statement text `checkQuery` of `CreateBook`. -/
def CreateBook.checkQuery : String :=
  "SELECT BookID FROM Book WHERE bookName = ? AND bookAuthorName = ?"

/-- The statement text `query` of `CreateBook`. -/
def CreateBook.query : String :=
  "\n\t\t\tINSERT INTO Book (typeOfBook, bookName, bookAuthorName, isAvailable, bookQuantity, bookPrice) \n\t\t\tVALUES (?, ?, ?, ?, ?, ?);\n\t\t\tSELECT SCOPE_IDENTITY() AS ID;\n\t\t"

/-- The statement text with which `CreateBook` reads the new book back. -/
def CreateBook.fetchQuery : String :=
  "SELECT BookID, typeOfBook, bookName, bookAuthorName, isAvailable, bookQuantity, bookPrice FROM Book WHERE BookID = ?"

/-- The handler `CreateBook`. -/
def CreateBook {σ : Type} (conn : Driver σ) (c : Context Book) (s : σ) :
    Response BookReply × σ :=
  let db := Database conn
  match c.body with
  | .error _ => (⟨400, .error "Invalid request body"⟩, s)
  | .ok newBook =>
    if newBook.BookName = "" ∨ newBook.TypeOfBook = "" ∨ newBook.BookAuthorName = "" then
      (⟨400, .error "Book name, type of book, and author name are required fields"⟩, s)
    else
    match db.QueryRow s CreateBook.checkQuery
        [Value.str newBook.BookName, Value.str newBook.BookAuthorName] with
    | (.row cols, s1) =>
      match scanInt cols with
      | some existingID => (⟨409, .record (.existing existingID)⟩, s1)
      | none =>
        (⟨500, .error "Unable to verify book uniqueness. Please try again later."⟩, s1)
    | (.err _, s1) =>
      (⟨500, .error "Unable to verify book uniqueness. Please try again later."⟩, s1)
    | (.errNoRows, s1) =>
      match db.QueryRow s1 CreateBook.query
          [Value.str newBook.TypeOfBook, Value.str newBook.BookName,
           Value.str newBook.BookAuthorName, Value.bool newBook.IsAvailable,
           Value.int newBook.BookQuantity, Value.float newBook.BookPrice] with
      | (.row cols, s2) =>
        match scanInt cols with
        | none => (⟨500, .error "Unable to create book. Please try again later."⟩, s2)
        | some id =>
          match db.QueryRow s2 CreateBook.fetchQuery [Value.int id] with
          | (.errNoRows, s3) => (⟨404, .error "Book not found"⟩, s3)
          | (.err _, s3) =>
            (⟨500, .error "Unable to fetch created book data. Please try again later."⟩, s3)
          | (.row cols, s3) =>
            match scanBook cols with
            | none =>
              (⟨500, .error "Unable to fetch created book data. Please try again later."⟩, s3)
            | some bookDetails => (⟨201, .record (.data bookDetails)⟩, s3)
      | (_, s2) => (⟨500, .error "Unable to create book. Please try again later."⟩, s2)

/-- The statement text `query` of `GetBooks`. -/
def GetBooks.query : String :=
  "SELECT BookID, typeOfBook, bookName, bookAuthorName, isAvailable, bookQuantity, bookPrice FROM Book"

/-- The handler `GetBooks`. -/
def GetBooks {σ : Type} (conn : DB σ) (s : σ) : Response (Listing Book) × σ :=
  match conn.Query s GetBooks.query [] with
  | (.err _, s1) => (⟨500, .error "Unable to fetch books. Please try again later."⟩, s1)
  | (.rows rs iterErr, s1) =>
    match scanRows scanBook rs with
    | none => (⟨500, .error "Unable to process book data. Please try again later."⟩, s1)
    | some books =>
      match iterErr with
      | some _ => (⟨500, .error "Unable to process book data. Please try again later."⟩, s1)
      | none => (⟨200, .record (.data books)⟩, s1)

/-- The statement text `query` of `GetBookByID`. -/
def GetBookByID.query : String :=
  "SELECT BookID, typeOfBook, bookName, bookAuthorName, isAvailable, bookQuantity, bookPrice FROM Book WHERE BookID = ?"

/-- The handler `GetBookByID`. -/
def GetBookByID {σ : Type} (conn : Driver σ) (c : Context Unit) (s : σ) :
    Response BookReply × σ :=
  let db := Database conn
  let bookID := c.Param "id"
  match db.QueryRow s GetBookByID.query [Value.str bookID] with
  | (.errNoRows, s1) => (⟨404, .error "Book not found"⟩, s1)
  | (.err _, s1) => (⟨500, .error "Unable to fetch book data. Please try again later."⟩, s1)
  | (.row cols, s1) =>
    match scanBook cols with
    | none => (⟨500, .error "Unable to fetch book data. Please try again later."⟩, s1)
    | some book => (⟨200, .record (.data book)⟩, s1)

/-- The part that `GetBookByName`, `GetBookByAuthor`, `GetBookByType` and
`GetBookByAvailability` have in common from `db.Query` on: the query with one
argument, the loop over the rows, the test of `rows.Err`, and the answer 404 with
the message `nothing` when no book is found. -/
def searchBooks {σ : Type} (conn : DB σ) (query : String) (arg : Value) (nothing : String)
    (s : σ) : Response (Listing Book) × σ :=
  match conn.Query s query [arg] with
  | (.err _, s1) => (⟨500, .errorData "Unable to fetch book data"⟩, s1)
  | (.rows rs iterErr, s1) =>
    match scanRows scanBook rs with
    | none => (⟨500, .errorData "Error processing book data"⟩, s1)
    | some books =>
      match iterErr with
      | some _ => (⟨500, .errorData "Error processing book data"⟩, s1)
      | none =>
        if books.length = 0 then (⟨404, .errorData nothing⟩, s1)
        else (⟨200, .record (.nilError books)⟩, s1)

/-- The statement text `query` of `GetBookByName`. -/
def GetBookByName.query : String :=
  "\n            SELECT BookID, typeOfBook, bookName, bookAuthorName, isAvailable, bookQuantity, bookPrice\n            FROM Book\n            WHERE LOWER(bookName) LIKE LOWER(?)"

/-- The handler `GetBookByName`. -/
def GetBookByName {σ : Type} (conn : DB σ) (c : Context Unit) (s : σ) :
    Response (Listing Book) × σ :=
  let bookName := TrimSpace (c.Param "name")
  if bookName = "" then (⟨400, .errorData "Book name cannot be empty"⟩, s) else
  let searchName := "%" ++ bookName ++ "%"
  searchBooks conn GetBookByName.query (Value.str searchName)
    "No books found with the given name" s

/-- The statement text `query` of `GetBookByAuthor`. -/
def GetBookByAuthor.query : String :=
  "SELECT BookID, typeOfBook, bookName, bookAuthorName, isAvailable, bookQuantity, bookPrice\n            FROM Book\n            WHERE LOWER(bookAuthorName) LIKE LOWER(?)"

/-- The handler `GetBookByAuthor`. -/
def GetBookByAuthor {σ : Type} (conn : DB σ) (c : Context Unit) (s : σ) :
    Response (Listing Book) × σ :=
  let bookAuthorName := TrimSpace (c.Param "author")
  if bookAuthorName = "" then (⟨400, .errorData "Book author name cannot be empty"⟩, s) else
  let searchAuthor := "%" ++ bookAuthorName ++ "%"
  searchBooks conn GetBookByAuthor.query (Value.str searchAuthor)
    "No books found with the given author" s

/-- The statement text `query` of `GetBookByType`. -/
def GetBookByType.query : String :=
  "SELECT BookID, typeOfBook, bookName, bookAuthorName, isAvailable, bookQuantity, bookPrice\n\t\t\t\t\t     FROM Book\n            WHERE LOWER(typeOfBook) LIKE LOWER(?)"

/-- The handler `GetBookByType`. -/
def GetBookByType {σ : Type} (conn : DB σ) (c : Context Unit) (s : σ) :
    Response (Listing Book) × σ :=
  let typeOfBook := TrimSpace (c.Param "type")
  if typeOfBook = "" then (⟨400, .errorData "Book type cannot be empty"⟩, s) else
  let searchType := "%" ++ typeOfBook ++ "%"
  searchBooks conn GetBookByType.query (Value.str searchType)
    "No books found with the given type" s

/-- The statement text `query` of `GetBookByAvailability`. -/
def GetBookByAvailability.query : String :=
  "\n            SELECT BookID, typeOfBook, bookName, bookAuthorName, isAvailable, bookQuantity, bookPrice\n            FROM Book\n            WHERE isAvailable = ?"

/-- The handler `GetBookByAvailability`; `ToLower` is `strings.ToLower`. -/
def GetBookByAvailability {σ : Type} (conn : DB σ) (ToLower : String → String)
    (c : Context Unit) (s : σ) : Response (Listing Book) × σ :=
  let availability := TrimSpace (c.Param "isAvailable")
  if availability = "" then (⟨400, .errorData "Availability status cannot be empty"⟩, s) else
  let availability := ToLower availability
  let isAvailable : Option Int :=
    if availability = "true" ∨ availability = "1" then some 1
    else if availability = "false" ∨ availability = "0" then some 0
    else none
  match isAvailable with
  | none =>
    (⟨400, .errorData "Invalid availability status. Use 'true', 'false', '1', or '0'"⟩, s)
  | some isAvailable =>
    searchBooks conn GetBookByAvailability.query (Value.int isAvailable)
      "No books found with the given availability" s

/-! ## `controllers/fineBookControllers.go` -/

/-- The struct `FineBook`: a fine record of the FineBookTable. -/
structure FineBook where
  FineID : Int
  PersonID : Int
  OrderID : Int
  FineTypeID : Int
  FineAmount : Float64
  deriving DecidableEq, Repr

/-- The `Scan` of a row of FineBookTable into the five fields; `none` stands for a
scan error. -/
def scanFineBook : List Value → Option FineBook
  | [.int fineID, .int personID, .int orderID, .int fineTypeID, .float fineAmount] =>
    some ⟨fineID, personID, orderID, fineTypeID, fineAmount⟩
  | _ => none

/-- The statement text `insertQuery` of `CreateFineBook`. -/
def CreateFineBook.insertQuery : String :=
  "\n            INSERT INTO FineBookTable (PersonID, OrderID, FineTypeID, FineAmount)\n            VALUES (?, ?, ?, ?);\n            SELECT SCOPE_IDENTITY() AS FineID;"

/-- The handler `CreateFineBook`: handles the creation of a new fine record. -/
def CreateFineBook {σ : Type} (conn : Driver σ) (c : Context FineBook) (s : σ) :
    Response FineBook × σ :=
  let db := Database conn
  if db.isNil then (⟨500, .error "database connection failed"⟩, s) else
  match c.body with
  | .error e => (⟨400, .error ("invalid request body: " ++ e)⟩, s)
  | .ok newFine =>
    if newFine.PersonID ≤ 0 ∨ newFine.OrderID ≤ 0 ∨ newFine.FineTypeID ≤ 0
        ∨ newFine.FineAmount.leZero then
      (⟨400, .error "all fields must be positive"⟩, s)
    else
    match db.QueryRow s CreateFineBook.insertQuery
        [Value.int newFine.PersonID, Value.int newFine.OrderID, Value.int newFine.FineTypeID,
         Value.float newFine.FineAmount] with
    | (.row cols, s1) =>
      match scanInt cols with
      | some fineID => (⟨201, .record { newFine with FineID := fineID }⟩, s1)
      | none => (⟨500, .error "failed to create fine record"⟩, s1)
    | (_, s1) => (⟨500, .error "failed to create fine record"⟩, s1)

/-- The statement text `query` of `GetAllFineBooks`. -/
def GetAllFineBooks.query : String :=
  "SELECT TOP (1000) FineID, PersonID, OrderID, FineTypeID, FineAmount FROM FineBookTable"

/-- The handler `GetAllFineBooks`: retrieves all fine records (top 1000). -/
def GetAllFineBooks {σ : Type} (conn : DB σ) (s : σ) : Response (List FineBook) × σ :=
  if conn.toDriver.isNil then (⟨500, .error "database connection failed"⟩, s) else
  match conn.Query s GetAllFineBooks.query [] with
  | (.err _, s1) => (⟨500, .error "failed to get fine records"⟩, s1)
  | (.rows rs iterErr, s1) =>
    match scanRows scanFineBook rs with
    | none => (⟨500, .error "failed to scan fine"⟩, s1)
    | some fines =>
      match iterErr with
      | some _ => (⟨500, .error "failed to get fine records"⟩, s1)
      | none => (⟨200, .record fines⟩, s1)

/-- The statement text `query` of `GetFineBookByID`. -/
def GetFineBookByID.query : String :=
  "SELECT FineID, PersonID, OrderID, FineTypeID, FineAmount FROM FineBookTable WHERE FineID = ?"

/-- The handler `GetFineBookByID`: retrieves a specific fine record by ID. -/
def GetFineBookByID {σ : Type} (conn : Driver σ) (c : Context Unit) (s : σ) :
    Response FineBook × σ :=
  let db := Database conn
  if db.isNil then (⟨500, .error "database connection failed"⟩, s) else
  match Atoi (c.Param "id") with
  | none => (⟨400, .error "invalid fine_id"⟩, s)
  | some fineID =>
    if fineID ≤ 0 then (⟨400, .error "invalid fine_id"⟩, s) else
    match db.QueryRow s GetFineBookByID.query [Value.int fineID] with
    | (.errNoRows, s1) => (⟨404, .error "fine record not found"⟩, s1)
    | (.err _, s1) => (⟨500, .error "failed to retrieve fine record"⟩, s1)
    | (.row cols, s1) =>
      match scanFineBook cols with
      | none => (⟨500, .error "failed to retrieve fine record"⟩, s1)
      | some fine => (⟨200, .record fine⟩, s1)

/-- The statement text `updateQuery` of `UpdateFineBook`. -/
def UpdateFineBook.updateQuery : String :=
  "\n            UPDATE FineBookTable\n            SET PersonID = ?, OrderID = ?, FineTypeID = ?, FineAmount = ?\n            WHERE FineID = ?"

/-- The handler `UpdateFineBook`: handles updating an existing fine record. -/
def UpdateFineBook {σ : Type} (conn : Driver σ) (c : Context FineBook) (s : σ) :
    Response FineBook × σ :=
  let db := Database conn
  if db.isNil then (⟨500, .error "database connection failed"⟩, s) else
  match Atoi (c.Param "id") with
  | none => (⟨400, .error "invalid fine_id"⟩, s)
  | some fineID =>
    if fineID ≤ 0 then (⟨400, .error "invalid fine_id"⟩, s) else
    match c.body with
    | .error e => (⟨400, .error ("invalid request body: " ++ e)⟩, s)
    | .ok updateFine =>
      if updateFine.PersonID ≤ 0 ∨ updateFine.OrderID ≤ 0 ∨ updateFine.FineTypeID ≤ 0
          ∨ updateFine.FineAmount.leZero then
        (⟨400, .error "all fields must be positive"⟩, s)
      else
      match db.Exec s UpdateFineBook.updateQuery
          [Value.int updateFine.PersonID, Value.int updateFine.OrderID,
           Value.int updateFine.FineTypeID, Value.float updateFine.FineAmount,
           Value.int fineID] with
      | (.err _, s1) => (⟨500, .error "failed to update fine record"⟩, s1)
      | (.ok (.error _), s1) => (⟨500, .error "failed to verify update"⟩, s1)
      | (.ok (.ok rowsAffected), s1) =>
        if rowsAffected = 0 then (⟨404, .error "fine record not found"⟩, s1)
        else (⟨200, .record { updateFine with FineID := fineID }⟩, s1)

/-! ## `controllers/fineControllers.go`: `GetFines` -/

/-- The `Scan` of a row of FineTable into the three fields; `none` stands for a
scan error. -/
def scanFine : List Value → Option Fine
  | [.int fineID, .str nameOfFine, .float fineAmount] => some ⟨fineID, nameOfFine, fineAmount⟩
  | _ => none

/-- The statement text `query` of `GetFines`. -/
def GetFines.query : String := "SELECT FineID, NameOfFine, FineAmount FROM FineTable"

/-- The handler `GetFines`; it does not look at `rows.Err`. -/
def GetFines {σ : Type} (conn : DB σ) (s : σ) : Response (List Fine) × σ :=
  match conn.Query s GetFines.query [] with
  | (.err _, s1) => (⟨500, .error "failed to fetch fines"⟩, s1)
  | (.rows rs _, s1) =>
    match scanRows scanFine rs with
    | none => (⟨500, .error "failed to scan fine"⟩, s1)
    | some fines => (⟨200, .record fines⟩, s1)

/-! ## `controllers/orderBookControllers.go`: creation and listing -/

/-- An optional string as an argument of a statement: `nil` is NULL. -/
def ofNullable (v : Option String) : Value := (v.map Value.str).getD .null

/-- The test of `CreateOrderBook` on an optional date: the pointer is not `nil` and
`time.Parse` refuses the text. -/
def unparsable : Option String → Bool
  | some value => (timeParse value).isNone
  | none => false

/-- The statement text `insertQuery` of `CreateOrderBook`. -/
def CreateOrderBook.insertQuery : String :=
  "\n            INSERT INTO OrderBook (PersonID, BookID, BorrowDate, ReturnDate, ActualReturnDate, Status)\n            VALUES (?, ?, ?, ?, ?, ?);\n            SELECT SCOPE_IDENTITY() AS OrderID;"

/-- The handler `CreateOrderBook`: handles the creation of a new order. -/
def CreateOrderBook {σ : Type} (conn : Driver σ) (c : Context OrderBook) (s : σ) :
    Response OrderBook × σ :=
  let db := Database conn
  if db.isNil then (⟨500, .error "database connection failed"⟩, s) else
  match c.body with
  | .error e => (⟨400, .error ("invalid request body: " ++ e)⟩, s)
  | .ok newOrder =>
    if newOrder.PersonID ≤ 0 then (⟨400, .error "person_id must be positive"⟩, s) else
    if newOrder.BookID ≤ 0 then (⟨400, .error "book_id must be positive"⟩, s) else
    if newOrder.BorrowDate = "" then (⟨400, .error "borrow_date is required"⟩, s) else
    match timeParse newOrder.BorrowDate with
    | none => (⟨400, .error "borrow_date must be in YYYY-MM-DD format"⟩, s)
    | some borrowDate =>
      if unparsable newOrder.ReturnDate then
        (⟨400, .error "return_date must be in YYYY-MM-DD format"⟩, s)
      else
      if unparsable newOrder.ActualReturnDate then
        (⟨400, .error "actual_return_date must be in YYYY-MM-DD format"⟩, s)
      else
      let newOrder := { newOrder with Status := TrimSpace newOrder.Status }
      let newOrder :=
        if newOrder.Status = "" then { newOrder with Status := "Borrowed" } else newOrder
      if !isValidStatus newOrder.Status then
        (⟨400, .error "status must be one of: Borrowed, Returned, Overdue"⟩, s)
      else
      match db.QueryRow s CreateOrderBook.insertQuery
          [Value.int newOrder.PersonID, Value.int newOrder.BookID, Value.date borrowDate,
           ofNullable newOrder.ReturnDate, ofNullable newOrder.ActualReturnDate,
           Value.str newOrder.Status] with
      | (.row cols, s1) =>
        match scanInt cols with
        | some orderID => (⟨201, .record { newOrder with OrderID := orderID }⟩, s1)
        | none => (⟨500, .error "failed to create order"⟩, s1)
      | (_, s1) => (⟨500, .error "failed to create order"⟩, s1)

/-- The body of the loop of `GetAllOrderBooks`: the `Scan` of a row and the
formatting of its dates; `none` stands for a scan error. -/
def GetAllOrderBooks.row (cols : List Value) : Option OrderBook :=
  match GetOrderBookByID.scan cols with
  | none => none
  | some (order, borrowDate, returnDate, actualReturnDate) =>
    let order := { order with BorrowDate := borrowDate.Format }
    let order :=
      match returnDate with
      | some t => { order with ReturnDate := some t.Format }
      | none => order
    let order :=
      match actualReturnDate with
      | some t => { order with ActualReturnDate := some t.Format }
      | none => order
    some order

/-- The statement text `query` of `GetAllOrderBooks`. -/
def GetAllOrderBooks.query : String :=
  "\n\t\t\tSELECT OrderID, PersonID, BookID, BorrowDate, ReturnDate, ActualReturnDate, Status\n\t\t\tFROM OrderBook"

/-- The handler `GetAllOrderBooks`: retrieves all orders. -/
def GetAllOrderBooks {σ : Type} (conn : DB σ) (s : σ) : Response (List OrderBook) × σ :=
  if conn.toDriver.isNil then (⟨500, .error "database connection failed"⟩, s) else
  match conn.Query s GetAllOrderBooks.query [] with
  | (.err _, s1) => (⟨500, .error "failed to get orders"⟩, s1)
  | (.rows rs iterErr, s1) =>
    match scanRows GetAllOrderBooks.row rs with
    | none => (⟨500, .error "failed to scan order"⟩, s1)
    | some orders =>
      match iterErr with
      | some _ => (⟨500, .error "failed to get orders"⟩, s1)
      | none => (⟨200, .record orders⟩, s1)

/-! ## `controllers/userControllers.go`: retrieval -/

/-- The statement text `q` of `GetUsers`. -/
def GetUsers.q : String :=
  "\n            SELECT ID, Username, Email, PhoneNumber, First_name, Last_name,\n                   Created_at, Updated_at, User_id\n            FROM Person"

/-- The handler `GetUsers`: retrieves all users from the Person table.  The `Scan`
of a row and the conversion of the nullable fields are those of
`UpdateUserById`. -/
def GetUsers {σ : Type} (conn : DB σ) (s : σ) : Response (List User) × σ :=
  match conn.Query s GetUsers.q [] with
  | (.err _, s1) => (⟨500, .error "failed to retrieve users"⟩, s1)
  | (.rows rs iterErr, s1) =>
    match scanRows UpdateUserById.scan rs with
    | none => (⟨500, .error "failed to process users"⟩, s1)
    | some users =>
      match iterErr with
      | some _ => (⟨500, .error "failed to process users"⟩, s1)
      | none => (⟨200, .record users⟩, s1)

/-- The statement text `q` of `GetUserById`. -/
def GetUserById.q : String :=
  "\n            SELECT ID, Username, Email, PhoneNumber, First_name, Last_name,\n                   Created_at, Updated_at, User_id\n            FROM Person\n            WHERE User_id = ?"

/-- The handler `GetUserById`: retrieves a user by their UserID. -/
def GetUserById {σ : Type} (conn : Driver σ) (c : Context Unit) (s : σ) : Response User × σ :=
  let db := Database conn
  let uid := c.Param "user_id"
  if db.isNil then (⟨500, .error "database connection failed"⟩, s) else
  match db.QueryRow s GetUserById.q [Value.str uid] with
  | (.errNoRows, s1) => (⟨404, .error "user not found"⟩, s1)
  | (.err _, s1) => (⟨500, .error "failed to retrieve user"⟩, s1)
  | (.row cols, s1) =>
    match UpdateUserById.scan cols with
    | none => (⟨500, .error "failed to retrieve user"⟩, s1)
    | some u => (⟨200, .record u⟩, s1)

/-- The statement text `q` of `GetUserByName`. -/
def GetUserByName.q : String :=
  "\n\t\t\tSELECT ID, Username, Email, PhoneNumber, FirstName, LastName,\n\t\t\t       CreatedAt, UpdatedAt, UserID\n\t\t\t  FROM Person\n\t\t\t WHERE Username = @p1"

/-- The handler `GetUserByName`: a single user by username; the argument is the
named parameter `p1`. -/
def GetUserByName {σ : Type} (conn : Driver σ) (c : Context Unit) (s : σ) :
    Response User × σ :=
  let db := Database conn
  let username := c.Param "username"
  match db.QueryRow s GetUserByName.q [Value.str username] with
  | (.errNoRows, s1) => (⟨404, .error "user not found"⟩, s1)
  | (.err _, s1) => (⟨500, .error "internal error"⟩, s1)
  | (.row cols, s1) =>
    match UpdateUserById.scan cols with
    | none => (⟨500, .error "internal error"⟩, s1)
    | some u => (⟨200, .record u⟩, s1)

/-! ## The audit of datastore errors -/

/-- Whether an `Exec` failed: `Exec` returned an error, or `RowsAffected` did. -/
def ExecResult.failed : ExecResult → Bool
  | .err _ => true
  | .ok (.error _) => true
  | .ok (.ok _) => false

/-- Whether `QueryRow(...).Scan` got an error of the datastore other than
`sql.ErrNoRows`. -/
def RowResult.failed : RowResult → Bool
  | .err _ => true
  | _ => false

/-- Whether `Query` returned an error. -/
def RowsResult.failed : RowsResult → Bool
  | .err _ => true
  | .rows _ _ => false

/-- The driver `d` with a flag: the second component of the state becomes true as
soon as an `Exec` or a `QueryRow` fails. -/
def Driver.audited {σ : Type} (d : Driver σ) : Driver (σ × Bool) where
  Exec := fun s q a => ((d.Exec s.1 q a).1, ((d.Exec s.1 q a).2, s.2 || (d.Exec s.1 q a).1.failed))
  QueryRow := fun s q a =>
    ((d.QueryRow s.1 q a).1, ((d.QueryRow s.1 q a).2, s.2 || (d.QueryRow s.1 q a).1.failed))

/-- The datastore `d` with a flag, as `Driver.audited`, `Query` included. -/
def DB.audited {σ : Type} (d : DB σ) : DB (σ × Bool) where
  toDriver := d.toDriver.audited
  Query := fun s q a =>
    ((d.Query s.1 q a).1, ((d.Query s.1 q a).2, s.2 || (d.Query s.1 q a).1.failed))

/-- What a run over an audited datastore shows of a handler: when a statement has
failed, the status is 500 and the body is one of `bodies`. -/
def failsWith {ρ σ : Type} (out : Response ρ × (σ × Bool)) (bodies : List (Body ρ)) : Prop :=
  out.2.2 = true → out.1.status = 500 ∧ out.1.body ∈ bodies

/-- The result of an `Exec` with the text of its error replaced. -/
def ExecResult.mapErr (f : String → String) : ExecResult → ExecResult
  | .err e => .err (f e)
  | .ok (.error e) => .ok (.error (f e))
  | .ok (.ok rowsAffected) => .ok (.ok rowsAffected)

/-- The result of a `QueryRow` with the text of its error replaced. -/
def RowResult.mapErr (f : String → String) : RowResult → RowResult
  | .err e => .err (f e)
  | .errNoRows => .errNoRows
  | .row cols => .row cols

/-- The result of a `Query` with the text of its errors replaced. -/
def RowsResult.mapErr (f : String → String) : RowsResult → RowsResult
  | .err e => .err (f e)
  | .rows rs iterErr => .rows rs (iterErr.map f)

/-- The driver `d` with the text of every error replaced by its image under `f`:
the same datastore, failing at the same statements with other words. -/
def Driver.mapErr {σ : Type} (d : Driver σ) (f : String → String) : Driver σ where
  Exec := fun s q a => ((d.Exec s q a).1.mapErr f, (d.Exec s q a).2)
  QueryRow := fun s q a => ((d.QueryRow s q a).1.mapErr f, (d.QueryRow s q a).2)

/-- The datastore `d` with the text of every error replaced, `Query` included. -/
def DB.mapErr {σ : Type} (d : DB σ) (f : String → String) : DB σ where
  toDriver := d.toDriver.mapErr f
  Query := fun s q a => ((d.Query s q a).1.mapErr f, (d.Query s q a).2)

/-- A fine to create, under a name that the table holds already. -/
def lateFine : Context Fine := ⟨[], .ok ⟨0, " Late return ", ⟨4617315517961601024⟩⟩⟩

/-- A datastore that has lost its connection: every statement fails. -/
def brokenStore : DB Unit where
  Exec := fun s _ _ => (.err "mssql: connection reset by peer", s)
  QueryRow := fun s _ _ => (.err "mssql: connection reset by peer", s)
  Query := fun s _ _ => (.err "mssql: connection reset by peer", s)

/-- A datastore whose connection is lost while the rows of a query are read, before
the first row. -/
def cutStore : DB Unit where
  Exec := fun s _ _ => (.err "mssql: connection reset by peer", s)
  QueryRow := fun s _ _ => (.err "mssql: connection reset by peer", s)
  Query := fun s _ _ => (.rows [] (some "mssql: connection reset by peer"), s)

/-! ## Lemmas on statement texts and builders -/

theorem placeholders_append (a b : String) :
    placeholders (a ++ b) = placeholders a + placeholders b := by
  simp [placeholders, String.data_append, List.count_append]

theorem placeholders_Join (cls : List String) (h : ∀ cl ∈ cls, placeholders cl = 1) :
    placeholders (Join cls ", ") = cls.length := by
  induction cls with
  | nil => decide
  | cons a rest ih =>
    cases rest with
    | nil => simpa [Join] using h
    | cons b rest =>
      have hrest : ∀ cl ∈ b :: rest, placeholders cl = 1 := fun cl hcl =>
        h cl (List.mem_cons_of_mem _ hcl)
      have ha : placeholders a = 1 := h a (List.mem_cons_self _ _)
      have hsep : placeholders ", " = 0 := by decide
      simp only [Join, placeholders_append, ih hrest, ha, hsep, List.length_cons]
      omega

theorem aligned_nil : Builder.aligned ⟨[], []⟩ := by
  simp [Builder.aligned]

theorem aligned_add {b : Builder} (hb : b.aligned) (cl : String) (arg : Value)
    (hcl : placeholders cl = 1) : (b.add cl arg).aligned := by
  obtain ⟨hlen, hph⟩ := hb
  refine ⟨by simp [Builder.add, hlen], ?_⟩
  intro x hx
  simp only [Builder.add, List.mem_append, List.mem_singleton] at hx
  rcases hx with hx | hx
  · exact hph x hx
  · exact hx ▸ hcl

/-- The statement text of an aligned builder has one placeholder per argument
once the key predicate and the key are appended. -/
theorem statement_placeholders (b : Builder) (hb : b.aligned) (head tail : String) (key : Value)
    (hhead : placeholders head = 0) (htail : placeholders tail = 1) :
    placeholders (head ++ Join b.setClauses ", " ++ tail) = (b.args ++ [key]).length := by
  simp [placeholders_append, placeholders_Join _ hb.2, hhead, htail, hb.1]

theorem build_book_aligned (input : UpdateBookInput) : (UpdateBook.build input).aligned := by
  rcases input with ⟨_ | a, _ | b, _ | c, _ | d, _ | e, _ | f⟩ <;>
    simp only [UpdateBook.build, Id.run, pure, bind] <;>
    repeat (first | exact aligned_nil | apply aligned_add | decide)

/-! ## Lemmas on `UpdateOrderBook.build` -/

/-- The valid statuses are exactly Borrowed, Returned and Overdue. -/
theorem isValidStatus_iff (status : String) :
    isValidStatus status = true ↔ status ∈ ["Borrowed", "Returned", "Overdue"] := by
  by_cases h1 : status = "Borrowed"
  · subst h1; decide
  by_cases h2 : status = "Returned"
  · subst h2; decide
  by_cases h3 : status = "Overdue"
  · subst h3; decide
  have e1 : (status == "Borrowed") = false := by simpa using h1
  have e2 : (status == "Returned") = false := by simpa using h2
  have e3 : (status == "Overdue") = false := by simpa using h3
  simp [isValidStatus, validStatuses, List.lookup, h1, h2, h3, e1, e2, e3]

theorem personID_ok {o : OrderBook} {b b1 : Builder} (h : UpdateOrderBook.personID o b = .ok b1) :
    0 ≤ o.PersonID ∧ (b.aligned → b1.aligned) := by
  unfold UpdateOrderBook.personID at h
  split_ifs at h with h1 h2
  · cases h; exact ⟨by omega, fun hb => aligned_add hb _ _ (by decide)⟩
  · cases h; exact ⟨by omega, id⟩

theorem bookID_ok {o : OrderBook} {b b1 : Builder} (h : UpdateOrderBook.bookID o b = .ok b1) :
    0 ≤ o.BookID ∧ (b.aligned → b1.aligned) := by
  unfold UpdateOrderBook.bookID at h
  split_ifs at h with h1 h2
  · cases h; exact ⟨by omega, fun hb => aligned_add hb _ _ (by decide)⟩
  · cases h; exact ⟨by omega, id⟩

theorem borrowDate_ok {o : OrderBook} {b b1 : Builder}
    (h : UpdateOrderBook.borrowDate o b = .ok b1) :
    (o.BorrowDate ≠ "" → timeParse o.BorrowDate ≠ none) ∧ (b.aligned → b1.aligned) := by
  unfold UpdateOrderBook.borrowDate at h
  split_ifs at h with h1
  · split at h
    · cases h
    · rename_i d hd
      cases h
      exact ⟨fun _ => by simp [hd], fun hb => aligned_add hb _ _ (by decide)⟩
  · cases h; exact ⟨fun hne => absurd hne h1, id⟩

theorem returnDate_ok {o : OrderBook} {b b1 : Builder}
    (h : UpdateOrderBook.returnDate o b = .ok b1) :
    (∀ d, o.ReturnDate = some d → timeParse d ≠ none) ∧ (b.aligned → b1.aligned) := by
  unfold UpdateOrderBook.returnDate at h
  split at h
  · rename_i d hd
    split at h
    · cases h
    · rename_i t ht
      cases h
      refine ⟨fun d1 hd1 => ?_, fun hb => aligned_add hb _ _ (by decide)⟩
      rw [hd] at hd1; cases hd1; simp [ht]
  · rename_i hd
    cases h; exact ⟨fun d1 hd1 => (by rw [hd] at hd1; cases hd1), id⟩

theorem actualReturnDate_ok {o : OrderBook} {b b1 : Builder}
    (h : UpdateOrderBook.actualReturnDate o b = .ok b1) :
    (∀ d, o.ActualReturnDate = some d → timeParse d ≠ none) ∧ (b.aligned → b1.aligned) := by
  unfold UpdateOrderBook.actualReturnDate at h
  split at h
  · rename_i d hd
    split at h
    · cases h
    · rename_i t ht
      cases h
      refine ⟨fun d1 hd1 => ?_, fun hb => aligned_add hb _ _ (by decide)⟩
      rw [hd] at hd1; cases hd1; simp [ht]
  · rename_i hd
    cases h; exact ⟨fun d1 hd1 => (by rw [hd] at hd1; cases hd1), id⟩

theorem status_ok {o o1 : OrderBook} {b b1 : Builder}
    (h : UpdateOrderBook.status o b = .ok (b1, o1)) :
    (o.Status ≠ "" → isValidStatus (TrimSpace o.Status) = true) ∧ (b.aligned → b1.aligned) := by
  unfold UpdateOrderBook.status at h
  by_cases h1 : o.Status = ""
  · simp only [h1, ne_eq, not_true_eq_false, ↓reduceIte, Except.ok.injEq, Prod.mk.injEq] at h
    obtain ⟨hb, -⟩ := h
    subst hb
    exact ⟨fun hne => absurd h1 hne, id⟩
  · cases h2 : isValidStatus (TrimSpace o.Status)
    · simp [h1, h2] at h
    · simp only [ne_eq, h1, not_false_eq_true, ↓reduceIte, h2, Bool.not_true,
        Bool.false_eq_true, Except.ok.injEq, Prod.mk.injEq] at h
      obtain ⟨hb, -⟩ := h
      subst hb
      exact ⟨fun _ => rfl, fun hb => aligned_add hb _ _ (by decide)⟩

/-- A successful build has validated every provided field and yields an aligned
builder. -/
theorem build_order_ok {o o1 : OrderBook} {b : Builder}
    (h : UpdateOrderBook.build o = .ok (b, o1)) : ¬ o.invalid ∧ b.aligned := by
  simp only [UpdateOrderBook.build, bind, Except.bind] at h
  split at h
  · cases h
  rename_i b1 h1
  split at h
  · cases h
  rename_i b2 h2
  split at h
  · cases h
  rename_i b3 h3
  split at h
  · cases h
  rename_i b4 h4
  split at h
  · cases h
  rename_i b5 h5
  obtain ⟨p1, a1⟩ := personID_ok h1
  obtain ⟨p2, a2⟩ := bookID_ok h2
  obtain ⟨p3, a3⟩ := borrowDate_ok h3
  obtain ⟨p4, a4⟩ := returnDate_ok h4
  obtain ⟨p5, a5⟩ := actualReturnDate_ok h5
  obtain ⟨p6, a6⟩ := status_ok h
  refine ⟨?_, a6 (a5 (a4 (a3 (a2 (a1 aligned_nil)))))⟩
  rintro (hx | hx | ⟨hne, hx⟩ | ⟨d, hd, hx⟩ | ⟨d, hd, hx⟩ | ⟨hne, hx⟩)
  · omega
  · omega
  · exact p3 hne hx
  · exact p4 d hd hx
  · exact p5 d hd hx
  · exact hx ((isValidStatus_iff _).mp (p6 hne))

theorem personID_error {o : OrderBook} {b : Builder} {r : Response OrderBook}
    (h : UpdateOrderBook.personID o b = .error r) : r.status = 400 := by
  unfold UpdateOrderBook.personID at h
  split_ifs at h
  cases h; rfl

theorem bookID_error {o : OrderBook} {b : Builder} {r : Response OrderBook}
    (h : UpdateOrderBook.bookID o b = .error r) : r.status = 400 := by
  unfold UpdateOrderBook.bookID at h
  split_ifs at h
  cases h; rfl

theorem borrowDate_error {o : OrderBook} {b : Builder} {r : Response OrderBook}
    (h : UpdateOrderBook.borrowDate o b = .error r) : r.status = 400 := by
  unfold UpdateOrderBook.borrowDate at h
  split_ifs at h
  split at h
  · cases h; rfl
  · cases h

theorem returnDate_error {o : OrderBook} {b : Builder} {r : Response OrderBook}
    (h : UpdateOrderBook.returnDate o b = .error r) : r.status = 400 := by
  unfold UpdateOrderBook.returnDate at h
  repeat' split at h
  all_goals first
    | (cases h; rfl)
    | cases h

theorem actualReturnDate_error {o : OrderBook} {b : Builder} {r : Response OrderBook}
    (h : UpdateOrderBook.actualReturnDate o b = .error r) : r.status = 400 := by
  unfold UpdateOrderBook.actualReturnDate at h
  repeat' split at h
  all_goals first
    | (cases h; rfl)
    | cases h

theorem status_error {o : OrderBook} {b : Builder} {r : Response OrderBook}
    (h : UpdateOrderBook.status o b = .error r) : r.status = 400 := by
  unfold UpdateOrderBook.status at h
  by_cases h1 : o.Status = ""
  · simp [h1] at h
  · cases h2 : isValidStatus (TrimSpace o.Status)
    · simp only [ne_eq, h1, not_false_eq_true, ↓reduceIte, h2, Bool.not_false,
        Except.error.injEq] at h
      rw [← h]
    · simp [h1, h2] at h

/-- Every early return of the build is a 400 response. -/
theorem build_order_error {o : OrderBook} {r : Response OrderBook}
    (h : UpdateOrderBook.build o = .error r) : r.status = 400 := by
  simp only [UpdateOrderBook.build, bind, Except.bind] at h
  split at h
  · rename_i e h1; cases h; exact personID_error h1
  split at h
  · rename_i e h1; cases h; exact bookID_error h1
  split at h
  · rename_i e h1; cases h; exact borrowDate_error h1
  split at h
  · rename_i e h1; cases h; exact returnDate_error h1
  split at h
  · rename_i e h1; cases h; exact actualReturnDate_error h1
  exact status_error h

/-! ## C1: an update without fields -/

/-- C1, as stated, fails for a book id that is blank: for the path parameter `" "`
and a body that sets no field, `UpdateBook` answers 400 with the error
"Book ID cannot be empty", which is not its error "No fields provided for update". -/
theorem blank_book_id_is_not_no_fields :
    (UpdateBook (constStore 1).traced ⟨[("id", " ")], .ok noBookFields⟩ ((), [])).1
        = ⟨400, .errorData "Book ID cannot be empty"⟩
      ∧ (UpdateBook (constStore 1).traced ⟨[("id", " ")], .ok noBookFields⟩ ((), [])).1
        ≠ ⟨400, .errorData "No fields provided for update"⟩ := by
  decide

/-- C1 (amended): an `UpdateBook` request with a non-blank id whose body sets none
of the six optional fields, and an `UpdateOrderBook` request with a valid positive
id whose body has PersonID = 0, BookID = 0, an empty BorrowDate, no ReturnDate, no
ActualReturnDate and an empty Status, are answered 400 with the handler's
no-fields error, and the datastore state and the log of statements are left as they
were: neither `Exec` nor `QueryRow` is called. -/
theorem update_without_fields_rejected {σ : Type} (conn : Driver σ) (s : σ × List Call)
    (cb : Context UpdateBookInput) (co : Context OrderBook) (o : OrderBook) (orderID : Int)
    (hbid : TrimSpace (cb.Param "id") ≠ "")
    (hbb : cb.body = .ok ⟨none, none, none, none, none, none⟩)
    (hoid : Atoi (co.Param "id") = some orderID) (hpos : 0 < orderID)
    (hob : co.body = .ok o)
    (h1 : o.PersonID = 0) (h2 : o.BookID = 0) (h3 : o.BorrowDate = "")
    (h4 : o.ReturnDate = none) (h5 : o.ActualReturnDate = none) (h6 : o.Status = "") :
    UpdateBook conn.traced cb s = (⟨400, .errorData "No fields provided for update"⟩, s)
      ∧ UpdateOrderBook conn.traced co s
        = (⟨400, .error "no valid fields provided for update"⟩, s) := by
  constructor
  · simp [UpdateBook, hbid, hbb, UpdateBook.build, Id.run]
  · have hbuild : UpdateOrderBook.build o = .ok (⟨[], []⟩, o) := by
      simp [UpdateOrderBook.build, UpdateOrderBook.personID, UpdateOrderBook.bookID,
        UpdateOrderBook.borrowDate, UpdateOrderBook.returnDate,
        UpdateOrderBook.actualReturnDate, UpdateOrderBook.status, h1, h2, h3, h4, h5, h6,
        bind, Except.bind]
    have hnot : ¬ orderID ≤ 0 := by omega
    simp [UpdateOrderBook, Driver.isNil, hoid, hnot, hob, hbuild]

/-- C1 at book id 7 and order id 5, with bodies that set no field. -/
theorem update_without_fields_rejected_witness :
    UpdateBook (constStore 1).traced ⟨[("id", "7")], .ok noBookFields⟩ ((), [])
        = (⟨400, .errorData "No fields provided for update"⟩, ((), []))
      ∧ UpdateOrderBook (constStore 1).traced ⟨[("id", "5")], .ok noOrderFields⟩ ((), [])
        = (⟨400, .error "no valid fields provided for update"⟩, ((), [])) :=
  update_without_fields_rejected (constStore 1) ((), []) ⟨[("id", "7")], .ok noBookFields⟩
    ⟨[("id", "5")], .ok noOrderFields⟩ noOrderFields 5 (by decide) rfl (by decide) (by decide)
    rfl rfl rfl rfl rfl rfl rfl

/-! ## C2: an invalid field of an order update -/

/-- C2, as stated, fails for a status with surrounding white space: `" Returned"`
is not one of Borrowed, Returned, Overdue, yet `UpdateOrderBook` trims it, accepts
it and sends the UPDATE to the datastore (here answered with 200). -/
theorem untrimmed_status_is_accepted :
    " Returned" ∉ ["Borrowed", "Returned", "Overdue"]
      ∧ UpdateOrderBook (constStore 1).traced
          ⟨[("id", "5")], .ok ⟨0, 0, 0, "", none, none, " Returned"⟩⟩ ((), [])
        = (⟨200, .record ⟨5, 0, 0, "", none, none, "Returned"⟩⟩,
            ((), [⟨true, "UPDATE OrderBook SET Status = ? WHERE OrderID = ?",
              [.str "Returned", .int 5]⟩])) := by
  decide

/-- C2 (amended): an `UpdateOrderBook` request with a valid positive id in which a
provided field is invalid (a negative PersonID, a negative BookID, a non-empty
BorrowDate or a present ReturnDate or ActualReturnDate that `time.Parse` rejects
for the layout `2006-01-02`, or a non-empty Status that is none of Borrowed,
Returned, Overdue once surrounding white space is trimmed) is answered 400, and the
datastore state and the log of statements are left as they were, whatever the
other fields hold. -/
theorem invalid_order_field_rejected {σ : Type} (conn : Driver σ) (s : σ × List Call)
    (c : Context OrderBook) (o : OrderBook) (orderID : Int)
    (hid : Atoi (c.Param "id") = some orderID) (hpos : 0 < orderID) (hb : c.body = .ok o)
    (hinv : o.invalid) :
    (UpdateOrderBook conn.traced c s).1.status = 400
      ∧ (UpdateOrderBook conn.traced c s).2 = s := by
  have hnot : ¬ orderID ≤ 0 := by omega
  cases hbuild : UpdateOrderBook.build o with
  | error r =>
    have hr := build_order_error hbuild
    simp [UpdateOrderBook, Driver.isNil, hid, hnot, hb, hbuild, hr]
  | ok res =>
    obtain ⟨b, o1⟩ := res
    exact absurd hinv (build_order_ok hbuild).1

/-- C2 at order id 5 with a valid PersonID and BorrowDate, an impossible
ReturnDate and the status "Lost". -/
theorem invalid_order_field_rejected_witness :
    (UpdateOrderBook (constStore 1).traced
        ⟨[("id", "5")], .ok ⟨0, 3, 0, "2024-02-29", some "2024-02-30", none, "Lost"⟩⟩
        ((), [])).1.status = 400
      ∧ (UpdateOrderBook (constStore 1).traced
        ⟨[("id", "5")], .ok ⟨0, 3, 0, "2024-02-29", some "2024-02-30", none, "Lost"⟩⟩
        ((), [])).2 = ((), []) :=
  invalid_order_field_rejected (constStore 1) ((), [])
    ⟨[("id", "5")], .ok ⟨0, 3, 0, "2024-02-29", some "2024-02-30", none, "Lost"⟩⟩
    ⟨0, 3, 0, "2024-02-29", some "2024-02-30", none, "Lost"⟩ 5 (by decide) (by decide) rfl
    (Or.inr (Or.inr (Or.inr (Or.inl ⟨"2024-02-30", rfl, by decide⟩))))

/-! ## The statement that each update handler sends -/

/-- The only `Exec` of `UpdateBook`, when there is one: the UPDATE built from the
input, followed by the trimmed id; and the answer when it affects no row. -/
theorem UpdateBook_writes {σ : Type} (conn : Driver σ) (c : Context UpdateBookInput) (s : σ) :
    writes (UpdateBook conn.traced c (s, [])).2.2 = []
      ∨ ∃ input q args, c.body = .ok input ∧ (UpdateBook.build input).setClauses ≠ []
        ∧ q = "UPDATE Book SET " ++ Join (UpdateBook.build input).setClauses ", "
              ++ " WHERE BookID = ?"
        ∧ args = (UpdateBook.build input).args ++ [Value.str (TrimSpace (c.Param "id"))]
        ∧ writes (UpdateBook conn.traced c (s, [])).2.2 = [⟨true, q, args⟩]
        ∧ ((conn.Exec s q args).1 = .ok (.ok 0) →
            (UpdateBook conn.traced c (s, [])).1 = ⟨404, .errorData "Book not found"⟩) := by
  unfold UpdateBook
  by_cases hid : TrimSpace (c.Param "id") = ""
  · left; simp [hid, writes]
  cases hb : c.body with
  | error e => left; simp [hid, writes]
  | ok input =>
    by_cases hlen : (UpdateBook.build input).setClauses.length = 0
    · left; simp [hid, hlen, writes]
    right
    refine ⟨input, _, _, rfl, fun h => hlen (by simp [h]), rfl, rfl, ?_⟩
    simp only [hid, hlen, Database, Driver.traced, ↓reduceIte]
    rcases conn.Exec s _ _ with ⟨res, s1⟩
    rcases res with e | (e | n)
    · simp [writes]
    · simp [writes]
    · by_cases hn : n = 0 <;> simp [writes, hn]

/-- The only `Exec` of `UpdateOrderBook`, when there is one. -/
theorem UpdateOrderBook_writes {σ : Type} (conn : Driver σ) (c : Context OrderBook) (s : σ) :
    writes (UpdateOrderBook conn.traced c (s, [])).2.2 = []
      ∨ ∃ o b o1 orderID q args, c.body = .ok o ∧ Atoi (c.Param "id") = some orderID
        ∧ 0 < orderID ∧ UpdateOrderBook.build o = .ok (b, o1) ∧ b.setClauses ≠ []
        ∧ q = "UPDATE OrderBook SET " ++ Join b.setClauses ", " ++ " WHERE OrderID = ?"
        ∧ args = b.args ++ [Value.int orderID]
        ∧ writes (UpdateOrderBook conn.traced c (s, [])).2.2 = [⟨true, q, args⟩]
        ∧ ((conn.Exec s q args).1 = .ok (.ok 0) →
            (UpdateOrderBook conn.traced c (s, [])).1 = ⟨404, .error "order not found"⟩) := by
  unfold UpdateOrderBook
  simp only [Driver.isNil, Bool.false_eq_true, ↓reduceIte, Database]
  cases hid : Atoi (c.Param "id") with
  | none => left; simp [writes]
  | some orderID =>
    by_cases hpos : orderID ≤ 0
    · left; simp [hpos, writes]
    cases hb : c.body with
    | error e => left; simp [hpos, writes]
    | ok o =>
      cases hbuild : UpdateOrderBook.build o with
      | error r => left; simp [hpos, hbuild, writes]
      | ok res =>
        obtain ⟨b, o1⟩ := res
        by_cases hlen : b.setClauses.length = 0
        · left; simp [hpos, hbuild, hlen, writes]
        right
        refine ⟨o, b, o1, orderID, _, _, rfl, rfl, by omega, hbuild,
          fun h => hlen (by simp [h]), rfl, rfl, ?_⟩
        simp only [hpos, hbuild, hlen, Driver.traced, ↓reduceIte]
        rcases conn.Exec s _ _ with ⟨res, s1⟩
        rcases res with e | (e | n)
        · simp [writes]
        · simp [writes]
        · by_cases hn : n = 0 <;> simp [writes, hn]

/-- The only `Exec` of `UpdateUserById`, when there is one. -/
theorem UpdateUserById_writes {σ : Type} (conn : Driver σ) (now : Int)
    (entries : List (String × String)) (c : Context (List (String × JsonValue))) (s : σ) :
    writes (UpdateUserById conn.traced now entries c (s, [])).2.2 = []
      ∨ ∃ payload b q args, c.body = .ok payload
        ∧ UpdateUserById.loop payload entries ⟨[], []⟩ = .ok b ∧ b.setClauses ≠ []
        ∧ q = "UPDATE Person SET " ++ Join (b.add "Updated_at = ?" (Value.instant now)).setClauses ", "
              ++ " WHERE User_id = ?"
        ∧ args = (b.add "Updated_at = ?" (Value.instant now)).args
              ++ [Value.str (c.Param "user_id")]
        ∧ writes (UpdateUserById conn.traced now entries c (s, [])).2.2 = [⟨true, q, args⟩]
        ∧ ((conn.Exec s q args).1 = .ok (.ok 0) →
            (UpdateUserById conn.traced now entries c (s, [])).1
              = ⟨404, .error "user not found"⟩) := by
  unfold UpdateUserById
  simp only [Driver.isNil, Bool.false_eq_true, ↓reduceIte, Database]
  cases hb : c.body with
  | error e => left; simp [writes]
  | ok payload =>
    by_cases huid : c.Param "user_id" = "" ∨ (c.Param "user_id").utf8ByteSize > 36
    · left; simp [huid, writes]
    cases hloop : UpdateUserById.loop payload entries ⟨[], []⟩ with
    | error r => left; simp [huid, hloop, writes]
    | ok b =>
      by_cases hlen : (b.add "Updated_at = ?" (Value.instant now)).setClauses.length = 1
      · left; simp [huid, hloop, hlen, writes]
      right
      have hne : b.setClauses ≠ [] := fun h => hlen (by simp [Builder.add, h])
      refine ⟨payload, b, _, _, rfl, hloop, hne, rfl, rfl, ?_⟩
      simp only [huid, hloop, hlen, Driver.traced, ↓reduceIte]
      rcases conn.Exec s _ _ with ⟨res, s1⟩
      rcases res with e | (e | n)
      · simp [writes]
      · simp [writes]
      · by_cases hn : n = 0
        · simp [writes, hn]
        · simp only [hn, ↓reduceIte]
          rcases conn.QueryRow s1 _ _ with ⟨row, s2⟩
          rcases row with _ | e | cols
          · simp [writes, hn]
          · simp [writes, hn]
          · cases hscan : UpdateUserById.scan cols <;> simp [writes, hn, hscan]

/-! ## Lemmas on the loop of `UpdateUserById` -/

theorem loop_cons (payload : List (String × JsonValue)) (entry : String × String)
    (rest : List (String × String)) (b : Builder) :
    UpdateUserById.loop payload (entry :: rest) b
      = match UpdateUserById.action payload entry with
        | .skip => UpdateUserById.loop payload rest b
        | .reject => .error ⟨400, .error "invalid email format"⟩
        | .assign clause arg => UpdateUserById.loop payload rest (b.add clause arg) := by
  obtain ⟨jsonKey, dbColumn⟩ := entry
  cases hl : payload.lookup jsonKey with
  | none => simp [UpdateUserById.loop, UpdateUserById.action, hl]
  | some v =>
    cases v with
    | string str =>
      simp only [UpdateUserById.loop, UpdateUserById.action, hl]
      split_ifs <;> rfl
    | _ => simp [UpdateUserById.loop, UpdateUserById.action, hl]

/-- An assigned clause is the column of the entry followed by the placeholder. -/
theorem action_assign {payload : List (String × JsonValue)} {entry : String × String}
    {clause : String} {arg : Value}
    (h : UpdateUserById.action payload entry = .assign clause arg) :
    clause = entry.2 ++ " = ?" := by
  cases hl : payload.lookup entry.1 with
  | none => simp [UpdateUserById.action, hl] at h
  | some v =>
    cases v with
    | string str =>
      simp only [UpdateUserById.action, hl] at h
      split_ifs at h
      simp only [FieldAction.assign.injEq] at h
      exact h.1.symm
    | _ => simp [UpdateUserById.action, hl] at h

/-- A loop that ends normally has rejected no entry and has appended exactly the
assignments of its entries. -/
theorem loop_ok (payload : List (String × JsonValue)) :
    ∀ (entries : List (String × String)) (b b1 : Builder),
      UpdateUserById.loop payload entries b = .ok b1 →
        (∀ entry ∈ entries, UpdateUserById.action payload entry ≠ .reject)
        ∧ b1.setClauses = b.setClauses ++ (UpdateUserById.assignments payload entries).map Prod.fst
        ∧ b1.args = b.args ++ (UpdateUserById.assignments payload entries).map Prod.snd
  | [], b, b1, h => by
    simp only [UpdateUserById.loop, Except.ok.injEq] at h
    subst h
    simp [UpdateUserById.assignments]
  | entry :: rest, b, b1, h => by
    rw [loop_cons] at h
    cases hact : UpdateUserById.action payload entry with
    | skip =>
      simp only [hact] at h
      obtain ⟨h1, h2, h3⟩ := loop_ok payload rest b b1 h
      refine ⟨?_, ?_, ?_⟩
      · intro e he
        rcases List.mem_cons.mp he with rfl | he
        · simp [hact]
        · exact h1 e he
      · simpa [UpdateUserById.assignments, hact] using h2
      · simpa [UpdateUserById.assignments, hact] using h3
    | reject => simp [hact] at h
    | assign clause arg =>
      simp only [hact] at h
      obtain ⟨h1, h2, h3⟩ := loop_ok payload rest (b.add clause arg) b1 h
      refine ⟨?_, ?_, ?_⟩
      · intro e he
        rcases List.mem_cons.mp he with rfl | he
        · simp [hact]
        · exact h1 e he
      · simpa [UpdateUserById.assignments, hact, Builder.add] using h2
      · simpa [UpdateUserById.assignments, hact, Builder.add] using h3

/-- A loop that rejects no entry ends normally. -/
theorem loop_total (payload : List (String × JsonValue)) :
    ∀ (entries : List (String × String)) (b : Builder),
      (∀ entry ∈ entries, UpdateUserById.action payload entry ≠ .reject) →
        ∃ b1, UpdateUserById.loop payload entries b = .ok b1
  | [], b, _ => ⟨b, rfl⟩
  | entry :: rest, b, h => by
    rw [loop_cons]
    have hrest : ∀ e ∈ rest, UpdateUserById.action payload e ≠ .reject := fun e he =>
      h e (List.mem_cons_of_mem _ he)
    cases hact : UpdateUserById.action payload entry with
    | skip => exact loop_total payload rest b hrest
    | reject => exact absurd hact (h entry (List.mem_cons_self _ _))
    | assign clause arg => exact loop_total payload rest _ hrest

/-- The only early return of the loop is the 400 for an invalid email. -/
theorem loop_error (payload : List (String × JsonValue)) :
    ∀ (entries : List (String × String)) (b : Builder) (r : Response User),
      UpdateUserById.loop payload entries b = .error r →
        r = ⟨400, .error "invalid email format"⟩
  | [], b, r, h => by simp [UpdateUserById.loop] at h
  | entry :: rest, b, r, h => by
    rw [loop_cons] at h
    cases hact : UpdateUserById.action payload entry with
    | skip => simp only [hact] at h; exact loop_error payload rest b r h
    | reject => simp only [hact, Except.error.injEq] at h; exact h.symm
    | assign clause arg => simp only [hact] at h; exact loop_error payload rest _ r h

/-- The action on an entry depends on the payload through the looked-up key only. -/
theorem action_congr (p1 p2 : List (String × JsonValue)) (entry : String × String)
    (h : p1.lookup entry.1 = p2.lookup entry.1) :
    UpdateUserById.action p1 entry = UpdateUserById.action p2 entry := by
  simp only [UpdateUserById.action, h]

/-- Every assignment over entries of `allowedFields` is one of the five listed
clauses. -/
theorem assignments_clauses (payload : List (String × JsonValue))
    (entries : List (String × String)) (hsub : ∀ entry ∈ entries, entry ∈ allowedFields) :
    ∀ ca ∈ UpdateUserById.assignments payload entries, ca.1 ∈ userClauses := by
  intro ca hca
  simp only [UpdateUserById.assignments, List.mem_filterMap] at hca
  obtain ⟨entry, hentry, hact⟩ := hca
  have hmem := hsub entry hentry
  cases hact1 : UpdateUserById.action payload entry with
  | skip => simp [hact1] at hact
  | reject => simp [hact1] at hact
  | assign clause arg =>
    simp only [hact1, Option.some.injEq] at hact
    subst hact
    rw [action_assign hact1]
    simp only [allowedFields, List.mem_cons, List.mem_singleton, List.not_mem_nil,
      or_false] at hmem
    rcases hmem with rfl | rfl | rfl | rfl | rfl <;> dsimp only <;> decide

/-! ## C3: shape of the statement -/

theorem userClauses_placeholders : ∀ cl ∈ userClauses, placeholders cl = 1 := by decide

theorem loop_aligned {payload : List (String × JsonValue)} {entries : List (String × String)}
    {b : Builder} (hsub : ∀ entry ∈ entries, entry ∈ allowedFields)
    (h : UpdateUserById.loop payload entries ⟨[], []⟩ = .ok b) : b.aligned := by
  obtain ⟨-, h2, h3⟩ := loop_ok payload entries _ _ h
  simp only [List.nil_append] at h2 h3
  refine ⟨by simp [h2, h3], ?_⟩
  intro cl hcl
  rw [h2, List.mem_map] at hcl
  obtain ⟨ca, hca, rfl⟩ := hcl
  exact userClauses_placeholders _ (assignments_clauses payload entries hsub ca hca)

/-- C3: whenever `UpdateBook`, `UpdateOrderBook` or `UpdateUserById` sends a
statement to `Exec`, it is the only one of the request, its text is
`UPDATE <table> SET ...` ending with the key predicate (`WHERE BookID = ?`,
`WHERE OrderID = ?`, `WHERE User_id = ?`), it has as many `?` as arguments, and its
last argument is the identifier read from the path (the trimmed `id`, the integer
value of `id`, and `user_id`). -/
theorem update_statement_shape {σ : Type} (conn : Driver σ) (s : σ) (now : Int)
    (entries : List (String × String)) (cb : Context UpdateBookInput) (co : Context OrderBook)
    (cu : Context (List (String × JsonValue))) (callB callO callU : Call)
    (hentries : entries.Perm allowedFields)
    (hB : callB ∈ writes (UpdateBook conn.traced cb (s, [])).2.2)
    (hO : callO ∈ writes (UpdateOrderBook conn.traced co (s, [])).2.2)
    (hU : callU ∈ writes (UpdateUserById conn.traced now entries cu (s, [])).2.2) :
    (writes (UpdateBook conn.traced cb (s, [])).2.2 = [callB]
        ∧ (∃ setList, callB.query = "UPDATE Book SET " ++ setList ++ " WHERE BookID = ?")
        ∧ placeholders callB.query = callB.args.length
        ∧ callB.args.getLast? = some (Value.str (TrimSpace (cb.Param "id"))))
      ∧ (writes (UpdateOrderBook conn.traced co (s, [])).2.2 = [callO]
        ∧ (∃ setList, callO.query = "UPDATE OrderBook SET " ++ setList ++ " WHERE OrderID = ?")
        ∧ placeholders callO.query = callO.args.length
        ∧ callO.args.getLast? = (Atoi (co.Param "id")).map Value.int)
      ∧ (writes (UpdateUserById conn.traced now entries cu (s, [])).2.2 = [callU]
        ∧ (∃ setList, callU.query = "UPDATE Person SET " ++ setList ++ " WHERE User_id = ?")
        ∧ placeholders callU.query = callU.args.length
        ∧ callU.args.getLast? = some (Value.str (cu.Param "user_id"))) := by
  refine ⟨?_, ?_, ?_⟩
  · rcases UpdateBook_writes conn cb s with h | ⟨input, q, args, -, -, hq, ha, hw, -⟩
    · rw [h] at hB; cases hB
    · rw [hw] at hB ⊢
      obtain rfl := List.mem_singleton.mp hB
      refine ⟨rfl, ⟨_, hq⟩, ?_, by simp [ha]⟩
      show placeholders q = args.length
      rw [hq, ha]
      exact statement_placeholders _ (build_book_aligned input) _ _ _ (by decide) (by decide)
  · rcases UpdateOrderBook_writes conn co s with
      h | ⟨o, b, o1, orderID, q, args, -, hid, -, hbuild, -, hq, ha, hw, -⟩
    · rw [h] at hO; cases hO
    · rw [hw] at hO ⊢
      obtain rfl := List.mem_singleton.mp hO
      refine ⟨rfl, ⟨_, hq⟩, ?_, by simp [ha, hid]⟩
      show placeholders q = args.length
      rw [hq, ha]
      exact statement_placeholders _ (build_order_ok hbuild).2 _ _ _ (by decide) (by decide)
  · rcases UpdateUserById_writes conn now entries cu s with
      h | ⟨payload, b, q, args, -, hloop, -, hq, ha, hw, -⟩
    · rw [h] at hU; cases hU
    · rw [hw] at hU ⊢
      obtain rfl := List.mem_singleton.mp hU
      refine ⟨rfl, ⟨_, hq⟩, ?_, by simp [ha]⟩
      show placeholders q = args.length
      rw [hq, ha]
      have hal : b.aligned := loop_aligned (fun e he => hentries.subset he) hloop
      exact statement_placeholders _ (aligned_add hal _ _ (by decide)) _ _ _
        (by decide) (by decide)

/-- C3 on three requests: each sends one UPDATE with four placeholders and four
arguments, the last of which is the identifier of the path. -/
theorem update_statement_shape_witness :
    (writes (UpdateBook (constStore 1).traced bookRequest ((), [])).2.2 = [bookCall]
        ∧ placeholders bookCall.query = bookCall.args.length
        ∧ bookCall.args.getLast? = some (Value.str "7"))
      ∧ (writes (UpdateOrderBook (constStore 1).traced orderRequest ((), [])).2.2 = [orderCall]
        ∧ placeholders orderCall.query = orderCall.args.length
        ∧ orderCall.args.getLast? = some (Value.int 5))
      ∧ (writes (UpdateUserById (constStore 1).traced 0 allowedFields userRequest
            ((), [])).2.2 = [userCall]
        ∧ placeholders userCall.query = userCall.args.length
        ∧ userCall.args.getLast? = some (Value.str "u-1")) :=
  have h := update_statement_shape (constStore 1) () 0 allowedFields bookRequest orderRequest
    userRequest bookCall orderCall userCall (List.Perm.refl _) (by decide) (by decide)
    (by decide)
  ⟨⟨h.1.1, h.1.2.2.1, h.1.2.2.2⟩, ⟨h.2.1.1, h.2.1.2.2.1, h.2.1.2.2.2⟩,
    ⟨h.2.2.1, h.2.2.2.2.1, h.2.2.2.2.2⟩⟩

/-! ## C4: the SET list of `UpdateBook` -/

/-- C4: the SET list that `UpdateBook` builds has one clause per present field and
none for an absent one; the clauses come in the order typeOfBook, bookName,
bookAuthorName, isAvailable, bookQuantity, bookPrice; the i-th argument is the
value of the i-th present field; and the statement that goes to `Exec` is made of
this SET list and these arguments followed by the id. -/
theorem book_set_list (input : UpdateBookInput) :
    (UpdateBook.build input).setClauses
        = (presentFields input).map (fun field => field.1 ++ " = ?")
      ∧ (UpdateBook.build input).args = (presentFields input).map Prod.snd
      ∧ (∀ field ∈ bookFields input,
          (field.1 ++ " = ?") ∈ (UpdateBook.build input).setClauses ↔ field.2.isSome = true)
      ∧ (∀ (σ : Type) (conn : Driver σ) (c : Context UpdateBookInput) (s : σ) (call : Call),
          c.body = .ok input → call ∈ writes (UpdateBook conn.traced c (s, [])).2.2 →
            call.query = "UPDATE Book SET "
                ++ Join ((presentFields input).map (fun field => field.1 ++ " = ?")) ", "
                ++ " WHERE BookID = ?"
              ∧ call.args = (presentFields input).map Prod.snd
                ++ [Value.str (TrimSpace (c.Param "id"))]) := by
  have h1 : (UpdateBook.build input).setClauses
      = (presentFields input).map (fun field => field.1 ++ " = ?") := by
    rcases input with ⟨_ | a, _ | b, _ | c, _ | d, _ | e, _ | f⟩ <;> rfl
  have h2 : (UpdateBook.build input).args = (presentFields input).map Prod.snd := by
    rcases input with ⟨_ | a, _ | b, _ | c, _ | d, _ | e, _ | f⟩ <;> rfl
  refine ⟨h1, h2, ?_, ?_⟩
  · rw [h1]
    rcases input with ⟨_ | a, _ | b, _ | c, _ | d, _ | e, _ | f⟩ <;>
      simp [presentFields, bookFields]
  · intro σ conn c s call hbody hcall
    rcases UpdateBook_writes conn c s with h | ⟨input1, q, args, hb, -, hq, ha, hw, -⟩
    · rw [h] at hcall; cases hcall
    · rw [hbody] at hb
      cases hb
      rw [hw] at hcall
      obtain rfl := List.mem_singleton.mp hcall
      exact ⟨by rw [← h1]; exact hq, by rw [← h2]; exact ha⟩

/-! ## C6: no affected row -/

/-- C6: for each of `UpdateBook`, `UpdateOrderBook` and `UpdateUserById`, taken by
itself: for every request, whenever the UPDATE that the handler sends is executed
without error and reports zero affected rows, the handler answers 404 with its
not-found message, which is not a success response. -/
theorem zero_rows_is_not_found {σ : Type} (conn : Driver σ) (s : σ) :
    (∀ (cb : Context UpdateBookInput) (call : Call),
        call ∈ writes (UpdateBook conn.traced cb (s, [])).2.2 →
        (conn.Exec s call.query call.args).1 = .ok (.ok 0) →
          (UpdateBook conn.traced cb (s, [])).1 = ⟨404, .errorData "Book not found"⟩)
      ∧ (∀ (co : Context OrderBook) (call : Call),
          call ∈ writes (UpdateOrderBook conn.traced co (s, [])).2.2 →
          (conn.Exec s call.query call.args).1 = .ok (.ok 0) →
            (UpdateOrderBook conn.traced co (s, [])).1 = ⟨404, .error "order not found"⟩)
      ∧ (∀ (now : Int) (entries : List (String × String))
          (cu : Context (List (String × JsonValue))) (call : Call),
          call ∈ writes (UpdateUserById conn.traced now entries cu (s, [])).2.2 →
          (conn.Exec s call.query call.args).1 = .ok (.ok 0) →
            (UpdateUserById conn.traced now entries cu (s, [])).1
              = ⟨404, .error "user not found"⟩) := by
  refine ⟨?_, ?_, ?_⟩
  · intro cb call hB hB0
    rcases UpdateBook_writes conn cb s with h | ⟨input, q, args, -, -, -, -, hw, h0⟩
    · rw [h] at hB; cases hB
    · rw [hw] at hB
      obtain rfl := List.mem_singleton.mp hB
      exact h0 hB0
  · intro co call hO hO0
    rcases UpdateOrderBook_writes conn co s with
      h | ⟨o, b, o1, orderID, q, args, -, -, -, -, -, -, -, hw, h0⟩
    · rw [h] at hO; cases hO
    · rw [hw] at hO
      obtain rfl := List.mem_singleton.mp hO
      exact h0 hO0
  · intro now entries cu call hU hU0
    rcases UpdateUserById_writes conn now entries cu s with
      h | ⟨payload, b, q, args, -, -, -, -, -, hw, h0⟩
    · rw [h] at hU; cases hU
    · rw [hw] at hU
      obtain rfl := List.mem_singleton.mp hU
      exact h0 hU0

/-- C6 on three requests against a datastore that reports zero affected rows. -/
theorem zero_rows_is_not_found_witness :
    (UpdateBook (constStore 0).traced bookRequest ((), [])).1
        = ⟨404, .errorData "Book not found"⟩
      ∧ (UpdateOrderBook (constStore 0).traced orderRequest ((), [])).1
        = ⟨404, .error "order not found"⟩
      ∧ (UpdateUserById (constStore 0).traced 0 allowedFields userRequest ((), [])).1
        = ⟨404, .error "user not found"⟩ :=
  ⟨(zero_rows_is_not_found (constStore 0) ()).1 bookRequest bookCall (by decide) rfl,
    (zero_rows_is_not_found (constStore 0) ()).2.1 orderRequest orderCall (by decide) rfl,
    (zero_rows_is_not_found (constStore 0) ()).2.2 0 allowedFields userRequest userCall
      (by decide) rfl⟩

/-! ## C5: keys outside the allow-list -/

theorem zip_fst_snd {α β : Type} (l : List (α × β)) :
    (l.map Prod.fst).zip (l.map Prod.snd) = l :=
  (List.zip_of_prod rfl rfl).symm

/-- Payloads that agree on the keys of `allowedFields` lead to the same action on
every entry. -/
theorem action_agree {p1 p2 : List (String × JsonValue)}
    (hagree : ∀ key ∈ allowedFields.map Prod.fst, p1.lookup key = p2.lookup key)
    {entry : String × String} (hentry : entry ∈ allowedFields) :
    UpdateUserById.action p1 entry = UpdateUserById.action p2 entry :=
  action_congr p1 p2 entry (hagree entry.1 (List.mem_map_of_mem _ hentry))

/-- Over entries of `allowedFields`, the loop gives the same result for payloads
that agree on the keys of `allowedFields`. -/
theorem loop_agree {p1 p2 : List (String × JsonValue)}
    (hagree : ∀ key ∈ allowedFields.map Prod.fst, p1.lookup key = p2.lookup key) :
    ∀ (entries : List (String × String)) (b : Builder),
      (∀ entry ∈ entries, entry ∈ allowedFields) →
        UpdateUserById.loop p1 entries b = UpdateUserById.loop p2 entries b
  | [], b, _ => rfl
  | entry :: rest, b, hsub => by
    have hrest : ∀ e ∈ rest, e ∈ allowedFields := fun e he => hsub e (List.mem_cons_of_mem _ he)
    rw [loop_cons, loop_cons, action_agree hagree (hsub entry (List.mem_cons_self _ _))]
    cases UpdateUserById.action p2 entry with
    | skip => exact loop_agree hagree rest b hrest
    | reject => rfl
    | assign clause arg => exact loop_agree hagree rest _ hrest

/-- The assignments over two enumerations of `allowedFields`, for payloads that
agree on its keys, are the same up to their order. -/
theorem assignments_perm {p1 p2 : List (String × JsonValue)} {e1 e2 : List (String × String)}
    (hagree : ∀ key ∈ allowedFields.map Prod.fst, p1.lookup key = p2.lookup key)
    (h1 : e1.Perm allowedFields) (h2 : e2.Perm allowedFields) :
    (UpdateUserById.assignments p1 e1).Perm (UpdateUserById.assignments p2 e2) := by
  have hsame : UpdateUserById.assignments p1 e1 = UpdateUserById.assignments p2 e1 := by
    unfold UpdateUserById.assignments
    apply List.filterMap_congr
    intro entry hentry
    rw [action_agree hagree (h1.subset hentry)]
  rw [hsame]
  exact (h1.trans h2.symm).filterMap _

/-- C5: for two `UpdateUserById` payloads that agree on the keys username, email,
phone_number, first_name and last_name, sent to the same user id: with the same
enumeration order of `allowedFields` the handler gives the same response and sends
the same statements; with any two enumeration orders the loop either returns the
same 400 for both or assigns the same (clause, argument) pairs up to their order,
the Updated_at assignment coming on top; and every clause of a statement sent is
one of Username, Email, PhoneNumber, First_name, Last_name, Updated_at. -/
theorem unlisted_keys_ignored {σ : Type} (conn : Driver σ) (s : σ) (now : Int)
    (e1 e2 : List (String × String)) (c1 c2 : Context (List (String × JsonValue)))
    (p1 p2 : List (String × JsonValue))
    (h1 : e1.Perm allowedFields) (h2 : e2.Perm allowedFields)
    (hb1 : c1.body = .ok p1) (hb2 : c2.body = .ok p2) (hparams : c1.params = c2.params)
    (hagree : ∀ key ∈ ["username", "email", "phone_number", "first_name", "last_name"],
      p1.lookup key = p2.lookup key) :
    UpdateUserById conn.traced now e1 c1 (s, []) = UpdateUserById conn.traced now e1 c2 (s, [])
      ∧ (∀ r, UpdateUserById.loop p1 e1 ⟨[], []⟩ = .error r ↔
          UpdateUserById.loop p2 e2 ⟨[], []⟩ = .error r)
      ∧ (∀ b1 b2, UpdateUserById.loop p1 e1 ⟨[], []⟩ = .ok b1 →
          UpdateUserById.loop p2 e2 ⟨[], []⟩ = .ok b2 →
            (b1.setClauses.zip b1.args).Perm (b2.setClauses.zip b2.args))
      ∧ (∀ call ∈ writes (UpdateUserById conn.traced now e1 c1 (s, [])).2.2,
          ∃ clauses, call.query = "UPDATE Person SET " ++ Join clauses ", " ++ " WHERE User_id = ?"
            ∧ ∀ cl ∈ clauses, cl ∈ userClauses) := by
  have hagree1 : ∀ key ∈ allowedFields.map Prod.fst, p1.lookup key = p2.lookup key := hagree
  have hsub1 : ∀ entry ∈ e1, entry ∈ allowedFields := fun e he => h1.subset he
  have hsub2 : ∀ entry ∈ e2, entry ∈ allowedFields := fun e he => h2.subset he
  have hrej : (∀ entry ∈ e1, UpdateUserById.action p1 entry ≠ .reject) ↔
      (∀ entry ∈ e2, UpdateUserById.action p2 entry ≠ .reject) := by
    constructor
    · intro h entry hentry
      rw [← action_agree hagree1 (hsub2 entry hentry)]
      exact h entry ((h2.trans h1.symm).subset hentry)
    · intro h entry hentry
      rw [action_agree hagree1 (hsub1 entry hentry)]
      exact h entry ((h1.trans h2.symm).subset hentry)
  refine ⟨?_, ?_, ?_, ?_⟩
  · have hpar : c1.Param "user_id" = c2.Param "user_id" := by
      simp [Context.Param, hparams]
    simp only [UpdateUserById, hb1, hb2, hpar, loop_agree hagree1 e1 _ hsub1]
  · intro r
    constructor
    · intro h
      have hr := loop_error p1 e1 _ r h
      cases h' : UpdateUserById.loop p2 e2 ⟨[], []⟩ with
      | error r2 => rw [hr, loop_error p2 e2 _ r2 h']
      | ok b2 =>
        obtain ⟨b1, hb⟩ := loop_total p1 e1 ⟨[], []⟩ (hrej.mpr (loop_ok p2 e2 _ _ h').1)
        rw [h] at hb; cases hb
    · intro h
      have hr := loop_error p2 e2 _ r h
      cases h' : UpdateUserById.loop p1 e1 ⟨[], []⟩ with
      | error r1 => rw [hr, loop_error p1 e1 _ r1 h']
      | ok b1 =>
        obtain ⟨b2, hb⟩ := loop_total p2 e2 ⟨[], []⟩ (hrej.mp (loop_ok p1 e1 _ _ h').1)
        rw [h] at hb; cases hb
  · intro b1 b2 hl1 hl2
    obtain ⟨-, hc1, ha1⟩ := loop_ok p1 e1 _ _ hl1
    obtain ⟨-, hc2, ha2⟩ := loop_ok p2 e2 _ _ hl2
    simp only [List.nil_append] at hc1 ha1 hc2 ha2
    rw [hc1, ha1, hc2, ha2, zip_fst_snd, zip_fst_snd]
    exact assignments_perm hagree1 h1 h2
  · intro call hcall
    rcases UpdateUserById_writes conn now e1 c1 s with
      h | ⟨payload, b, q, args, hb, hloop, -, hq, -, hw, -⟩
    · rw [h] at hcall; cases hcall
    · rw [hw] at hcall
      obtain rfl := List.mem_singleton.mp hcall
      refine ⟨_, hq, ?_⟩
      intro cl hcl
      obtain ⟨-, hc, -⟩ := loop_ok payload e1 _ _ hloop
      simp only [Builder.add, hc, List.nil_append, List.mem_append, List.mem_map,
        List.mem_singleton] at hcl
      rcases hcl with ⟨ca, hca, rfl⟩ | rfl
      · exact assignments_clauses payload e1 hsub1 ca hca
      · decide

/-- C5 on a payload with the keys role and User_id next to email and first_name,
and on the payload with email and first_name only: the same response and the same
single statement, which assigns Email, First_name and Updated_at. -/
theorem unlisted_keys_ignored_witness :
    UpdateUserById (constStore 1).traced 0 allowedFields userRequest ((), [])
        = UpdateUserById (constStore 1).traced 0 allowedFields listedRequest ((), [])
      ∧ writes (UpdateUserById (constStore 1).traced 0 allowedFields userRequest ((), [])).2.2
        = [userCall] :=
  ⟨(unlisted_keys_ignored (constStore 1) () 0 allowedFields allowedFields.reverse userRequest
      listedRequest mixedPayload listedPayload (List.Perm.refl _) (List.reverse_perm _) rfl rfl
      rfl (by
        intro key hkey
        simp only [List.mem_cons, List.mem_singleton, List.not_mem_nil, or_false] at hkey
        rcases hkey with rfl | rfl | rfl | rfl | rfl <;> rfl)).1,
    by decide⟩

/-! ## C7: a status update over the table model -/

/-- Setting the status on the rows with a given id. -/
theorem updateRows_status (id : Int) (v : String) :
    ∀ table : List OrderRow,
      updateRows [.Status] [.str v] id table
        = some (table.map (fun r => if r.OrderID = id then { r with Status := v } else r))
  | [] => rfl
  | r :: rows => by
    by_cases h : r.OrderID = id
    · simp [updateRows, h, updateRows_status id v rows, OrderRow.assignAll, OrderRow.assign]
    · simp [updateRows, h, updateRows_status id v rows]

theorem find_after_status (id : Int) (v : String) :
    ∀ table : List OrderRow,
      (table.map (fun r => if r.OrderID = id then { r with Status := v } else r)).find?
          (fun r => r.OrderID = id)
        = (table.find? (fun r => r.OrderID = id)).map (fun r => { r with Status := v })
  | [] => rfl
  | r :: rows => by
    by_cases h : r.OrderID = id
    · simp [List.find?, h]
    · simp [List.find?, h, find_after_status id v rows]

theorem filter_of_find_none (id : Int) :
    ∀ table : List OrderRow, table.find? (fun r => r.OrderID = id) = none →
      table.filter (fun r => r.OrderID = id) = []
  | [], _ => rfl
  | r :: rows, h => by
    by_cases hr : r.OrderID = id
    · simp [List.find?, hr] at h
    · simp only [List.find?, hr, decide_False] at h
      simp [List.filter, hr, filter_of_find_none id rows h]

theorem filter_of_find_some (id : Int) (row : OrderRow) :
    ∀ table : List OrderRow, table.find? (fun r => r.OrderID = id) = some row →
      table.filter (fun r => r.OrderID = id) ≠ []
  | [], h => by simp at h
  | r :: rows, h => by
    by_cases hr : r.OrderID = id
    · simp [List.filter, hr]
    · simp only [List.find?, hr, decide_False] at h
      simpa [List.filter, hr] using filter_of_find_some id row rows h

theorem map_of_find_none (id : Int) (v : String) :
    ∀ table : List OrderRow, table.find? (fun r => r.OrderID = id) = none →
      table.map (fun r => if r.OrderID = id then { r with Status := v } else r) = table
  | [], _ => rfl
  | r :: rows, h => by
    by_cases hr : r.OrderID = id
    · simp [List.find?, hr] at h
    · simp only [List.find?, hr, decide_False] at h
      simp [hr, map_of_find_none id v rows h]

/-- The `Exec` of the status update on the table model. -/
theorem orderStore_exec_status (table : List OrderRow) (id : Int) (v : String) :
    orderStore.Exec table "UPDATE OrderBook SET Status = ? WHERE OrderID = ?" [.str v, .int id]
      = (.ok (.ok ((table.filter (fun r => r.OrderID = id)).length : Int)),
          table.map (fun r => if r.OrderID = id then { r with Status := v } else r)) := by
  have hparse : parseOrderUpdate "UPDATE OrderBook SET Status = ? WHERE OrderID = ?"
      = some [.Status] := by decide
  simp [orderStore, hparse, updateRows_status]

theorem build_returned :
    UpdateOrderBook.build returnedBody = .ok (⟨["Status = ?"], [.str "Returned"]⟩, returnedBody) := by
  rfl

/-- The status update on the table model, in terms of the table. -/
theorem UpdateOrderBook_returned (table : List OrderRow) (c : Context OrderBook) (orderID : Int)
    (hid : Atoi (c.Param "id") = some orderID) (hpos : 0 < orderID)
    (hb : c.body = .ok returnedBody) :
    UpdateOrderBook orderStore c table
      = if (table.filter (fun r => r.OrderID = orderID)).length = 0 then
          (⟨404, .error "order not found"⟩,
            table.map (fun r => if r.OrderID = orderID then { r with Status := "Returned" } else r))
        else
          (⟨200, .record { returnedBody with OrderID := orderID }⟩,
            table.map (fun r => if r.OrderID = orderID then { r with Status := "Returned" } else r)) := by
  have hnot : ¬ orderID ≤ 0 := by omega
  have hjoin : "UPDATE OrderBook SET " ++ Join ["Status = ?"] ", " ++ " WHERE OrderID = ?"
      = "UPDATE OrderBook SET Status = ? WHERE OrderID = ?" := by decide
  simp only [UpdateOrderBook, Driver.isNil, Database, hid, hnot, hb, build_returned,
    Bool.false_eq_true, ↓reduceIte, List.length_singleton, one_ne_zero, hjoin,
    List.singleton_append, orderStore_exec_status]
  split_ifs with h1 h2 h2
  · rfl
  · exact absurd (by exact_mod_cast h1) h2
  · exact absurd (by exact_mod_cast h2) h1
  · rfl

/-- Reading an order that the table holds. -/
theorem GetOrderBookByID_found (table : List OrderRow) (g : Context Unit) (orderID : Int)
    (row : OrderRow) (hid : Atoi (g.Param "id") = some orderID) (hpos : 0 < orderID)
    (hrow : table.find? (fun r => r.OrderID = orderID) = some row) :
    GetOrderBookByID orderStore g table = (⟨200, .record row.view⟩, table) := by
  have hnot : ¬ orderID ≤ 0 := by omega
  simp only [GetOrderBookByID, Driver.isNil, Database, hid, hnot, orderStore, hrow,
    Bool.false_eq_true, ↓reduceIte, decide_True]
  rcases row with ⟨oid, pid, bid, bd, _ | rd, _ | ard, st⟩ <;> rfl

/-- C7: over the table model, for a valid positive id and the body whose only
provided field is the status "Returned": when the table holds a row with that id,
`UpdateOrderBook` answers 200 and a following `GetOrderBookByID` of the id shows
what it showed before with the status replaced by "Returned"; when the table holds
no such row, `UpdateOrderBook` answers 404 "order not found" and the table is as it
was. -/
theorem status_update_on_table (table : List OrderRow) (c : Context OrderBook)
    (g : Context Unit) (orderID : Int)
    (hc : Atoi (c.Param "id") = some orderID) (hg : Atoi (g.Param "id") = some orderID)
    (hpos : 0 < orderID) (hb : c.body = .ok returnedBody) :
    (∀ row, table.find? (fun r => r.OrderID = orderID) = some row →
        (UpdateOrderBook orderStore c table).1.status = 200
          ∧ GetOrderBookByID orderStore g table = (⟨200, .record row.view⟩, table)
          ∧ GetOrderBookByID orderStore g (UpdateOrderBook orderStore c table).2
            = (⟨200, .record { row.view with Status := "Returned" }⟩,
                (UpdateOrderBook orderStore c table).2))
      ∧ (table.find? (fun r => r.OrderID = orderID) = none →
          UpdateOrderBook orderStore c table = (⟨404, .error "order not found"⟩, table)) := by
  rw [UpdateOrderBook_returned table c orderID hc hpos hb]
  constructor
  · intro row hrow
    have hne : (table.filter (fun r => r.OrderID = orderID)).length ≠ 0 := by
      simpa using filter_of_find_some orderID row table hrow
    simp only [hne, ↓reduceIte, true_and]
    refine ⟨GetOrderBookByID_found table g orderID row hg hpos hrow, ?_⟩
    have hafter := GetOrderBookByID_found
      (table.map (fun r => if r.OrderID = orderID then { r with Status := "Returned" } else r))
      g orderID { row with Status := "Returned" } hg hpos
      (by rw [find_after_status, hrow]; rfl)
    exact hafter
  · intro hnone
    simp [filter_of_find_none orderID table hnone, map_of_find_none orderID "Returned" table hnone]

/-- C7 on a table with the orders 5 and 6: the update of order 5 answers 200 and
order 5 then reads as Returned with its other columns as before; the update of
order 999 answers 404 and leaves the table as it was. -/
theorem status_update_on_table_witness :
    ((UpdateOrderBook orderStore ⟨[("id", "5")], .ok returnedBody⟩ sampleTable).1.status = 200
        ∧ GetOrderBookByID orderStore ⟨[("id", "5")], .ok ()⟩ sampleTable
          = (⟨200, .record ⟨5, 1, 2, "2024-01-02", none, none, "Borrowed"⟩⟩, sampleTable)
        ∧ (GetOrderBookByID orderStore ⟨[("id", "5")], .ok ()⟩
            (UpdateOrderBook orderStore ⟨[("id", "5")], .ok returnedBody⟩ sampleTable).2).1
          = ⟨200, .record ⟨5, 1, 2, "2024-01-02", none, none, "Returned"⟩⟩)
      ∧ UpdateOrderBook orderStore ⟨[("id", "999")], .ok returnedBody⟩ sampleTable
        = (⟨404, .error "order not found"⟩, sampleTable) :=
  have h5 := (status_update_on_table sampleTable ⟨[("id", "5")], .ok returnedBody⟩
    ⟨[("id", "5")], .ok ()⟩ 5 (by decide) (by decide) (by decide) rfl).1
      ⟨5, 1, 2, ⟨2024, 1, 2⟩, none, none, "Borrowed"⟩ (by decide)
  have h999 := (status_update_on_table sampleTable ⟨[("id", "999")], .ok returnedBody⟩
    ⟨[("id", "999")], .ok ()⟩ 999 (by decide) (by decide) (by decide) rfl).2 (by decide)
  ⟨⟨h5.1, h5.2.1, congrArg Prod.fst h5.2.2⟩, h999⟩

/-! ## C8, C9, C10: `ValidateToken` -/

/-- The stand-in library is faithful when no raw token occurs twice in its book. -/
theorem bookJWT_faithful (book : List (String × SignedDetails))
    (hnodup : (book.map Prod.fst).Nodup) : (bookJWT book).faithful := by
  intro claims key raw t hsign hbefore
  simp only [bookJWT] at hsign ⊢
  cases hfind : book.find? (fun entry => entry.2 = claims) with
  | none => simp [hfind] at hsign
  | some entry =>
    simp only [hfind, Except.ok.injEq] at hsign
    have hmem : entry ∈ book := List.mem_of_find?_eq_some hfind
    have hclaims : entry.2 = claims := by simpa using List.find?_some hfind
    have hraw : book.find? (fun e => e.1 = raw) = some entry := by
      clear hfind
      induction book with
      | nil => cases hmem
      | cons head rest ih =>
        simp only [List.map_cons, List.nodup_cons] at hnodup
        by_cases hhead : head.1 = raw
        · rcases List.mem_cons.mp hmem with heq | hin
          · simp [List.find?, hhead, heq]
          · exact absurd (List.mem_map_of_mem Prod.fst hin) (by rw [hsign, ← hhead]; exact hnodup.1)
        · rcases List.mem_cons.mp hmem with heq | hin
          · exact absurd (by rw [← heq]; exact hsign) hhead
          · simp only [List.find?, hhead, decide_False]
            exact ih hnodup.2 hin
    rw [hraw]
    subst hclaims
    cases hexp : entry.2.RegisteredClaims.ExpiresAt with
    | none => simp only [hexp]
    | some e =>
      have hlt : t < e := hbefore e hexp
      simp only [hexp, hlt, ↓reduceIte]

/-- C8: with a signing primitive for which parsing a freshly signed token under
the same key recovers its claims, `ValidateToken` applied to the access token that
`GenerateAllTokens` returned for (email, first, last, uid), at readings of the
clock before the expiry of that token, returns claims whose Email, FirstName,
LastName and Uid are the inputs, and the empty error message. -/
theorem issued_access_token_validates (lib : JWT) (now parseNow checkNow expiry : Int)
    (email first last uid access refresh : String)
    (hlib : lib.faithful)
    (hgen : GenerateAllTokens lib now email first last uid = .ok (access, refresh))
    (hexpiry : NewNumericDate (now + 24 * Hour) = some expiry)
    (hparse : parseNow < expiry) (hcheck : checkNow < expiry) :
    ∃ claims, ValidateToken lib parseNow checkNow access = (some claims, "")
      ∧ claims.Email = email ∧ claims.FirstName = first ∧ claims.LastName = last
      ∧ claims.Uid = uid := by
  unfold GenerateAllTokens at hgen
  simp only at hgen
  split at hgen
  · cases hgen
  rename_i accessToken hsign
  split at hgen
  · cases hgen
  simp only [Except.ok.injEq, Prod.mk.injEq] at hgen
  obtain ⟨rfl, -⟩ := hgen
  have hroundtrip := hlib _ SECRET_KEY accessToken parseNow hsign (by
    intro e he
    simp only [hexpiry, Option.some.injEq] at he
    rw [← he]; exact hparse)
  have hnot : ¬ expiry < checkNow := by omega
  refine ⟨⟨email, first, last, uid, ⟨some expiry, NewNumericDate now⟩⟩, ?_, rfl, rfl, rfl, rfl⟩
  simp [ValidateToken, hroundtrip, hexpiry, hnot]

/-- C8 for the tokens issued at instant 0 to Ann Lee, validated 23 hours later. -/
theorem issued_access_token_validates_witness :
    GenerateAllTokens (bookJWT annBook) 0 "ann@example.com" "Ann" "Lee" "u-1"
        = .ok ("access-1", "refresh-1")
      ∧ ∃ claims, ValidateToken (bookJWT annBook) (23 * Hour) (23 * Hour) "access-1"
          = (some claims, "")
        ∧ claims.Email = "ann@example.com" ∧ claims.FirstName = "Ann"
        ∧ claims.LastName = "Lee" ∧ claims.Uid = "u-1" :=
  ⟨rfl, issued_access_token_validates (bookJWT annBook) 0 (23 * Hour) (23 * Hour)
    86400000000000 "ann@example.com" "Ann" "Lee" "u-1" "access-1" "refresh-1"
    (bookJWT_faithful annBook (by decide)) rfl rfl (by decide) (by decide)⟩

/-- C9: at a correctly signed token whose exp is in the past, here the access token
issued at instant 0 to Ann Lee and validated after 25 hours, the library's own
validation of the claims fails first and `ValidateToken` returns no claims with a
message of its invalid-token form, not the message "token is expired". -/
theorem expired_token_reported_invalid :
    ValidateToken (bookJWT annBook) (25 * Hour) (25 * Hour) "access-1"
        = (none, "invalid token: token has invalid claims: token is expired")
      ∧ ValidateToken (bookJWT annBook) (25 * Hour) (25 * Hour) "forged"
        = (none,
          "invalid token: token is malformed: token contains an invalid number of segments") := by
  decide

/-- C10: whenever the library's parse returns no error and marks the token valid,
and the decoded claims carry an ExpiresAt earlier than the reading of the clock,
`ValidateToken` returns no claims and the message "token is expired". -/
theorem valid_flag_is_not_enough (lib : JWT) (parseNow now expiresAt : Int) (raw : String)
    (token : Token) (claims : SignedDetails)
    (hparse : lib.ParseWithClaims raw SECRET_KEY parseNow = .ok token)
    (hvalid : token.Valid = true) (hclaims : token.Claims = some claims)
    (hexp : claims.RegisteredClaims.ExpiresAt = some expiresAt) (hpast : expiresAt < now) :
    ValidateToken lib parseNow now raw = (none, "token is expired") := by
  simp [ValidateToken, hparse, hvalid, hclaims, hexp, hpast]

/-- C10 for a token that expires between the library's reading of the clock and
the reading of the expiry test: the library marks it valid one nanosecond before
its expiry, and one nanosecond after it `ValidateToken` reports it expired. -/
theorem valid_flag_is_not_enough_witness :
    (bookJWT annBook).ParseWithClaims "access-1" SECRET_KEY (24 * Hour - 1)
        = .ok ⟨some annClaims, true⟩
      ∧ ValidateToken (bookJWT annBook) (24 * Hour - 1) (24 * Hour + 1) "access-1"
        = (none, "token is expired") :=
  ⟨rfl, valid_flag_is_not_enough (bookJWT annBook) (24 * Hour - 1) (24 * Hour + 1)
    86400000000000 "access-1" ⟨some annClaims, true⟩ annClaims rfl rfl rfl rfl (by decide)⟩


/-! ## C11, C12: the claims that `GenerateAllTokens` signs -/

/-- `GenerateAllTokens` returns a pair exactly when the library signs the access
claims and the refresh claims, and the pair is the two signed strings. -/
theorem GenerateAllTokens_ok (lib : JWT) (now : Int) (email first last uid access refresh : String) :
    GenerateAllTokens lib now email first last uid = .ok (access, refresh) ↔
      lib.SignedString (GenerateAllTokens.accessClaims now email first last uid) SECRET_KEY
          = .ok access
        ∧ lib.SignedString (GenerateAllTokens.refreshClaims now) SECRET_KEY = .ok refresh := by
  unfold GenerateAllTokens
  simp only [GenerateAllTokens.accessClaims, GenerateAllTokens.refreshClaims]
  split
  · rename_i e he
    rw [he]; simp
  · rename_i a ha
    split
    · rename_i e he
      rw [ha, he]; simp
    · rename_i r hr
      rw [ha, hr]; simp

theorem NewNumericDate_eq (t : Int) : NewNumericDate t = some (t - t % Second) := rfl

/-- C11, as stated, fails at an instant that is not a whole second: the tokens
issued to Ann Lee half a second after instant 0 carry iat = instant 0, which is not
the instant of issuance but half a second before it; validated at the instant of
issuance, both tokens show that iat. -/
theorem issued_at_is_truncated :
    GenerateAllTokens (bookJWT annBook) 500000000 "ann@example.com" "Ann" "Lee" "u-1"
        = .ok ("access-1", "refresh-1")
      ∧ ValidateToken (bookJWT annBook) 500000000 500000000 "access-1"
        = (some ⟨"ann@example.com", "Ann", "Lee", "u-1", ⟨some 86400000000000, some 0⟩⟩, "")
      ∧ ValidateToken (bookJWT annBook) 500000000 500000000 "refresh-1"
        = (some ⟨"", "", "", "", ⟨some 604800000000000, some 0⟩⟩, "")
      ∧ NewNumericDate 500000000 = some 0
      ∧ (0 : Int) ≠ 500000000 := by
  refine ⟨rfl, rfl, rfl, rfl, by decide⟩

/-- C11 (amended): the access token that `GenerateAllTokens` issues at the instant
`now` is signed over claims with exp = now + 24 hours and the refresh token over
claims with exp = now + 7 days, both tokens with iat = now, each of these three
instants truncated to the whole second (a whole number of seconds, not after the
instant named and less than a second before it, and the instant itself when `now`
is a whole second); the refresh token expires exactly 144 hours after the access
token, and each exp is strictly later than its iat. -/
theorem token_expiry_policy (lib : JWT) (now : Int)
    (email first last uid access refresh : String)
    (hgen : GenerateAllTokens lib now email first last uid = .ok (access, refresh)) :
    ∃ (ac rc : SignedDetails) (accessExp refreshExp iat : Int),
      lib.SignedString ac SECRET_KEY = .ok access
        ∧ lib.SignedString rc SECRET_KEY = .ok refresh
        ∧ ac.RegisteredClaims.ExpiresAt = some accessExp
        ∧ rc.RegisteredClaims.ExpiresAt = some refreshExp
        ∧ ac.RegisteredClaims.IssuedAt = some iat ∧ rc.RegisteredClaims.IssuedAt = some iat
        ∧ (accessExp % Second = 0 ∧ accessExp ≤ now + 24 * Hour
            ∧ now + 24 * Hour < accessExp + Second)
        ∧ (refreshExp % Second = 0 ∧ refreshExp ≤ now + 7 * 24 * Hour
            ∧ now + 7 * 24 * Hour < refreshExp + Second)
        ∧ (iat % Second = 0 ∧ iat ≤ now ∧ now < iat + Second)
        ∧ (now % Second = 0 →
            accessExp = now + 24 * Hour ∧ refreshExp = now + 7 * 24 * Hour ∧ iat = now)
        ∧ refreshExp - accessExp = 144 * Hour
        ∧ iat < accessExp ∧ iat < refreshExp := by
  obtain ⟨hsa, hsr⟩ := (GenerateAllTokens_ok lib now email first last uid access refresh).mp hgen
  refine ⟨_, _, now + 24 * Hour - (now + 24 * Hour) % Second,
    now + 7 * 24 * Hour - (now + 7 * 24 * Hour) % Second, now - now % Second,
    hsa, hsr, rfl, rfl, rfl, rfl, ?_⟩
  simp only [Hour, Second]
  omega

/-- C11 for the tokens issued to Ann Lee half a second after instant 0. -/
theorem token_expiry_policy_witness :
    GenerateAllTokens (bookJWT annBook) 500000000 "ann@example.com" "Ann" "Lee" "u-1"
        = .ok ("access-1", "refresh-1")
      ∧ ∃ (ac rc : SignedDetails) (accessExp refreshExp iat : Int),
        (bookJWT annBook).SignedString ac SECRET_KEY = .ok "access-1"
          ∧ (bookJWT annBook).SignedString rc SECRET_KEY = .ok "refresh-1"
          ∧ ac.RegisteredClaims.ExpiresAt = some accessExp
          ∧ rc.RegisteredClaims.ExpiresAt = some refreshExp
          ∧ ac.RegisteredClaims.IssuedAt = some iat
          ∧ refreshExp - accessExp = 144 * Hour ∧ iat < accessExp :=
  match token_expiry_policy (bookJWT annBook) 500000000 "ann@example.com" "Ann" "Lee" "u-1"
    "access-1" "refresh-1" rfl with
  | ⟨ac, rc, accessExp, refreshExp, iat, h1, h2, h3, h4, h5, _, _, _, _, _, h11, h12, _⟩ =>
    ⟨rfl, ac, rc, accessExp, refreshExp, iat, h1, h2, h3, h4, h5, h11, h12⟩

/-- C12, as stated, fails for the refresh token: the refresh token issued to Ann Lee
is signed over claims whose email, first name, last name and uid are empty. -/
theorem refresh_token_has_no_identity :
    GenerateAllTokens (bookJWT annBook) 0 "ann@example.com" "Ann" "Lee" "u-1"
        = .ok ("access-1", "refresh-1")
      ∧ ValidateToken (bookJWT annBook) 1 1 "refresh-1"
        = (some ⟨"", "", "", "", ⟨some 604800000000000, some 0⟩⟩, "") := by
  constructor <;> rfl

/-- C12 (amended): the access token issued by `GenerateAllTokens` is signed over
claims whose email, first name, last name and uid are the inputs, together with an
exp and an iat; the refresh token is signed over claims that hold an exp and an iat
and whose email, first name, last name and uid are empty. -/
theorem token_identity_claims (lib : JWT) (now : Int)
    (email first last uid access refresh : String)
    (hgen : GenerateAllTokens lib now email first last uid = .ok (access, refresh)) :
    ∃ (ac rc : SignedDetails),
      lib.SignedString ac SECRET_KEY = .ok access
        ∧ lib.SignedString rc SECRET_KEY = .ok refresh
        ∧ (ac.Email = email ∧ ac.FirstName = first ∧ ac.LastName = last ∧ ac.Uid = uid)
        ∧ (ac.RegisteredClaims.ExpiresAt.isSome = true
            ∧ ac.RegisteredClaims.IssuedAt.isSome = true)
        ∧ (rc.Email = "" ∧ rc.FirstName = "" ∧ rc.LastName = "" ∧ rc.Uid = "")
        ∧ (rc.RegisteredClaims.ExpiresAt.isSome = true
            ∧ rc.RegisteredClaims.IssuedAt.isSome = true) := by
  obtain ⟨hsa, hsr⟩ := (GenerateAllTokens_ok lib now email first last uid access refresh).mp hgen
  exact ⟨_, _, hsa, hsr, ⟨rfl, rfl, rfl, rfl⟩, ⟨rfl, rfl⟩, ⟨rfl, rfl, rfl, rfl⟩, ⟨rfl, rfl⟩⟩

/-- C12 for the tokens issued to Ann Lee at instant 0. -/
theorem token_identity_claims_witness :
    ∃ (ac rc : SignedDetails),
      (bookJWT annBook).SignedString ac SECRET_KEY = .ok "access-1"
        ∧ (bookJWT annBook).SignedString rc SECRET_KEY = .ok "refresh-1"
        ∧ (ac.Email = "ann@example.com" ∧ ac.FirstName = "Ann" ∧ ac.LastName = "Lee"
            ∧ ac.Uid = "u-1")
        ∧ (rc.Email = "" ∧ rc.FirstName = "" ∧ rc.LastName = "" ∧ rc.Uid = "") :=
  match token_identity_claims (bookJWT annBook) 0 "ann@example.com" "Ann" "Lee" "u-1"
    "access-1" "refresh-1" rfl with
  | ⟨ac, rc, h1, h2, h3, _, h5, _⟩ => ⟨ac, rc, h1, h2, h3, h5⟩

/-! ## C13, C14: passwords -/

/-- C13, as stated, fails for a password that bcrypt refuses: `HashPassword` does
not succeed on a password of 73 bytes. -/
theorem long_password_is_not_hashed :
    longPassword.utf8ByteSize = 73
      ∧ HashPassword plainBcrypt 0 longPassword
        = .error "hash password: bcrypt: password length exceeds 72 bytes" := by
  constructor <;> rfl

/-- The stand-in for bcrypt is sound. -/
theorem plainBcrypt_sound : plainBcrypt.sound := by
  intro password hash cost entropy h
  simp only [plainBcrypt] at h ⊢
  split_ifs at h
  simp only [Except.ok.injEq] at h
  simp [h]

/-- `HashPassword` succeeds exactly when bcrypt generates a hash, and returns it. -/
theorem HashPassword_ok (lib : Bcrypt) (entropy : Nat) (pw hash : String) :
    HashPassword lib entropy pw = .ok hash ↔
      lib.GenerateFromPassword pw DefaultCost entropy = .ok hash := by
  unfold HashPassword
  cases lib.GenerateFromPassword pw DefaultCost entropy <;> simp

/-- C13 (amended): with a bcrypt whose generated hashes compare equal to their
password, for every plaintext password P for which `HashPassword(P)` succeeds with a
hash H, `VerifyPassword(P, H)` returns (true, ""); and `HashPassword(P)` fails only
when bcrypt itself refuses to generate a hash. -/
theorem hash_then_verify (lib : Bcrypt) (entropy : Nat) (password hash : String)
    (hlib : lib.sound) (hhash : HashPassword lib entropy password = .ok hash) :
    VerifyPassword lib password hash = (true, "")
      ∧ (∀ p e, HashPassword lib entropy p = .error e →
          ∃ err, lib.GenerateFromPassword p DefaultCost entropy = .error err
            ∧ e = "hash password: " ++ err) := by
  constructor
  · have hgen := (HashPassword_ok lib entropy password hash).mp hhash
    simp [VerifyPassword, hlib password hash DefaultCost entropy hgen]
  · intro p e he
    unfold HashPassword at he
    cases hg : lib.GenerateFromPassword p DefaultCost entropy with
    | error err =>
      simp only [hg, Except.error.injEq] at he
      exact ⟨err, rfl, he.symm⟩
    | ok h => simp [hg] at he

/-- C13 for the password "secret123". -/
theorem hash_then_verify_witness :
    HashPassword plainBcrypt 7 "secret123" = .ok "$2a$10$secret123"
      ∧ VerifyPassword plainBcrypt "secret123" "$2a$10$secret123" = (true, "") :=
  ⟨rfl, (hash_then_verify plainBcrypt 7 "secret123" "$2a$10$secret123" plainBcrypt_sound rfl).1⟩

/-- C14: `VerifyPassword` has no error result; for every bcrypt and every pair of
inputs it returns (true, "") or (false, "login or password is incorrect"); the
boolean is true exactly when the message is empty; and any two comparisons that
fail, whatever the error bcrypt reports for each, give the same result. -/
theorem verify_password_results (lib : Bcrypt) (userPassword providedPassword : String) :
    (VerifyPassword lib userPassword providedPassword = (true, "")
        ∨ VerifyPassword lib userPassword providedPassword
          = (false, "login or password is incorrect"))
      ∧ ((VerifyPassword lib userPassword providedPassword).1 = true ↔
          (VerifyPassword lib userPassword providedPassword).2 = "")
      ∧ ((VerifyPassword lib userPassword providedPassword).1 = true ↔
          lib.CompareHashAndPassword providedPassword userPassword = none)
      ∧ (∀ (lib2 : Bcrypt) (userPassword2 providedPassword2 : String),
          lib.CompareHashAndPassword providedPassword userPassword ≠ none →
          lib2.CompareHashAndPassword providedPassword2 userPassword2 ≠ none →
            VerifyPassword lib userPassword providedPassword
              = VerifyPassword lib2 userPassword2 providedPassword2) := by
  unfold VerifyPassword
  cases h : lib.CompareHashAndPassword providedPassword userPassword with
  | none => simp
  | some e =>
    refine ⟨Or.inr rfl, by simp, by simp, ?_⟩
    intro lib2 u2 p2 _ h2
    cases h3 : lib2.CompareHashAndPassword p2 u2 with
    | none => exact absurd h3 h2
    | some e2 => rfl

/-! ## C17: the result of `UpdateAllTokens` -/

/-- The result of `UpdateAllTokens` in terms of the answer of `Exec`. -/
theorem UpdateAllTokens_eq {σ : Type} (conn : Driver σ) (now : Int)
    (access refresh userID : String) (s : σ) :
    UpdateAllTokens conn now access refresh userID s
      = match conn.Exec s UpdateAllTokens.stmt
          [Value.str access, Value.str refresh, Value.instant now, Value.str userID] with
        | (.err err, s1) =>
          (some ("failed to update tokens for user " ++ userID ++ ": " ++ err), s1)
        | (.ok (.error err), s1) =>
          (some ("failed to verify update for user " ++ userID ++ ": " ++ err), s1)
        | (.ok (.ok rowsAffected), s1) =>
          if rowsAffected = 0 then (some ("no user found with User_id " ++ userID), s1)
          else (none, s1) := by
  simp [UpdateAllTokens, Driver.isNil, Database]

/-- C17: with an affected-row count that is not negative, `UpdateAllTokens` returns
`nil` exactly when the UPDATE executes without error, the count can be read and at
least one row was affected; when zero rows are affected it returns the error
"no user found with User_id ..."; and in every case the UPDATE is the one statement
it sends. -/
theorem update_all_tokens_result {σ : Type} (conn : Driver σ) (now : Int)
    (access refresh userID : String) (s : σ)
    (hcount : ∀ n, (conn.Exec s UpdateAllTokens.stmt
        [Value.str access, Value.str refresh, Value.instant now, Value.str userID]).1
          = .ok (.ok n) → 0 ≤ n) :
    ((UpdateAllTokens conn now access refresh userID s).1 = none ↔
        ∃ n : Int, 1 ≤ n ∧ (conn.Exec s UpdateAllTokens.stmt
          [Value.str access, Value.str refresh, Value.instant now, Value.str userID]).1
            = .ok (.ok n))
      ∧ ((conn.Exec s UpdateAllTokens.stmt
          [Value.str access, Value.str refresh, Value.instant now, Value.str userID]).1
            = .ok (.ok 0) →
          (UpdateAllTokens conn now access refresh userID s).1
            = some ("no user found with User_id " ++ userID))
      ∧ (UpdateAllTokens conn.traced now access refresh userID (s, [])).2.2
        = [⟨true, UpdateAllTokens.stmt,
            [Value.str access, Value.str refresh, Value.instant now, Value.str userID]⟩] := by
  refine ⟨?_, ?_, ?_⟩
  · rw [UpdateAllTokens_eq]
    rcases hexec : conn.Exec s UpdateAllTokens.stmt
      [Value.str access, Value.str refresh, Value.instant now, Value.str userID] with ⟨res, s1⟩
    rw [hexec] at hcount
    rcases res with e | (e | n)
    · simp
    · simp
    · have hn := hcount n rfl
      by_cases h0 : n = 0
      · simp [h0]
      · have h1 : 1 ≤ n := by omega
        simp [h0, h1]
  · intro h0
    rw [UpdateAllTokens_eq]
    rcases hexec : conn.Exec s UpdateAllTokens.stmt
      [Value.str access, Value.str refresh, Value.instant now, Value.str userID] with ⟨res, s1⟩
    rw [hexec] at h0
    simp only at h0
    subst h0
    simp
  · rw [UpdateAllTokens_eq]
    simp only [Driver.traced]
    rcases conn.Exec s UpdateAllTokens.stmt
      [Value.str access, Value.str refresh, Value.instant now, Value.str userID] with ⟨res, s1⟩
    rcases res with e | (e | n)
    · simp
    · simp
    · by_cases h0 : n = 0 <;> simp [h0]

/-- C17 on a datastore that reports one affected row and on one that reports none. -/
theorem update_all_tokens_result_witness :
    (UpdateAllTokens (constStore 1) 5 "a" "r" "u-1" ()).1 = none
      ∧ (UpdateAllTokens (constStore 0) 5 "a" "r" "u-1" ()).1
        = some "no user found with User_id u-1" :=
  ⟨(update_all_tokens_result (constStore 1) 5 "a" "r" "u-1" ()
      (by intro n h; cases h; decide)).1.mpr ⟨1, by decide, rfl⟩,
    (update_all_tokens_result (constStore 0) 5 "a" "r" "u-1" ()
      (by intro n h; cases h; decide)).2.1 rfl⟩

/-! ## C15, C18: `LoginUser` -/

/-- The course of `LoginUser` once the identity is found: the verification of the
trimmed password decides between the 401 and the issue of a pair, and the result
of `UpdateAllTokens` between the 500 and the 200. -/
theorem LoginUser_found {σ : Type} (conn : Driver σ) (jwt : JWT) (bcrypt : Bcrypt)
    (tokenNow updateNow : Int) (c : Context LoginInput) (s : σ) (input : LoginInput)
    (cols : List Value) (user : User) (hashedPassword : String)
    (hbody : c.body = .ok input)
    (huser : TrimSpace input.Username ≠ "") (hpw : TrimSpace input.Password ≠ "")
    (hrow : (conn.QueryRow s LoginUser.query [Value.str (TrimSpace input.Username)]).1
      = .row cols)
    (hscan : LoginUser.scan cols = some (user, hashedPassword)) :
    LoginUser conn jwt bcrypt tokenNow updateNow c s
      = match bcrypt.CompareHashAndPassword hashedPassword (TrimSpace input.Password) with
        | some _ =>
          (⟨401, .error "login or password is incorrect"⟩,
            (conn.QueryRow s LoginUser.query [Value.str (TrimSpace input.Username)]).2)
        | none =>
          match GenerateAllTokens jwt tokenNow user.Email user.FirstName user.LastName
              user.UserID with
          | .error _ =>
            (⟨500, .error "failed to generate tokens"⟩,
              (conn.QueryRow s LoginUser.query [Value.str (TrimSpace input.Username)]).2)
          | .ok (token, refreshToken) =>
            match UpdateAllTokens conn updateNow token refreshToken user.UserID
                (conn.QueryRow s LoginUser.query [Value.str (TrimSpace input.Username)]).2 with
            | (some _, s2) => (⟨500, .error "failed to update tokens"⟩, s2)
            | (none, s2) => (⟨200, .record ⟨user, token, refreshToken⟩⟩, s2) := by
  rcases hq : conn.QueryRow s LoginUser.query [Value.str (TrimSpace input.Username)]
    with ⟨res, s1⟩
  rw [hq] at hrow
  simp only at hrow
  subst hrow
  simp only [LoginUser, Driver.isNil, Database, hbody, huser, hpw, hq, hscan, VerifyPassword,
    Bool.false_eq_true, ↓reduceIte, or_self]
  cases bcrypt.CompareHashAndPassword hashedPassword (TrimSpace input.Password) <;> rfl

/-- C15, as stated, fails for a password with surrounding white space: " secret123"
does not verify against the stored hash of "secret123", yet `LoginUser` trims it
and answers 200 with a new pair. -/
theorem untrimmed_password_logs_in :
    VerifyPassword plainBcrypt " secret123" aliceRow.Password
        = (false, "login or password is incorrect")
      ∧ (LoginUser personStore (bookJWT aliceBook) plainBcrypt 0 1
          ⟨[], .ok ⟨"alice", " secret123"⟩⟩ [aliceRow, bobRow]).1
        = ⟨200, .record ⟨⟨1, "alice", "alice@example.com", "", "Al", "", "", "", "", 0, 0,
            "u-1"⟩, "alice-access", "alice-refresh"⟩⟩ := by
  constructor <;> rfl

/-- C15 (amended): for every `LoginUser` request that names an existing identity
(the SELECT by the trimmed username returns a row that scans) with a password that
is not blank and whose trimmed value does not verify against the stored hash, the
response is 401 with the error "login or password is incorrect"; the datastore is
left in the state in which the SELECT left it, no other statement being sent; and
the response is the same whatever the signing library and the clock, no pair being
generated. -/
theorem wrong_password_unauthorized {σ : Type} (conn : Driver σ) (jwt : JWT) (bcrypt : Bcrypt)
    (tokenNow updateNow : Int) (c : Context LoginInput) (s : σ) (input : LoginInput)
    (cols : List Value) (user : User) (hashedPassword : String)
    (hbody : c.body = .ok input)
    (huser : TrimSpace input.Username ≠ "") (hpw : TrimSpace input.Password ≠ "")
    (hrow : (conn.QueryRow s LoginUser.query [Value.str (TrimSpace input.Username)]).1
      = .row cols)
    (hscan : LoginUser.scan cols = some (user, hashedPassword))
    (hbad : (VerifyPassword bcrypt (TrimSpace input.Password) hashedPassword).1 = false) :
    LoginUser conn jwt bcrypt tokenNow updateNow c s
        = (⟨401, .error "login or password is incorrect"⟩,
          (conn.QueryRow s LoginUser.query [Value.str (TrimSpace input.Username)]).2)
      ∧ (LoginUser conn.traced jwt bcrypt tokenNow updateNow c (s, [])).2.2
        = [⟨false, LoginUser.query, [Value.str (TrimSpace input.Username)]⟩]
      ∧ (∀ (jwt2 : JWT) (t1 t2 : Int),
          LoginUser conn jwt2 bcrypt t1 t2 c s = LoginUser conn jwt bcrypt tokenNow updateNow c s) := by
  have hcmp : ∃ e, bcrypt.CompareHashAndPassword hashedPassword (TrimSpace input.Password)
      = some e := by
    unfold VerifyPassword at hbad
    cases h : bcrypt.CompareHashAndPassword hashedPassword (TrimSpace input.Password) with
    | none => simp [h] at hbad
    | some e => exact ⟨e, rfl⟩
  obtain ⟨e, he⟩ := hcmp
  have key : ∀ {τ : Type} (d : Driver τ) (st : τ) (lib : JWT) (t1 t2 : Int) (cs : List Value),
      (d.QueryRow st LoginUser.query [Value.str (TrimSpace input.Username)]).1 = .row cs →
      LoginUser.scan cs = some (user, hashedPassword) →
      LoginUser d lib bcrypt t1 t2 c st
        = (⟨401, .error "login or password is incorrect"⟩,
          (d.QueryRow st LoginUser.query [Value.str (TrimSpace input.Username)]).2) := by
    intro τ d st lib t1 t2 cs h1 h2
    rw [LoginUser_found d lib bcrypt t1 t2 c st input cs user hashedPassword hbody huser hpw h1 h2,
      he]
  refine ⟨key conn s jwt tokenNow updateNow cols hrow hscan, ?_, ?_⟩
  · rw [key conn.traced (s, []) jwt tokenNow updateNow cols (by simpa [Driver.traced] using hrow)
      hscan]
    simp [Driver.traced]
  · intro jwt2 t1 t2
    rw [key conn s jwt2 t1 t2 cols hrow hscan, key conn s jwt tokenNow updateNow cols hrow hscan]

/-- C15 for the username "alice" and the password "wrong": 401, and the table is as
it was. -/
theorem wrong_password_unauthorized_witness :
    LoginUser personStore (bookJWT aliceBook) plainBcrypt 0 1
        ⟨[], .ok ⟨"alice", "wrong"⟩⟩ [aliceRow, bobRow]
      = (⟨401, .error "login or password is incorrect"⟩, [aliceRow, bobRow]) :=
  (wrong_password_unauthorized personStore (bookJWT aliceBook) plainBcrypt 0 1
    ⟨[], .ok ⟨"alice", "wrong"⟩⟩ [aliceRow, bobRow] ⟨"alice", "wrong"⟩
    [.int 1, .str "alice", .str "alice@example.com", .null, .str "Al", .null,
      .str "$2a$10$secret123", .instant 0, .instant 0, .str "u-1"]
    ⟨1, "alice", "alice@example.com", "", "Al", "", "", "", "", 0, 0, "u-1"⟩
    "$2a$10$secret123" rfl (by decide) (by decide) rfl rfl rfl).1

/-- The courses of `LoginUser`: an error before any statement, an error after the
SELECT alone, or an identity found whose password verifies and for which a pair is
issued (what follows is then given by `LoginUser_found`). -/
theorem LoginUser_cases {σ : Type} (conn : Driver σ) (jwt : JWT) (bcrypt : Bcrypt)
    (tokenNow updateNow : Int) (c : Context LoginInput) (s : σ) :
    (∃ status msg, status ≠ 200
        ∧ LoginUser conn jwt bcrypt tokenNow updateNow c s = (⟨status, .error msg⟩, s))
      ∨ (∃ input status msg, c.body = .ok input ∧ status ≠ 200
        ∧ LoginUser conn jwt bcrypt tokenNow updateNow c s
          = (⟨status, .error msg⟩,
            (conn.QueryRow s LoginUser.query [Value.str (TrimSpace input.Username)]).2))
      ∨ ∃ input cols user hashedPassword token refresh,
        c.body = .ok input ∧ TrimSpace input.Username ≠ "" ∧ TrimSpace input.Password ≠ ""
          ∧ (conn.QueryRow s LoginUser.query [Value.str (TrimSpace input.Username)]).1
            = .row cols
          ∧ LoginUser.scan cols = some (user, hashedPassword)
          ∧ bcrypt.CompareHashAndPassword hashedPassword (TrimSpace input.Password) = none
          ∧ GenerateAllTokens jwt tokenNow user.Email user.FirstName user.LastName user.UserID
            = .ok (token, refresh) := by
  cases hbody : c.body with
  | error e =>
    left
    exact ⟨400, "invalid request body: " ++ e, by decide, by simp [LoginUser, Driver.isNil, hbody]⟩
  | ok input =>
    by_cases hblank : TrimSpace input.Username = "" ∨ TrimSpace input.Password = ""
    · left
      exact ⟨400, "username and password are required", by decide,
        by simp [LoginUser, Driver.isNil, hbody, hblank]⟩
    have huser : TrimSpace input.Username ≠ "" := fun h => hblank (Or.inl h)
    have hpw : TrimSpace input.Password ≠ "" := fun h => hblank (Or.inr h)
    rcases hq : conn.QueryRow s LoginUser.query [Value.str (TrimSpace input.Username)]
      with ⟨res, s1⟩
    rcases res with _ | e | cols
    · right; left
      exact ⟨input, 401, "invalid username or password", rfl, by decide,
        by simp [LoginUser, Driver.isNil, Database, hbody, hblank, hq]⟩
    · right; left
      exact ⟨input, 500, "failed to retrieve user", rfl, by decide,
        by simp [LoginUser, Driver.isNil, Database, hbody, hblank, hq]⟩
    · cases hscan : LoginUser.scan cols with
      | none =>
        right; left
        exact ⟨input, 500, "failed to retrieve user", rfl, by decide,
          by simp [LoginUser, Driver.isNil, Database, hbody, hblank, hq, hscan]⟩
      | some found =>
        obtain ⟨user, hashedPassword⟩ := found
        have hrow : (conn.QueryRow s LoginUser.query
            [Value.str (TrimSpace input.Username)]).1 = .row cols := by rw [hq]
        have hfound := LoginUser_found conn jwt bcrypt tokenNow updateNow c s input cols user
          hashedPassword hbody huser hpw hrow hscan
        cases hcmp : bcrypt.CompareHashAndPassword hashedPassword (TrimSpace input.Password) with
        | some e =>
          right; left
          rw [hcmp] at hfound
          exact ⟨input, 401, "login or password is incorrect", rfl, by decide, hfound⟩
        | none =>
          cases hgen : GenerateAllTokens jwt tokenNow user.Email user.FirstName user.LastName
              user.UserID with
          | error e =>
            right; left
            rw [hcmp, hgen] at hfound
            exact ⟨input, 500, "failed to generate tokens", rfl, by decide, hfound⟩
          | ok pair =>
            obtain ⟨token, refresh⟩ := pair
            right; right
            exact ⟨input, cols, user, hashedPassword, token, refresh, rfl, huser, hpw, hrow,
              hscan, hcmp, hgen⟩

/-! ## The Person table under the statements of the handlers -/

/-- Storing a pair on the rows with a given User_id. -/
theorem updatePersons_tokens (access refresh : String) (t : Int) (uid : String) :
    ∀ table : List PersonRow,
      updatePersons [.Token, .Refresh_Token, .Updated_at]
          [Value.str access, Value.str refresh, Value.instant t] uid table
        = some (table.map (fun r =>
            if r.User_id = uid then
              { r with Token := some access, Refresh_Token := some refresh, Updated_at := t }
            else r))
  | [] => rfl
  | r :: rows => by
    by_cases h : r.User_id = uid
    · simp [updatePersons, h, updatePersons_tokens access refresh t uid rows,
        PersonRow.assignAll, PersonRow.assign, toNullString]
    · simp [updatePersons, h, updatePersons_tokens access refresh t uid rows]

/-- The `Exec` of the statement of `UpdateAllTokens` on the table model. -/
theorem personStore_exec_tokens (table : List PersonRow) (access refresh uid : String)
    (t : Int) :
    personStore.Exec table UpdateAllTokens.stmt
        [Value.str access, Value.str refresh, Value.instant t, Value.str uid]
      = (.ok (.ok ((table.filter (fun r => r.User_id = uid)).length : Int)),
          table.map (fun r =>
            if r.User_id = uid then
              { r with Token := some access, Refresh_Token := some refresh, Updated_at := t }
            else r)) := by
  have hread : parsePersonUpdate (oneLine UpdateAllTokens.stmt)
      = some [.Token, .Refresh_Token, .Updated_at] := by decide
  simp [personStore, hread, execPersonUpdate, updatePersons_tokens]

/-- The SELECT of `LoginUser` on the table model. -/
theorem personStore_query_login (table : List PersonRow) (username : String) :
    personStore.QueryRow table LoginUser.query [Value.str username]
      = match table.find? (fun r => r.Username = username) with
        | some r =>
          (.row [.int r.ID, .str r.Username, .str r.Email, ofNullString r.PhoneNumber,
            ofNullString r.First_name, ofNullString r.Last_name, .str r.Password,
            .instant r.Created_at, .instant r.Updated_at, .str r.User_id], table)
        | none => (.errNoRows, table) := by
  have h1 : LoginUser.query ≠ CreateUser.dupChk := by decide
  have h2 : LoginUser.query ≠ CreateUser.ins := by decide
  simp only [personStore, h1, h2, ↓reduceIte]

/-- The SELECT of `LoginUser` leaves the table as it is. -/
theorem personStore_query_login_state (table : List PersonRow) (username : String) :
    (personStore.QueryRow table LoginUser.query [Value.str username]).2 = table := by
  rw [personStore_query_login]
  cases table.find? (fun r => r.Username = username) <;> rfl


/-- `UpdateAllTokens` over a logging driver: the same result, and its UPDATE
appended to the log. -/
theorem UpdateAllTokens_traced {σ : Type} (conn : Driver σ) (now : Int)
    (access refresh userID : String) (s : σ) (log : List Call) :
    UpdateAllTokens conn.traced now access refresh userID (s, log)
      = ((UpdateAllTokens conn now access refresh userID s).1,
          ((UpdateAllTokens conn now access refresh userID s).2,
            log ++ [⟨true, UpdateAllTokens.stmt,
              [Value.str access, Value.str refresh, Value.instant now, Value.str userID]⟩])) := by
  rw [UpdateAllTokens_eq, UpdateAllTokens_eq]
  simp only [Driver.traced]
  rcases conn.Exec s UpdateAllTokens.stmt
    [Value.str access, Value.str refresh, Value.instant now, Value.str userID] with ⟨res, s1⟩
  rcases res with e | (e | n)
  · rfl
  · rfl
  · by_cases h0 : n = 0 <;> simp [h0]

/-- The `Exec` calls of `LoginUser`: none, with a response that is not 200; or the
UPDATE of `UpdateAllTokens` for the pair issued, with a response decided by the
result of `UpdateAllTokens`. -/
theorem LoginUser_log {σ : Type} (conn : Driver σ) (jwt : JWT) (bcrypt : Bcrypt)
    (tokenNow updateNow : Int) (c : Context LoginInput) (s : σ) :
    (writes (LoginUser conn.traced jwt bcrypt tokenNow updateNow c (s, [])).2.2 = []
        ∧ (LoginUser conn.traced jwt bcrypt tokenNow updateNow c (s, [])).1.status ≠ 200)
      ∨ ∃ input user token refresh,
        c.body = .ok input
          ∧ GenerateAllTokens jwt tokenNow user.Email user.FirstName user.LastName user.UserID
            = .ok (token, refresh)
          ∧ writes (LoginUser conn.traced jwt bcrypt tokenNow updateNow c (s, [])).2.2
            = [⟨true, UpdateAllTokens.stmt,
                [Value.str token, Value.str refresh, Value.instant updateNow,
                  Value.str user.UserID]⟩]
          ∧ (LoginUser conn jwt bcrypt tokenNow updateNow c s).1
            = (match (UpdateAllTokens conn updateNow token refresh user.UserID
                (conn.QueryRow s LoginUser.query [Value.str (TrimSpace input.Username)]).2).1 with
              | some _ => ⟨500, .error "failed to update tokens"⟩
              | none => ⟨200, .record ⟨user, token, refresh⟩⟩)
          ∧ (LoginUser conn jwt bcrypt tokenNow updateNow c s).2
            = (UpdateAllTokens conn updateNow token refresh user.UserID
                (conn.QueryRow s LoginUser.query [Value.str (TrimSpace input.Username)]).2).2 := by
  rcases LoginUser_cases conn.traced jwt bcrypt tokenNow updateNow c (s, []) with
    ⟨status, msg, hne, h⟩ | ⟨input, status, msg, -, hne, h⟩ |
    ⟨input, cols, user, hashedPassword, token, refresh, hbody, huser, hpw, hrow, hscan, hcmp,
      hgen⟩
  · left
    rw [h]
    exact ⟨rfl, hne⟩
  · left
    rw [h]
    exact ⟨by simp [Driver.traced, writes], hne⟩
  · right
    have hrow1 : (conn.QueryRow s LoginUser.query [Value.str (TrimSpace input.Username)]).1
        = .row cols := hrow
    have ht := LoginUser_found conn.traced jwt bcrypt tokenNow updateNow c (s, []) input cols
      user hashedPassword hbody huser hpw hrow hscan
    have hu := LoginUser_found conn jwt bcrypt tokenNow updateNow c s input cols user
      hashedPassword hbody huser hpw hrow1 hscan
    rw [hcmp, hgen] at ht hu
    simp only at ht hu
    have hstate : (conn.traced.QueryRow (s, []) LoginUser.query
        [Value.str (TrimSpace input.Username)]).2
        = ((conn.QueryRow s LoginUser.query [Value.str (TrimSpace input.Username)]).2,
            [⟨false, LoginUser.query, [Value.str (TrimSpace input.Username)]⟩]) := rfl
    rw [hstate, UpdateAllTokens_traced] at ht
    refine ⟨input, user, token, refresh, hbody, hgen, ?_, ?_, ?_⟩
    · rw [ht]
      cases (UpdateAllTokens conn updateNow token refresh user.UserID
        (conn.QueryRow s LoginUser.query [Value.str (TrimSpace input.Username)]).2).1 <;>
        simp [writes]
    · rw [hu]
      rcases UpdateAllTokens conn updateNow token refresh user.UserID
        (conn.QueryRow s LoginUser.query [Value.str (TrimSpace input.Username)]).2
        with ⟨_ | e, s2⟩ <;> rfl
    · rw [hu]
      rcases UpdateAllTokens conn updateNow token refresh user.UserID
        (conn.QueryRow s LoginUser.query [Value.str (TrimSpace input.Username)]).2
        with ⟨_ | e, s2⟩ <;> rfl


/-- The response of `LoginUser` does not depend on the logging of the statements. -/
theorem LoginUser_traced_fst {σ : Type} (conn : Driver σ) (jwt : JWT) (bcrypt : Bcrypt)
    (tokenNow updateNow : Int) (c : Context LoginInput) (s : σ) (log : List Call) :
    (LoginUser conn.traced jwt bcrypt tokenNow updateNow c (s, log)).1
      = (LoginUser conn jwt bcrypt tokenNow updateNow c s).1 := by
  cases hbody : c.body with
  | error e => simp [LoginUser, Driver.isNil, hbody]
  | ok input =>
    by_cases hblank : TrimSpace input.Username = "" ∨ TrimSpace input.Password = ""
    · simp [LoginUser, Driver.isNil, hbody, hblank]
    have huser : TrimSpace input.Username ≠ "" := fun h => hblank (Or.inl h)
    have hpw : TrimSpace input.Password ≠ "" := fun h => hblank (Or.inr h)
    rcases hq : conn.QueryRow s LoginUser.query [Value.str (TrimSpace input.Username)]
      with ⟨res, s1⟩
    have hqt : conn.traced.QueryRow (s, log) LoginUser.query
        [Value.str (TrimSpace input.Username)]
        = (res, (s1, log ++ [⟨false, LoginUser.query,
            [Value.str (TrimSpace input.Username)]⟩])) := by
      simp [Driver.traced, hq]
    rcases res with _ | e | cols
    · simp [LoginUser, Driver.isNil, Database, hbody, hblank, hq, hqt]
    · simp [LoginUser, Driver.isNil, Database, hbody, hblank, hq, hqt]
    · cases hscan : LoginUser.scan cols with
      | none => simp [LoginUser, Driver.isNil, Database, hbody, hblank, hq, hqt, hscan]
      | some found =>
        obtain ⟨user, hashedPassword⟩ := found
        rw [LoginUser_found conn.traced jwt bcrypt tokenNow updateNow c (s, log) input cols user
            hashedPassword hbody huser hpw (by rw [hqt]) hscan,
          LoginUser_found conn jwt bcrypt tokenNow updateNow c s input cols user
            hashedPassword hbody huser hpw (by rw [hq]) hscan, hqt, hq]
        cases bcrypt.CompareHashAndPassword hashedPassword (TrimSpace input.Password) with
        | some e => rfl
        | none =>
          cases GenerateAllTokens jwt tokenNow user.Email user.FirstName user.LastName
              user.UserID with
          | error e => rfl
          | ok pair =>
            obtain ⟨token, refresh⟩ := pair
            simp only [UpdateAllTokens_traced]
            rcases UpdateAllTokens conn updateNow token refresh user.UserID s1
              with ⟨_ | e, s2⟩ <;> rfl

/-! ## C18: the pair of a successful login -/

/-- C18: when `LoginUser` sends a statement to `Exec`, it is the UPDATE of
`UpdateAllTokens` with the pair that `GenerateAllTokens` issued for the identity
found and with the User_id of that identity; the response is 200 with exactly that
pair when `UpdateAllTokens` returns `nil`, and the 500 error "failed to update
tokens", which holds no token, when it returns an error; a response 200 is never
given without that UPDATE; and on the table model a successful login leaves the
rows of that User_id with the pair of the response in Token and Refresh_Token,
whatever they held before, and every other row as it was. -/
theorem login_tokens_are_stored {σ : Type} (conn : Driver σ) (jwt : JWT) (bcrypt : Bcrypt)
    (tokenNow updateNow : Int) (c : Context LoginInput) (s : σ) (call : Call)
    (hcall : call ∈ writes (LoginUser conn.traced jwt bcrypt tokenNow updateNow c (s, [])).2.2) :
    (∃ input user token refresh,
        c.body = .ok input
          ∧ GenerateAllTokens jwt tokenNow user.Email user.FirstName user.LastName user.UserID
            = .ok (token, refresh)
          ∧ call = ⟨true, UpdateAllTokens.stmt,
              [Value.str token, Value.str refresh, Value.instant updateNow,
                Value.str user.UserID]⟩
          ∧ writes (LoginUser conn.traced jwt bcrypt tokenNow updateNow c (s, [])).2.2 = [call]
          ∧ ((UpdateAllTokens conn updateNow token refresh user.UserID
                (conn.QueryRow s LoginUser.query [Value.str (TrimSpace input.Username)]).2).1
              = none →
            (LoginUser conn jwt bcrypt tokenNow updateNow c s).1
              = ⟨200, .record ⟨user, token, refresh⟩⟩)
          ∧ (∀ err, (UpdateAllTokens conn updateNow token refresh user.UserID
                (conn.QueryRow s LoginUser.query [Value.str (TrimSpace input.Username)]).2).1
              = some err →
            (LoginUser conn jwt bcrypt tokenNow updateNow c s).1
              = ⟨500, .error "failed to update tokens"⟩))
      ∧ (∀ (τ : Type) (d : Driver τ) (st : τ),
          (LoginUser d.traced jwt bcrypt tokenNow updateNow c (st, [])).1.status = 200 →
            writes (LoginUser d.traced jwt bcrypt tokenNow updateNow c (st, [])).2.2 ≠ [])
      ∧ (∀ (table : List PersonRow) (user : User) (token refresh : String),
          (LoginUser personStore jwt bcrypt tokenNow updateNow c table).1
              = ⟨200, .record ⟨user, token, refresh⟩⟩ →
            (LoginUser personStore jwt bcrypt tokenNow updateNow c table).2
              = table.map (fun r =>
                  if r.User_id = user.UserID then
                    { r with Token := some token, Refresh_Token := some refresh,
                             Updated_at := updateNow }
                  else r)) := by
  refine ⟨?_, ?_, ?_⟩
  · rcases LoginUser_log conn jwt bcrypt tokenNow updateNow c s with
      ⟨hw, -⟩ | ⟨input, user, token, refresh, hbody, hgen, hw, hres, -⟩
    · rw [hw] at hcall; cases hcall
    · rw [hw] at hcall ⊢
      obtain rfl := List.mem_singleton.mp hcall
      refine ⟨input, user, token, refresh, hbody, hgen, rfl, rfl, ?_, ?_⟩
      · intro hnone
        rw [hres, hnone]
      · intro err herr
        rw [hres, herr]
  · intro τ d st h200
    rcases LoginUser_log d jwt bcrypt tokenNow updateNow c st with
      ⟨-, hne⟩ | ⟨input, user, token, refresh, -, -, hw, -, -⟩
    · exact absurd h200 hne
    · rw [hw]; simp
  · intro table user token refresh h200
    rcases LoginUser_log personStore jwt bcrypt tokenNow updateNow c table with
      ⟨-, hne⟩ | ⟨input, user1, token1, refresh1, -, -, -, hres, hstate⟩
    · rw [LoginUser_traced_fst, h200] at hne
      exact absurd rfl hne
    · rw [hres, personStore_query_login_state, UpdateAllTokens_eq, personStore_exec_tokens]
        at h200
      rw [hstate, personStore_query_login_state, UpdateAllTokens_eq, personStore_exec_tokens]
      by_cases h0 : ((table.filter (fun r => r.User_id = user1.UserID)).length : Int) = 0
      · simp [h0] at h200
      · simp only [h0, ↓reduceIte, Response.mk.injEq, true_and, Body.record.injEq,
          LoginResponse.mk.injEq] at h200
        obtain ⟨rfl, rfl, rfl⟩ := h200
        simp [h0]

/-- C18 for the login of alice with the password "secret123": the response holds
the new pair, and the new pair has replaced the old one in the row of alice. -/
theorem login_tokens_are_stored_witness :
    (LoginUser personStore (bookJWT aliceBook) plainBcrypt 0 1
        ⟨[], .ok ⟨"alice", "secret123"⟩⟩ [aliceRow, bobRow]).1
        = ⟨200, .record ⟨⟨1, "alice", "alice@example.com", "", "Al", "", "", "", "", 0, 0,
            "u-1"⟩, "alice-access", "alice-refresh"⟩⟩
      ∧ (LoginUser personStore (bookJWT aliceBook) plainBcrypt 0 1
        ⟨[], .ok ⟨"alice", "secret123"⟩⟩ [aliceRow, bobRow]).2
        = [{ aliceRow with Token := some "alice-access", Refresh_Token := some "alice-refresh",
                           Updated_at := 1 }, bobRow] :=
  have h := login_tokens_are_stored personStore (bookJWT aliceBook) plainBcrypt 0 1
    ⟨[], .ok ⟨"alice", "secret123"⟩⟩ [aliceRow, bobRow]
    ⟨true, UpdateAllTokens.stmt,
      [.str "alice-access", .str "alice-refresh", .instant 1, .str "u-1"]⟩ (by decide)
  ⟨rfl, (h.2.2 [aliceRow, bobRow] _ _ _ rfl).trans rfl⟩

/-! ## C16: a successful registration -/

theorem GenerateUUID_ne_empty (random : Nat) : GenerateUUID random ≠ "" := by
  intro h
  have hlen := congrArg String.length h
  simp [GenerateUUID, String.length] at hlen

/-- The stand-in signing library never signs into the empty string when its book
holds no empty token. -/
theorem bookJWT_nonEmpty (book : List (String × SignedDetails))
    (hbook : ∀ entry ∈ book, entry.1 ≠ "") : (bookJWT book).nonEmpty := by
  intro claims key raw hsign
  simp only [bookJWT] at hsign
  cases hfind : book.find? (fun entry => entry.2 = claims) with
  | none => simp [hfind] at hsign
  | some entry =>
    simp only [hfind, Except.ok.injEq] at hsign
    rw [← hsign]
    exact hbook entry (List.mem_of_find?_eq_some hfind)

/-- The stand-in for bcrypt never returns the password, nor a text that trims to
it: its hash starts with the marker and is seven characters longer. -/
theorem plainBcrypt_hides : plainBcrypt.hides := by
  intro password hash cost entropy hgen
  simp only [plainBcrypt] at hgen
  split_ifs at hgen
  simp only [Except.ok.injEq] at hgen
  subst hgen
  have hlen : ∀ l : List Char, "$2a$10$".data ++ l ≠ l := by
    intro l h
    have := congrArg List.length h
    simp at this
    omega
  refine ⟨?_, ?_⟩
  · intro h
    exact hlen password.data (congrArg String.data h)
  · intro h
    have hd : List.rdropWhile isSpace ("$2a$10$".data ++ password.data) = password.data :=
      congrArg String.data h
    have hne : password.data ≠ [] := by
      intro hnil
      rw [hnil] at hd
      exact absurd hd (by decide)
    have hlast : ¬ isSpace (password.data.getLast hne) = true := by
      have h0 : List.rdropWhile isSpace ("$2a$10$".data ++ password.data) ≠ [] := by
        rw [hd]; exact hne
      have h1 := List.rdropWhile_last_not isSpace ("$2a$10$".data ++ password.data) h0
      simp only [hd] at h1
      exact h1
    have hself : List.rdropWhile isSpace ("$2a$10$".data ++ password.data)
        = "$2a$10$".data ++ password.data := by
      rw [List.rdropWhile_eq_self_iff]
      intro hl
      rw [List.getLast_append_of_ne_nil hne]
      exact hlast
    rw [hself] at hd
    exact hlen password.data hd

/-- C16: for every `CreateUser` request with a non-blank username and password and
a well-formed email (with `@` and `.`) that the duplicate check finds unused, for
which hashing, signing and the insert succeed, the response is 201 with the record
of the new user, whose user_id, token and refresh_token are not empty; the
statements sent are the duplicate check and the INSERT; the password argument of
the INSERT is the output of `HashPassword`; and, bcrypt never returning the
password it hashes in place of a hash (`Bcrypt.hides`), that argument is not the
submitted password, neither as submitted nor trimmed. -/
theorem create_user_success {σ : Type} (conn : Driver σ) (jwt : JWT) (bcrypt : Bcrypt)
    (entropy : Nat) (now tokenNow : Int) (random : Nat) (c : Context User) (s : σ)
    (newUser : User) (hashed access refresh : String) (id : Int)
    (hjwt : jwt.nonEmpty)
    (hbody : c.body = .ok newUser)
    (huser : TrimSpace newUser.Username ≠ "") (hpw : TrimSpace newUser.Password ≠ "")
    (hat : Contains (TrimSpace newUser.Email) "@" = true)
    (hdot : Contains (TrimSpace newUser.Email) "." = true)
    (hunused : (conn.QueryRow s CreateUser.dupChk
        [Value.str (TrimSpace newUser.Username), Value.str (TrimSpace newUser.Email)]).1
          = .errNoRows)
    (hhash : HashPassword bcrypt entropy (TrimSpace newUser.Password) = .ok hashed)
    (hsign : GenerateAllTokens jwt tokenNow (TrimSpace newUser.Email) newUser.FirstName
        newUser.LastName (GenerateUUID random) = .ok (access, refresh))
    (hins : (conn.QueryRow
        (conn.QueryRow s CreateUser.dupChk
          [Value.str (TrimSpace newUser.Username), Value.str (TrimSpace newUser.Email)]).2
        CreateUser.ins
        (CreateUser.insArgs newUser hashed now (GenerateUUID random) access refresh)).1
          = .row [.int id]) :
    (∃ u : User,
        (CreateUser conn jwt bcrypt entropy now tokenNow random c s).1 = ⟨201, .record u⟩
          ∧ u.ID = id ∧ u.UserID = GenerateUUID random ∧ u.Token = access
          ∧ u.RefreshToken = refresh
          ∧ u.UserID ≠ "" ∧ u.Token ≠ "" ∧ u.RefreshToken ≠ "")
      ∧ (CreateUser conn.traced jwt bcrypt entropy now tokenNow random c (s, [])).2.2
        = [⟨false, CreateUser.dupChk,
            [Value.str (TrimSpace newUser.Username), Value.str (TrimSpace newUser.Email)]⟩,
           ⟨false, CreateUser.ins,
            CreateUser.insArgs newUser hashed now (GenerateUUID random) access refresh⟩]
      ∧ (CreateUser.insArgs newUser hashed now (GenerateUUID random) access refresh).get? 4
        = some (Value.str hashed)
      ∧ (bcrypt.hides →
          (CreateUser.insArgs newUser hashed now (GenerateUUID random) access refresh).get? 4
              ≠ some (Value.str newUser.Password)
            ∧ (CreateUser.insArgs newUser hashed now (GenerateUUID random) access refresh).get? 4
              ≠ some (Value.str (TrimSpace newUser.Password))
            ∧ hashed ≠ newUser.Password ∧ hashed ≠ TrimSpace newUser.Password) := by
  obtain ⟨hsa, hsr⟩ := (GenerateAllTokens_ok jwt tokenNow _ _ _ _ access refresh).mp hsign
  have hemail : TrimSpace newUser.Email ≠ "" := by
    intro h
    rw [h] at hat
    exact absurd hat (by decide)
  have key : ∀ {τ : Type} (d : Driver τ) (st : τ),
      (d.QueryRow st CreateUser.dupChk
        [Value.str (TrimSpace newUser.Username), Value.str (TrimSpace newUser.Email)]).1
          = .errNoRows →
      (d.QueryRow
        (d.QueryRow st CreateUser.dupChk
          [Value.str (TrimSpace newUser.Username), Value.str (TrimSpace newUser.Email)]).2
        CreateUser.ins
        (CreateUser.insArgs newUser hashed now (GenerateUUID random) access refresh)).1
          = .row [.int id] →
      CreateUser d jwt bcrypt entropy now tokenNow random c st
        = (⟨201, .record
            { newUser with
              Username := TrimSpace newUser.Username
              Email := TrimSpace newUser.Email
              Password := hashed
              CreatedAt := now
              UpdatedAt := now
              UserID := GenerateUUID random
              Token := access
              RefreshToken := refresh
              ID := id }⟩,
          (d.QueryRow
            (d.QueryRow st CreateUser.dupChk
              [Value.str (TrimSpace newUser.Username), Value.str (TrimSpace newUser.Email)]).2
            CreateUser.ins
            (CreateUser.insArgs newUser hashed now (GenerateUUID random) access refresh)).2) := by
    intro τ d st h1 h2
    rcases hq1 : d.QueryRow st CreateUser.dupChk
      [Value.str (TrimSpace newUser.Username), Value.str (TrimSpace newUser.Email)]
      with ⟨r1, st1⟩
    rw [hq1] at h1 h2
    simp only at h1 h2
    subst h1
    rcases hq2 : d.QueryRow st1 CreateUser.ins
      (CreateUser.insArgs newUser hashed now (GenerateUUID random) access refresh)
      with ⟨r2, st2⟩
    rw [hq2] at h2
    simp only at h2
    subst h2
    simp only [CreateUser.insArgs] at hq2
    simp [CreateUser, Database, hbody, huser, hpw, hemail, hat, hdot, hq1, hhash, hsign, hq2,
      scanInt]
  refine ⟨⟨_, congrArg Prod.fst (key conn s hunused hins), rfl, rfl, rfl, rfl,
    GenerateUUID_ne_empty random, hjwt _ _ _ hsa, hjwt _ _ _ hsr⟩, ?_, rfl, ?_⟩
  · rw [key conn.traced (s, []) hunused hins]
    rfl
  · intro hhides
    obtain ⟨h1, h2⟩ := hhides _ _ _ _ ((HashPassword_ok bcrypt entropy _ hashed).mp hhash)
    have h3 : hashed ≠ newUser.Password := by
      intro h
      rw [h] at h2
      exact h2 rfl
    have h4 : (CreateUser.insArgs newUser hashed now (GenerateUUID random) access
        refresh).get? 4 = some (Value.str hashed) := rfl
    refine ⟨?_, ?_, h3, h1⟩
    · rw [h4]
      intro h
      injection h with h
      injection h with h
      exact h3 h
    · rw [h4]
      intro h
      injection h with h
      injection h with h
      exact h1 h

/-- C16 for alice, alice@example.com, secret123: the response is 201 with a user_id
and a pair, and the row inserted holds the hash of the password, not "secret123". -/
theorem create_user_success_witness :
    (∃ u : User,
        (CreateUser personStore (bookJWT newAliceBook) plainBcrypt 7 5 6 0
            ⟨[], .ok aliceForm⟩ [bobRow]).1 = ⟨201, .record u⟩
          ∧ u.UserID = "00000000-0000-4000-8000-000000000000" ∧ u.Token = "alice-access"
          ∧ u.RefreshToken = "alice-refresh")
      ∧ (CreateUser personStore (bookJWT newAliceBook) plainBcrypt 7 5 6 0
            ⟨[], .ok aliceForm⟩ [bobRow]).2
        = [bobRow, ⟨3, "alice", "alice@example.com", some "Al", some "", "$2a$10$secret123",
            some "", 5, 5, "00000000-0000-4000-8000-000000000000", some "alice-access",
            some "alice-refresh"⟩]
      ∧ (plainBcrypt.hides ∧ "$2a$10$secret123" ≠ aliceForm.Password) :=
  match create_user_success personStore (bookJWT newAliceBook) plainBcrypt 7 5 6 0
    ⟨[], .ok aliceForm⟩ [bobRow] aliceForm "$2a$10$secret123" "alice-access" "alice-refresh" 3
    (bookJWT_nonEmpty newAliceBook (by decide)) rfl (by decide) (by decide) (by decide)
    (by decide) rfl rfl rfl rfl with
  | ⟨⟨u, h1, _, h3, h4, h5, _⟩, _, _, h6⟩ =>
    ⟨⟨u, h1, h3, h4, h5⟩, rfl, ⟨plainBcrypt_hides, (h6 plainBcrypt_hides).2.2.1⟩⟩

/-! ## Reading a SET list back from the statement text -/

theorem Join_data (sep : String) :
    ∀ cls : List String, (Join cls sep).data = joinParts sep.data (cls.map String.data)
  | [] => rfl
  | [a] => rfl
  | a :: b :: rest => by
    simp only [Join, String.data_append, List.map_cons, joinParts]
    rw [← List.map_cons, ← Join_data sep (b :: rest)]

theorem splitClauses_nil : splitClauses [] = [[]] := rfl

/-- The unfolding of `splitClauses` on a non-empty text. -/
theorem splitClauses_cons (c : Char) (rest : List Char) :
    splitClauses (c :: rest)
      = match c, rest, splitClauses rest with
        | ',', ' ' :: _, parts => [] :: parts
        | _, _, [] => [[c]]
        | _, _, part :: parts => (c :: part) :: parts := rfl

theorem splitClauses_ne_nil : ∀ cs : List Char, splitClauses cs ≠ []
  | [] => by simp [splitClauses_nil]
  | c :: rest => by
    rw [splitClauses_cons]
    split <;> simp

/-- A part without comma that ends the text is the only clause. -/
theorem splitClauses_last : ∀ p : List Char, ',' ∉ p → splitClauses p = [p]
  | [], _ => rfl
  | c :: p, h => by
    have hc : c ≠ ',' := fun hc => h (by simp [hc])
    have hp : ',' ∉ p := fun hp => h (List.mem_cons_of_mem _ hp)
    rw [splitClauses_cons, splitClauses_last p hp]
    split
    · exact absurd rfl hc
    · simp_all
    · simp_all

/-- A part without comma before a comma and a blank is the first clause. -/
theorem splitClauses_part (r : List Char) :
    ∀ p : List Char, ',' ∉ p →
      splitClauses (p ++ ',' :: ' ' :: r) = p :: splitClauses (' ' :: r)
  | [], _ => by
    rw [List.nil_append, splitClauses_cons]
    split <;> simp_all
  | c :: p, h => by
    have hc : c ≠ ',' := fun hc => h (by simp [hc])
    have hp : ',' ∉ p := fun hp => h (List.mem_cons_of_mem _ hp)
    rw [List.cons_append, splitClauses_cons, splitClauses_part r p hp]
    split
    · exact absurd rfl hc
    · simp_all
    · simp_all

theorem splitClauses_blank (r : List Char) :
    ∃ part parts, splitClauses r = part :: parts
      ∧ splitClauses (' ' :: r) = (' ' :: part) :: parts := by
  cases hr : splitClauses r with
  | nil => exact absurd hr (splitClauses_ne_nil r)
  | cons part parts =>
    refine ⟨part, parts, rfl, ?_⟩
    rw [splitClauses_cons, hr]
    rfl

/-- Splitting a joined SET list gives the clauses back, each but the first after a
blank. -/
theorem splitClauses_join :
    ∀ (p : List Char) (ps : List (List Char)), (∀ x ∈ p :: ps, ',' ∉ x) →
      splitClauses (joinParts [',', ' '] (p :: ps)) = p :: ps.map (fun x => ' ' :: x)
  | p, [], h => splitClauses_last p (h p (List.mem_cons_self _ _))
  | p, q :: ps, h => by
    have hp : ',' ∉ p := h p (List.mem_cons_self _ _)
    have hrest : ∀ x ∈ q :: ps, ',' ∉ x := fun x hx => h x (List.mem_cons_of_mem _ hx)
    have ih := splitClauses_join q ps hrest
    obtain ⟨part, parts, h1, h2⟩ := splitClauses_blank (joinParts [',', ' '] (q :: ps))
    rw [ih] at h1
    simp only [List.cons.injEq] at h1
    obtain ⟨rfl, rfl⟩ := h1
    simp only [joinParts, List.append_assoc, List.cons_append, List.nil_append]
    rw [splitClauses_part _ p hp, h2]
    rfl

theorem trimLead_blank (p : List Char) (ps : List (List Char)) :
    trimLead (p :: ps.map (fun x => ' ' :: x)) = p :: ps := by
  simp [trimLead, List.map_map, Function.comp_def]

/-- The SET list of a statement made of a head, joined clauses and a tail. -/
theorem setListOf_join (head tail p : List Char) (ps : List (List Char))
    (h : ∀ x ∈ p :: ps, ',' ∉ x) :
    setListOf head tail (head ++ joinParts [',', ' '] (p :: ps) ++ tail) = some (p :: ps) := by
  have h1 : head.isPrefixOf (head ++ joinParts [',', ' '] (p :: ps) ++ tail) = true := by
    rw [List.isPrefixOf_iff_prefix, List.append_assoc]
    exact List.prefix_append _ _
  have h2 : (head ++ joinParts [',', ' '] (p :: ps) ++ tail).drop head.length
      = joinParts [',', ' '] (p :: ps) ++ tail := by
    rw [List.append_assoc, List.drop_left]
  have h3 : tail.reverse.isPrefixOf (joinParts [',', ' '] (p :: ps) ++ tail).reverse = true := by
    rw [List.isPrefixOf_iff_prefix, List.reverse_append]
    exact List.prefix_append _ _
  have h4 : ((joinParts [',', ' '] (p :: ps) ++ tail).reverse.drop tail.length).reverse
      = joinParts [',', ' '] (p :: ps) := by
    rw [List.reverse_append, ← List.length_reverse tail, List.drop_left, List.reverse_reverse]
  simp only [setListOf, h1, h2, h3, h4, and_self, ↓reduceIte, splitClauses_join p ps h,
    trimLead_blank]

/-! ## C19, C20: what the statements assign on the Person table -/

theorem userClauses_columns :
    ∀ cl ∈ userClauses, ',' ∉ cl.data
      ∧ ∃ col, PersonColumn.ofClause cl.data = some col ∧ col ∈ mutableColumns := by
  decide

/-- Reading a list of clauses that each name a mutable column. -/
theorem mapM_ofClause :
    ∀ xs : List (List Char),
      (∀ x ∈ xs, ∃ col, PersonColumn.ofClause x = some col ∧ col ∈ mutableColumns) →
        ∃ cols, xs.mapM PersonColumn.ofClause = some cols ∧ ∀ col ∈ cols, col ∈ mutableColumns
  | [], _ => ⟨[], rfl, by simp⟩
  | x :: xs, h => by
    obtain ⟨col, hcol, hmem⟩ := h x (List.mem_cons_self _ _)
    obtain ⟨cols, hcols, hall⟩ := mapM_ofClause xs (fun y hy => h y (List.mem_cons_of_mem _ hy))
    refine ⟨col :: cols, by rw [List.mapM_cons, hcol, hcols]; rfl, ?_⟩
    intro c hc
    rcases List.mem_cons.mp hc with rfl | hc
    · exact hmem
    · exact hall c hc

/-- The UPDATE that `UpdateUserById` builds from clauses of `userClauses` reads back
as a list of mutable columns. -/
theorem parsePersonUpdate_userClauses (cls : List String) (hne : cls ≠ [])
    (hcls : ∀ cl ∈ cls, cl ∈ userClauses) :
    ∃ cols, parsePersonUpdate ("UPDATE Person SET " ++ Join cls ", " ++ " WHERE User_id = ?")
        = some cols ∧ ∀ col ∈ cols, col ∈ mutableColumns := by
  cases cls with
  | nil => exact absurd rfl hne
  | cons a rest =>
    have hcomma : ∀ x ∈ a.data :: rest.map String.data, ',' ∉ x := by
      intro x hx
      rw [← List.map_cons, List.mem_map] at hx
      obtain ⟨cl, hcl, rfl⟩ := hx
      exact (userClauses_columns cl (hcls cl hcl)).1
    have hcols : ∀ x ∈ a.data :: rest.map String.data,
        ∃ col, PersonColumn.ofClause x = some col ∧ col ∈ mutableColumns := by
      intro x hx
      rw [← List.map_cons, List.mem_map] at hx
      obtain ⟨cl, hcl, rfl⟩ := hx
      exact (userClauses_columns cl (hcls cl hcl)).2
    obtain ⟨cols, hmap, hall⟩ := mapM_ofClause _ hcols
    refine ⟨cols, ?_, hall⟩
    have hsep : ", ".data = [',', ' '] := rfl
    simp only [parsePersonUpdate, String.data_append, Join_data, List.map_cons, hsep,
      setListOf_join _ _ _ _ hcomma, Option.some_bind, hmap]

/-- Collapsing the white space of a text part by part. -/
theorem squeeze_append (b : Bool) (l1 : List Char) (c : Char) (l2 : List Char) :
    squeeze b (l1 ++ c :: l2) = squeeze b (l1 ++ [c]) ++ squeeze (isSpace c) l2 := by
  induction l1 generalizing b with
  | nil =>
    cases hc : isSpace c <;> cases b <;> simp [squeeze, hc]
  | cons a l ih =>
    cases ha : isSpace a <;> cases b <;> simp [squeeze, ha, ih]

/-- A run of white space ends at a character that is none. -/
theorem squeeze_head (b : Bool) (c : Char) (l : List Char) (hc : isSpace c = false) :
    squeeze b (c :: l) = squeeze false (c :: l) := by
  simp [squeeze, hc]

/-- Every SET clause of `UpdateUserById` is on one line, starts with a letter and
ends in a question mark. -/
theorem squeeze_clause (a : String) (ha : a ∈ userClauses) :
    squeeze false a.data = a.data
      ∧ ∃ c rest init, a.data = c :: rest ∧ isSpace c = false ∧ a.data = init ++ ['?'] := by
  simp only [userClauses, List.mem_cons, List.mem_singleton, List.not_mem_nil, or_false] at ha
  rcases ha with rfl | rfl | rfl | rfl | rfl | rfl <;>
    exact ⟨by decide, _, _, _, rfl, by decide,
      (List.dropLast_append_getLast (by decide)).symm⟩

/-- A joined list of SET clauses of `UpdateUserById` is on one line already, starts
with a letter and ends in a question mark. -/
theorem squeeze_clauses : ∀ (cls : List String), cls ≠ [] → (∀ cl ∈ cls, cl ∈ userClauses) →
    squeeze false (joinParts ", ".data (cls.map String.data))
        = joinParts ", ".data (cls.map String.data)
      ∧ ∃ c rest init, joinParts ", ".data (cls.map String.data) = c :: rest
          ∧ isSpace c = false ∧ joinParts ", ".data (cls.map String.data) = init ++ ['?']
  | [], h, _ => absurd rfl h
  | [a], _, h => squeeze_clause a (h a (List.mem_singleton.mpr rfl))
  | a :: b :: rest, _, h => by
    obtain ⟨ha, c, r, init, hc, hsp, hq⟩ := squeeze_clause a (h a (List.mem_cons_self _ _))
    obtain ⟨hX, c1, r1, init1, hc1, hsp1, hq1⟩ := squeeze_clauses (b :: rest) (by simp)
      (fun cl hcl => h cl (List.mem_cons_of_mem _ hcl))
    have hj : joinParts ", ".data ((a :: b :: rest).map String.data)
        = a.data ++ ", ".data ++ joinParts ", ".data ((b :: rest).map String.data) := rfl
    rw [hj]
    generalize joinParts ", ".data ((b :: rest).map String.data) = X at hX hc1 hq1
    refine ⟨?_, c, r ++ ", ".data ++ X, a.data ++ ", ".data ++ init1, ?_, hsp, ?_⟩
    · have h1 : a.data ++ ", ".data ++ X = init ++ '?' :: (',' :: ' ' :: X) := by
        rw [hq]; simp
      have h2 : squeeze false (',' :: ' ' :: X) = ',' :: ' ' :: X := by
        have h3 : squeeze true X = X := by
          rw [hc1, squeeze_head true c1 r1 hsp1, ← hc1, hX]
        have h4 : isSpace ',' = false := by decide
        have h5 : isSpace ' ' = true := by decide
        simp [squeeze, h3, h4, h5]
      have h6 : isSpace '?' = false := by decide
      rw [h1, squeeze_append, h6, h2, ← hq, ha]
      rw [hq]; simp
    · rw [hc]; simp
    · rw [hq1]; simp

/-- The statement that `UpdateUserById` builds is on one line already. -/
theorem oneLine_userUpdate (cls : List String) (hne : cls ≠ [])
    (hcls : ∀ cl ∈ cls, cl ∈ userClauses) :
    oneLine ("UPDATE Person SET " ++ Join cls ", " ++ " WHERE User_id = ?")
      = "UPDATE Person SET " ++ Join cls ", " ++ " WHERE User_id = ?" := by
  obtain ⟨hX, c, r, init, hc, hsp, hq⟩ := squeeze_clauses cls hne hcls
  have hsq : squeeze true ("UPDATE Person SET " ++ Join cls ", " ++ " WHERE User_id = ?").data
      = ("UPDATE Person SET " ++ Join cls ", " ++ " WHERE User_id = ?").data := by
    simp only [String.data_append, Join_data]
    generalize joinParts ", ".data (cls.map String.data) = X at hX hc hq
    have h1 : "UPDATE Person SET ".data ++ X ++ " WHERE User_id = ?".data
        = "UPDATE Person SET".data ++ ' ' :: (X ++ " WHERE User_id = ?".data) := by
      simp
    have h2 : squeeze true (X ++ " WHERE User_id = ?".data)
        = X ++ " WHERE User_id = ?".data := by
      have h3 : X ++ " WHERE User_id = ?".data = init ++ '?' :: " WHERE User_id = ?".data := by
        rw [hq]; simp
      have h4 : squeeze true (init ++ ['?']) = init ++ ['?'] := by
        rw [← hq, hc, squeeze_head true c r hsp, ← hc, hX]
      have h5 : squeeze (isSpace '?') " WHERE User_id = ?".data = " WHERE User_id = ?".data := by
        decide
      rw [h3, squeeze_append, h4, h5]; simp
    have h6 : squeeze true ("UPDATE Person SET".data ++ [' ']) = "UPDATE Person SET".data ++ [' '] := by
      decide
    have h7 : isSpace ' ' = true := by decide
    rw [h1, squeeze_append, h6, h7, h2]; simp
  have hlast : ∃ init1, ("UPDATE Person SET " ++ Join cls ", " ++ " WHERE User_id = ?").data
      = init1 ++ ['?'] :=
    ⟨("UPDATE Person SET " ++ Join cls ", ").data ++ " WHERE User_id = ".data, by
      simp [String.data_append]⟩
  obtain ⟨init1, hl⟩ := hlast
  apply String.ext
  show List.rdropWhile (fun c => c == ' ') (squeeze true _) = _
  rw [hsq, hl, List.rdropWhile_concat_neg]
  decide

/-- An assignment to a mutable column leaves the credentials of the row. -/
theorem assign_credentials {r r1 : PersonRow} {col : PersonColumn} {v : Value}
    (hcol : col ∈ mutableColumns) (h : r.assign col v = some r1) :
    r1.credentials = r.credentials := by
  simp only [mutableColumns, List.mem_cons, List.mem_singleton, List.not_mem_nil,
    or_false] at hcol
  rcases hcol with rfl | rfl | rfl | rfl | rfl | rfl | rfl | rfl <;>
    cases v <;>
    simp only [PersonRow.assign, toNullString, Option.map_some', Option.map_none',
      Option.some.injEq, reduceCtorEq] at h <;>
    (subst h; rfl)

theorem assignAll_credentials :
    ∀ (cols : List PersonColumn) (vals : List Value) (r r1 : PersonRow),
      (∀ col ∈ cols, col ∈ mutableColumns) → r.assignAll cols vals = some r1 →
        r1.credentials = r.credentials
  | [], [], r, r1, _, h => by
    simp only [PersonRow.assignAll, Option.some.injEq] at h
    rw [h]
  | [], _ :: _, r, r1, _, h => by simp [PersonRow.assignAll] at h
  | _ :: _, [], r, r1, _, h => by simp [PersonRow.assignAll] at h
  | col :: cols, v :: vals, r, r1, hcols, h => by
    simp only [PersonRow.assignAll] at h
    cases h1 : r.assign col v with
    | none => simp [h1] at h
    | some r2 =>
      simp only [h1, Option.some_bind] at h
      rw [assignAll_credentials cols vals r2 r1
        (fun x hx => hcols x (List.mem_cons_of_mem _ hx)) h,
        assign_credentials (hcols col (List.mem_cons_self _ _)) h1]

theorem updatePersons_credentials (cols : List PersonColumn) (vals : List Value)
    (uid : String) (hcols : ∀ col ∈ cols, col ∈ mutableColumns) :
    ∀ (table table1 : List PersonRow), updatePersons cols vals uid table = some table1 →
      table1.map PersonRow.credentials = table.map PersonRow.credentials
  | [], table1, h => by
    simp only [updatePersons, Option.some.injEq] at h
    rw [← h]
  | r :: rows, table1, h => by
    simp only [updatePersons] at h
    cases hrest : updatePersons cols vals uid rows with
    | none =>
      by_cases hr : r.User_id = uid
      · cases hassign : r.assignAll cols vals <;> simp [hr, hrest, hassign] at h
      · simp [hr, hrest] at h
    | some rows1 =>
      have ih := updatePersons_credentials cols vals uid hcols rows rows1 hrest
      by_cases hr : r.User_id = uid
      · cases hassign : r.assignAll cols vals with
        | none => simp [hr, hrest, hassign] at h
        | some r1 =>
          simp only [hr, hrest, hassign, ↓reduceIte, Option.some.injEq] at h
          rw [← h, List.map_cons, List.map_cons, ih,
            assignAll_credentials cols vals r r1 hcols hassign]
      · simp only [hr, hrest, ↓reduceIte, Option.map_some', Option.some.injEq] at h
        rw [← h, List.map_cons, List.map_cons, ih]

theorem execPersonUpdate_credentials (cols : List PersonColumn) (vals : List Value)
    (uid : String) (table : List PersonRow) (hcols : ∀ col ∈ cols, col ∈ mutableColumns) :
    (execPersonUpdate cols vals uid table).2.map PersonRow.credentials
      = table.map PersonRow.credentials := by
  unfold execPersonUpdate
  cases h : updatePersons cols vals uid table with
  | none => rfl
  | some table1 => exact updatePersons_credentials cols vals uid hcols table table1 h

/-- An `Exec` on the table model leaves the credentials of every row, provided the
statement, when it reads as an UPDATE with a SET list, names mutable columns only. -/
theorem personStore_exec_credentials (table : List PersonRow) (q : String) (args : List Value)
    (h : ∀ cols, parsePersonUpdate (oneLine q) = some cols →
      ∀ col ∈ cols, col ∈ mutableColumns) :
    (personStore.Exec table q args).2.map PersonRow.credentials
      = table.map PersonRow.credentials := by
  simp only [personStore]
  cases hparse : parsePersonUpdate (oneLine q) with
  | none => rfl
  | some cols =>
    split
    · rename_i a b c d e f g
      cases f
      exact execPersonUpdate_credentials _ _ _ _ (h _ hparse)
    · rfl

/-- A `QueryRow` on the table model changes the table for the INSERT only. -/
theorem personStore_query_state (table : List PersonRow) (q : String) (args : List Value)
    (hq : q ≠ CreateUser.ins) : (personStore.QueryRow table q args).2 = table := by
  simp only [personStore, hq, ↓reduceIte]
  repeat' split
  all_goals rfl

/-- The state that `UpdateAllTokens` leaves is the one its UPDATE leaves. -/
theorem UpdateAllTokens_state {σ : Type} (conn : Driver σ) (now : Int)
    (access refresh userID : String) (s : σ) :
    (UpdateAllTokens conn now access refresh userID s).2
      = (conn.Exec s UpdateAllTokens.stmt
          [Value.str access, Value.str refresh, Value.instant now, Value.str userID]).2 := by
  rw [UpdateAllTokens_eq]
  rcases conn.Exec s UpdateAllTokens.stmt
    [Value.str access, Value.str refresh, Value.instant now, Value.str userID] with ⟨res, s1⟩
  rcases res with e | (e | n)
  · rfl
  · rfl
  · by_cases h0 : n = 0 <;> simp [h0]

/-- The state that `LoginUser` leaves: the one it started from, the one after its
SELECT, or the one after the UPDATE of `UpdateAllTokens` that follows the SELECT. -/
theorem LoginUser_state {σ : Type} (conn : Driver σ) (jwt : JWT) (bcrypt : Bcrypt)
    (tokenNow updateNow : Int) (c : Context LoginInput) (s : σ) :
    (LoginUser conn jwt bcrypt tokenNow updateNow c s).2 = s
      ∨ (∃ username, (LoginUser conn jwt bcrypt tokenNow updateNow c s).2
          = (conn.QueryRow s LoginUser.query [Value.str username]).2)
      ∨ ∃ username access refresh uid, (LoginUser conn jwt bcrypt tokenNow updateNow c s).2
          = (conn.Exec (conn.QueryRow s LoginUser.query [Value.str username]).2
              UpdateAllTokens.stmt
              [Value.str access, Value.str refresh, Value.instant updateNow, Value.str uid]).2 := by
  rcases LoginUser_cases conn jwt bcrypt tokenNow updateNow c s with
    ⟨status, msg, -, h⟩ | ⟨input, status, msg, -, -, h⟩ |
    ⟨input, cols, user, hashedPassword, token, refresh, hbody, huser, hpw, hrow, hscan, hcmp,
      hgen⟩
  · left; rw [h]
  · right; left; exact ⟨_, by rw [h]⟩
  · right; right
    refine ⟨TrimSpace input.Username, token, refresh, user.UserID, ?_⟩
    rw [LoginUser_found conn jwt bcrypt tokenNow updateNow c s input cols user hashedPassword
      hbody huser hpw hrow hscan, hcmp, hgen, ← UpdateAllTokens_state]
    dsimp only
    rcases UpdateAllTokens conn updateNow token refresh user.UserID
      (conn.QueryRow s LoginUser.query [Value.str (TrimSpace input.Username)]).2 with ⟨r, s2⟩
    cases r <;> rfl

/-- The state that `UpdateUserById` leaves: the one it started from, the one after
its UPDATE, or the one after the SELECT that follows the UPDATE; the SET list of the
UPDATE is made of the clauses of `userClauses`. -/
theorem UpdateUserById_state {σ : Type} (conn : Driver σ) (now : Int)
    (entries : List (String × String)) (c : Context (List (String × JsonValue))) (s : σ)
    (hentries : ∀ entry ∈ entries, entry ∈ allowedFields) :
    (UpdateUserById conn now entries c s).2 = s
      ∨ ∃ cls args, cls ≠ [] ∧ (∀ cl ∈ cls, cl ∈ userClauses)
        ∧ ((UpdateUserById conn now entries c s).2
            = (conn.Exec s ("UPDATE Person SET " ++ Join cls ", " ++ " WHERE User_id = ?")
                args).2
          ∨ (UpdateUserById conn now entries c s).2
            = (conn.QueryRow
                (conn.Exec s ("UPDATE Person SET " ++ Join cls ", " ++ " WHERE User_id = ?")
                  args).2
                UpdateUserById.selectQuery [Value.str (c.Param "user_id")]).2) := by
  cases hbody : c.body with
  | error e => left; simp [UpdateUserById, Driver.isNil, hbody]
  | ok payload =>
    by_cases huid : c.Param "user_id" = "" ∨ (c.Param "user_id").utf8ByteSize > 36
    · left; simp [UpdateUserById, Driver.isNil, hbody, huid]
    cases hloop : UpdateUserById.loop payload entries ⟨[], []⟩ with
    | error r => left; simp [UpdateUserById, Driver.isNil, hbody, huid, hloop]
    | ok b =>
      by_cases hlen : (b.add "Updated_at = ?" (Value.instant now)).setClauses.length = 1
      · left; simp [UpdateUserById, Driver.isNil, hbody, huid, hloop, hlen]
      right
      refine ⟨(b.add "Updated_at = ?" (Value.instant now)).setClauses,
        (b.add "Updated_at = ?" (Value.instant now)).args ++ [Value.str (c.Param "user_id")],
        ?_, ?_, ?_⟩
      · simp [Builder.add]
      · intro cl hcl
        obtain ⟨-, hc, -⟩ := loop_ok payload entries _ _ hloop
        simp only [Builder.add, hc, List.nil_append, List.mem_append, List.mem_map,
          List.mem_singleton] at hcl
        rcases hcl with ⟨ca, hca, rfl⟩ | rfl
        · exact assignments_clauses payload entries hentries ca hca
        · decide
      · rcases hexec : conn.Exec s
          ("UPDATE Person SET " ++ Join (b.add "Updated_at = ?" (Value.instant now)).setClauses ", "
            ++ " WHERE User_id = ?")
          ((b.add "Updated_at = ?" (Value.instant now)).args ++ [Value.str (c.Param "user_id")])
          with ⟨res, s1⟩
        rcases res with e | (e | n)
        · left; simp [UpdateUserById, Driver.isNil, Database, hbody, huid, hloop, hlen, hexec]
        · left; simp [UpdateUserById, Driver.isNil, Database, hbody, huid, hloop, hlen, hexec]
        · by_cases h0 : n = 0
          · left
            simp [UpdateUserById, Driver.isNil, Database, hbody, huid, hloop, hlen, hexec, h0]
          · right
            rcases hsel : conn.QueryRow s1 UpdateUserById.selectQuery
              [Value.str (c.Param "user_id")] with ⟨row, s2⟩
            rcases row with _ | e | cols
            · simp [UpdateUserById, Driver.isNil, Database, hbody, huid, hloop, hlen, hexec,
                h0, hsel]
            · simp [UpdateUserById, Driver.isNil, Database, hbody, huid, hloop, hlen, hexec,
                h0, hsel]
            · cases hscan : UpdateUserById.scan cols <;>
                simp [UpdateUserById, Driver.isNil, Database, hbody, huid, hloop, hlen, hexec,
                  h0, hsel, hscan]

/-- The table model honours an assignment of `User_id` and of `Password` when a
statement makes one, whether the statement is written on one line or laid out over
several lines in the way of the statement of `UpdateAllTokens`. -/
theorem personStore_honours_credentials :
    (personStore.Exec [aliceRow, bobRow]
        "UPDATE Person SET User_id = ?, Password = ? WHERE User_id = ?"
        [.str "u-9", .str "plain", .str "u-2"]).2.map PersonRow.credentials
      = [(1, "u-1", "$2a$10$secret123"), (2, "u-9", "plain")]
    ∧ (personStore.Exec [aliceRow, bobRow]
        "\n        UPDATE Person\n        SET User_id = ?,\n            Password = ?\n        WHERE User_id = ?"
        [.str "u-9", .str "plain", .str "u-2"]).2.map PersonRow.credentials
      = [(1, "u-1", "$2a$10$secret123"), (2, "u-9", "plain")] := by
  decide

/-- The statements that `UpdateUserById` sends, in any run: its UPDATE, with a SET
list made of the clauses of `userClauses`, and its SELECT. -/
theorem UpdateUserById_calls {σ : Type} (conn : Driver σ) (now : Int)
    (entries : List (String × String)) (c : Context (List (String × JsonValue))) (s : σ)
    (hentries : ∀ entry ∈ entries, entry ∈ allowedFields) :
    ∀ call ∈ (UpdateUserById conn.traced now entries c (s, [])).2.2,
      call.query = UpdateUserById.selectQuery
        ∨ ∃ cls, cls ≠ [] ∧ (∀ cl ∈ cls, cl ∈ userClauses)
          ∧ call.query = "UPDATE Person SET " ++ Join cls ", " ++ " WHERE User_id = ?" := by
  intro call hcall
  rcases UpdateUserById_state conn.traced now entries c (s, []) hentries with
    h | ⟨cls, args, hne, hcls, h | h⟩
  · rw [h] at hcall; cases hcall
  · rw [h] at hcall
    simp only [Driver.traced, List.nil_append, List.mem_singleton] at hcall
    subst hcall
    exact Or.inr ⟨cls, hne, hcls, rfl⟩
  · rw [h] at hcall
    simp only [Driver.traced, List.nil_append, List.cons_append, List.mem_cons,
      List.mem_singleton, List.not_mem_nil, or_false] at hcall
    rcases hcall with rfl | rfl
    · exact Or.inr ⟨cls, hne, hcls, rfl⟩
    · exact Or.inl rfl

/-- The statements that `LoginUser` sends, in any run: its SELECT and the UPDATE of
`UpdateAllTokens`. -/
theorem LoginUser_calls {σ : Type} (conn : Driver σ) (jwt : JWT) (bcrypt : Bcrypt)
    (tokenNow updateNow : Int) (c : Context LoginInput) (s : σ) :
    ∀ call ∈ (LoginUser conn.traced jwt bcrypt tokenNow updateNow c (s, [])).2.2,
      call.query = LoginUser.query ∨ call.query = UpdateAllTokens.stmt := by
  intro call hcall
  rcases LoginUser_state conn.traced jwt bcrypt tokenNow updateNow c (s, []) with
    h | ⟨username, h⟩ | ⟨username, a, r, uid, h⟩
  · rw [h] at hcall; cases hcall
  · rw [h] at hcall
    simp only [Driver.traced, List.nil_append, List.mem_singleton] at hcall
    subst hcall
    exact Or.inl rfl
  · rw [h] at hcall
    simp only [Driver.traced, List.nil_append, List.cons_append, List.mem_cons,
      List.mem_singleton, List.not_mem_nil, or_false] at hcall
    rcases hcall with rfl | rfl
    · exact Or.inl rfl
    · exact Or.inr rfl

/-- C20: over any datastore, every statement that `UpdateUserById` (with `entries`
an enumeration of `allowedFields`), `LoginUser` and `UpdateAllTokens` send is a
SELECT or an UPDATE of Person whose SET list, read from the text of the statement,
names neither `User_id` nor `Password` (the identity value is no column of a SET
list at all).  Hence over the table model of Person, which reads the SET list of
every UPDATE from its text and carries out whatever it assigns (of `User_id` and of
`Password` too), no request to `UpdateUserById`, no request to `LoginUser` and no
call of `UpdateAllTokens` changes the identity value, the external identifier
`User_id` or the `Password` of any row: the table has the same rows in the same
order with the same three values afterwards. -/
theorem credentials_are_never_assigned {σ : Type} (conn : Driver σ) (s : σ)
    (table : List PersonRow) (now : Int)
    (entries : List (String × String)) (hentries : entries.Perm allowedFields)
    (cu : Context (List (String × JsonValue)))
    (jwt : JWT) (bcrypt : Bcrypt) (tokenNow updateNow : Int) (cl : Context LoginInput)
    (access refresh userID : String) :
    (∀ call ∈ (UpdateUserById conn.traced now entries cu (s, [])).2.2
          ++ (LoginUser conn.traced jwt bcrypt tokenNow updateNow cl (s, [])).2.2
          ++ (UpdateAllTokens conn.traced now access refresh userID (s, [])).2.2,
        isSelect call.query = true
          ∨ ∃ cols, parsePersonUpdate (oneLine call.query) = some cols
            ∧ PersonColumn.User_id ∉ cols ∧ PersonColumn.Password ∉ cols)
      ∧ (UpdateUserById personStore now entries cu table).2.map PersonRow.credentials
        = table.map PersonRow.credentials
      ∧ (LoginUser personStore jwt bcrypt tokenNow updateNow cl table).2.map
          PersonRow.credentials
        = table.map PersonRow.credentials
      ∧ (UpdateAllTokens personStore now access refresh userID table).2.map
          PersonRow.credentials
        = table.map PersonRow.credentials := by
  have hread : parsePersonUpdate (oneLine UpdateAllTokens.stmt)
      = some [.Token, .Refresh_Token, .Updated_at] := by decide
  have hmut : ∀ cols : List PersonColumn, (∀ col ∈ cols, col ∈ mutableColumns) →
      PersonColumn.User_id ∉ cols ∧ PersonColumn.Password ∉ cols := by
    intro cols hall
    exact ⟨fun h => absurd (hall _ h) (by decide), fun h => absurd (hall _ h) (by decide)⟩
  have hstmt : ∀ (t : List PersonRow) (args : List Value),
      (personStore.Exec t UpdateAllTokens.stmt args).2.map PersonRow.credentials
        = t.map PersonRow.credentials := by
    intro t args
    apply personStore_exec_credentials
    intro cols hcols
    rw [hread] at hcols
    cases hcols
    decide
  have huser : ∀ cls : List String, cls ≠ [] → (∀ c ∈ cls, c ∈ userClauses) →
      ∃ cols, parsePersonUpdate
          (oneLine ("UPDATE Person SET " ++ Join cls ", " ++ " WHERE User_id = ?")) = some cols
        ∧ ∀ col ∈ cols, col ∈ mutableColumns := by
    intro cls hne hcls
    rw [oneLine_userUpdate cls hne hcls]
    exact parsePersonUpdate_userClauses cls hne hcls
  refine ⟨?_, ?_, ?_, ?_⟩
  · intro call hcall
    rw [List.mem_append, List.mem_append] at hcall
    rcases hcall with (hcall | hcall) | hcall
    · rcases UpdateUserById_calls conn now entries cu s (fun e he => hentries.subset he)
          call hcall with hq | ⟨cls, hne, hcls, hq⟩
      · left; rw [hq]; decide
      · right
        obtain ⟨cols, hparse, hall⟩ := huser cls hne hcls
        rw [hq]
        exact ⟨cols, hparse, hmut cols hall⟩
    · rcases LoginUser_calls conn jwt bcrypt tokenNow updateNow cl s call hcall with hq | hq
      · left; rw [hq]; decide
      · right; rw [hq]
        exact ⟨_, hread, by decide, by decide⟩
    · rw [UpdateAllTokens_traced] at hcall
      simp only [List.nil_append, List.mem_singleton] at hcall
      subst hcall
      right
      exact ⟨_, hread, by decide, by decide⟩
  · rcases UpdateUserById_state personStore now entries cu table
        (fun e he => hentries.subset he) with
      h | ⟨cls, args, hne, hcls, h | h⟩
    · rw [h]
    · rw [h]
      apply personStore_exec_credentials
      intro cols hcols
      obtain ⟨cols1, hparse, hall⟩ := huser cls hne hcls
      rw [hparse] at hcols
      cases hcols
      exact hall
    · rw [h, personStore_query_state _ _ _ (by decide)]
      apply personStore_exec_credentials
      intro cols hcols
      obtain ⟨cols1, hparse, hall⟩ := huser cls hne hcls
      rw [hparse] at hcols
      cases hcols
      exact hall
  · rcases LoginUser_state personStore jwt bcrypt tokenNow updateNow cl table with
      h | ⟨username, h⟩ | ⟨username, a, r, uid, h⟩
    · rw [h]
    · rw [h, personStore_query_login_state]
    · rw [h, personStore_query_login_state]
      exact hstmt _ _
  · rw [UpdateAllTokens_state]
    exact hstmt _ _

/-- C20 on the table of alice and bob: the UPDATE that a call of `UpdateAllTokens`
for bob sends reads as an assignment of `Token`, `Refresh_Token` and `Updated_at`,
and a rename of bob, a login of alice and that call leave the three values of both
rows. -/
theorem credentials_are_never_assigned_witness :
    allowedFields.Perm allowedFields
      ∧ (UpdateAllTokens personStore.traced 5 "a" "r" "u-2" ([aliceRow, bobRow], [])).2.2
        = [⟨true, UpdateAllTokens.stmt,
            [Value.str "a", Value.str "r", Value.instant 5, Value.str "u-2"]⟩]
      ∧ (isSelect UpdateAllTokens.stmt = true
        ∨ ∃ cols, parsePersonUpdate (oneLine UpdateAllTokens.stmt) = some cols
          ∧ PersonColumn.User_id ∉ cols ∧ PersonColumn.Password ∉ cols)
      ∧ (UpdateUserById personStore 5 allowedFields bobRename [aliceRow, bobRow]).2.map
          PersonRow.credentials
        = [(1, "u-1", "$2a$10$secret123"), (2, "u-2", "$2a$10$hunter2")]
      ∧ (LoginUser personStore (bookJWT aliceBook) plainBcrypt 0 1 aliceLogin
          [aliceRow, bobRow]).2.map PersonRow.credentials
        = [(1, "u-1", "$2a$10$secret123"), (2, "u-2", "$2a$10$hunter2")]
      ∧ (UpdateAllTokens personStore 5 "a" "r" "u-2" [aliceRow, bobRow]).2.map
          PersonRow.credentials
        = [(1, "u-1", "$2a$10$secret123"), (2, "u-2", "$2a$10$hunter2")] :=
  ⟨List.Perm.refl _, by decide,
    (credentials_are_never_assigned personStore [aliceRow, bobRow] [aliceRow, bobRow] 5
      allowedFields (List.Perm.refl _) bobRename (bookJWT aliceBook) plainBcrypt 0 1
      aliceLogin "a" "r" "u-2").1
      ⟨true, UpdateAllTokens.stmt,
        [Value.str "a", Value.str "r", Value.instant 5, Value.str "u-2"]⟩
      (List.mem_append_right _ (by decide)),
    (credentials_are_never_assigned personStore [aliceRow, bobRow] [aliceRow, bobRow] 5
      allowedFields (List.Perm.refl _) bobRename (bookJWT aliceBook) plainBcrypt 0 1
      aliceLogin "a" "r" "u-2").2⟩

/-! ## Uniqueness of usernames and emails under the handlers -/

/-- The state that `CreateUser` leaves: the one it started from, the one after its
duplicate check, or the one after the INSERT that follows a duplicate check which
found no row. -/
theorem CreateUser_state {σ : Type} (conn : Driver σ) (jwt : JWT) (bcrypt : Bcrypt)
    (entropy : Nat) (now tokenNow : Int) (random : Nat) (c : Context User) (s : σ) :
    (CreateUser conn jwt bcrypt entropy now tokenNow random c s).2 = s
      ∨ ∃ username email,
        (CreateUser conn jwt bcrypt entropy now tokenNow random c s).2
            = (conn.QueryRow s CreateUser.dupChk [Value.str username, Value.str email]).2
          ∨ ((conn.QueryRow s CreateUser.dupChk [Value.str username, Value.str email]).1
              = .errNoRows
            ∧ ∃ first last hashed phone uid access refresh,
              (CreateUser conn jwt bcrypt entropy now tokenNow random c s).2
                = (conn.QueryRow
                    (conn.QueryRow s CreateUser.dupChk
                      [Value.str username, Value.str email]).2
                    CreateUser.ins
                    [Value.str username, Value.str email, Value.str first, Value.str last,
                     Value.str hashed, Value.str phone, Value.instant now, Value.instant now,
                     Value.str uid, Value.str access, Value.str refresh]).2) := by
  cases hbody : c.body with
  | error e => left; simp [CreateUser, hbody]
  | ok newUser =>
    by_cases hblank : TrimSpace newUser.Username = "" ∨ TrimSpace newUser.Email = ""
        ∨ TrimSpace newUser.Password = ""
    · left; simp [CreateUser, hbody, hblank]
    by_cases hmail : (!Contains (TrimSpace newUser.Email) "@"
        || !Contains (TrimSpace newUser.Email) ".") = true
    · left; simp [CreateUser, hbody, hblank, hmail]
    right
    refine ⟨TrimSpace newUser.Username, TrimSpace newUser.Email, ?_⟩
    rcases hq : conn.QueryRow s CreateUser.dupChk
      [Value.str (TrimSpace newUser.Username), Value.str (TrimSpace newUser.Email)]
      with ⟨res, s1⟩
    rcases res with _ | e | cols
    · cases hhash : HashPassword bcrypt entropy (TrimSpace newUser.Password) with
      | error e => left; simp [CreateUser, Database, hbody, hblank, hmail, hq, hhash]
      | ok hashed =>
        cases hgen : GenerateAllTokens jwt tokenNow (TrimSpace newUser.Email) newUser.FirstName
            newUser.LastName (GenerateUUID random) with
        | error e => left; simp [CreateUser, Database, hbody, hblank, hmail, hq, hhash, hgen]
        | ok pair =>
          obtain ⟨access, refresh⟩ := pair
          right
          refine ⟨rfl, newUser.FirstName, newUser.LastName, hashed, newUser.PhoneNumber,
            GenerateUUID random, access, refresh, ?_⟩
          rcases hins : conn.QueryRow s1 CreateUser.ins
            [Value.str (TrimSpace newUser.Username), Value.str (TrimSpace newUser.Email),
             Value.str newUser.FirstName, Value.str newUser.LastName, Value.str hashed,
             Value.str newUser.PhoneNumber, Value.instant now, Value.instant now,
             Value.str (GenerateUUID random), Value.str access, Value.str refresh]
            with ⟨res2, s2⟩
          rcases res2 with _ | e | cols
          · simp [CreateUser, Database, hbody, hblank, hmail, hq, hhash, hgen, hins]
          · simp [CreateUser, Database, hbody, hblank, hmail, hq, hhash, hgen, hins]
          · cases hscan : scanInt cols <;>
              simp [CreateUser, Database, hbody, hblank, hmail, hq, hhash, hgen, hins, hscan]
    · left; simp [CreateUser, Database, hbody, hblank, hmail, hq]
    · left
      cases hscan : scanInt cols <;>
        simp [CreateUser, Database, hbody, hblank, hmail, hq, hscan]

/-- The duplicate check of `CreateUser` on the table model. -/
theorem personStore_query_dupChk (table : List PersonRow) (username email : String) :
    personStore.QueryRow table CreateUser.dupChk [Value.str username, Value.str email]
      = match table.find? (fun r => r.Username = username ∨ r.Email = email) with
        | some _ => (.row [.int 1], table)
        | none => (.errNoRows, table) := by
  simp only [personStore, ↓reduceIte]

/-- The INSERT of `CreateUser` on the table model. -/
theorem personStore_query_ins (table : List PersonRow)
    (username email first last password phone : String) (created updated : Int)
    (uid token refresh : String) :
    personStore.QueryRow table CreateUser.ins
        [Value.str username, Value.str email, Value.str first, Value.str last,
         Value.str password, Value.str phone, Value.instant created, Value.instant updated,
         Value.str uid, Value.str token, Value.str refresh]
      = (.row [.int (nextID table)],
          table ++ [⟨nextID table, username, email, some first, some last, password,
            some phone, created, updated, uid, some token, some refresh⟩]) := by
  have h1 : CreateUser.ins ≠ CreateUser.dupChk := by decide
  simp only [personStore, h1, ↓reduceIte]

/-- Over the table model, `CreateUser` leaves usernames pairwise distinct and emails
pairwise distinct: it inserts only after its duplicate check has found no row with
the username or the email. -/
theorem CreateUser_unique (table : List PersonRow) (jwt : JWT) (bcrypt : Bcrypt)
    (entropy : Nat) (now tokenNow : Int) (random : Nat) (c : Context User)
    (h : uniqueIdentities table) :
    uniqueIdentities (CreateUser personStore jwt bcrypt entropy now tokenNow random c table).2 := by
  rcases CreateUser_state personStore jwt bcrypt entropy now tokenNow random c table with
    hs | ⟨username, email, hs | ⟨hnone, first, last, hashed, phone, uid, access, refresh, hs⟩⟩
  · rw [hs]; exact h
  · rw [hs, personStore_query_state _ _ _ (by decide)]; exact h
  · rw [hs, personStore_query_ins, personStore_query_state _ _ _ (by decide)]
    rw [personStore_query_dupChk] at hnone
    cases hfind : table.find? (fun r => r.Username = username ∨ r.Email = email) with
    | some r =>
      rw [hfind] at hnone
      cases hnone
    | none =>
      have hall := List.find?_eq_none.mp hfind
      simp only [decide_eq_true_eq, not_or] at hall
      unfold uniqueIdentities at h ⊢
      simp only [List.map_append, List.map_cons, List.map_nil]
      refine ⟨List.Nodup.append h.1 (List.nodup_singleton _) ?_,
        List.Nodup.append h.2 (List.nodup_singleton _) ?_⟩
      · simp only [List.disjoint_singleton, List.mem_map, not_exists, not_and]
        intro r hr heq
        exact (hall r hr).1 heq
      · simp only [List.disjoint_singleton, List.mem_map, not_exists, not_and]
        intro r hr heq
        exact (hall r hr).2 heq

/-- Over the table model, `LoginUser` leaves the usernames and the emails as they
are. -/
theorem LoginUser_unique (table : List PersonRow) (jwt : JWT) (bcrypt : Bcrypt)
    (tokenNow updateNow : Int) (c : Context LoginInput) (h : uniqueIdentities table) :
    uniqueIdentities (LoginUser personStore jwt bcrypt tokenNow updateNow c table).2 := by
  rcases LoginUser_state personStore jwt bcrypt tokenNow updateNow c table with
    hs | ⟨username, hs⟩ | ⟨username, a, rt, uid, hs⟩
  · rw [hs]; exact h
  · rw [hs, personStore_query_login_state]; exact h
  · rw [hs, personStore_query_login_state, personStore_exec_tokens]
    unfold uniqueIdentities at h ⊢
    have hu : ∀ t : List PersonRow, (t.map (fun r : PersonRow =>
        if r.User_id = uid then
          { r with Token := some a, Refresh_Token := some rt, Updated_at := updateNow }
        else r)).map PersonRow.Username = t.map PersonRow.Username := by
      intro t
      rw [List.map_map]
      apply List.map_congr_left
      intro x _
      by_cases hx : x.User_id = uid <;> simp [hx]
    have he : ∀ t : List PersonRow, (t.map (fun r : PersonRow =>
        if r.User_id = uid then
          { r with Token := some a, Refresh_Token := some rt, Updated_at := updateNow }
        else r)).map PersonRow.Email = t.map PersonRow.Email := by
      intro t
      rw [List.map_map]
      apply List.map_congr_left
      intro x _
      by_cases hx : x.User_id = uid <;> simp [hx]
    rw [hu, he]
    exact h

/-- The handler `UpdateUserById` makes no duplicate check of its own: called with
the path parameter `user_id` bound, which no route of `UserRoutes` does, on the
table of alice and bob, whose usernames and emails are pairwise distinct, the
request that renames bob to "alice" is answered 200 and leaves two rows with the
username "alice", whereas `CreateUser` answers 409 to a registration under that
username and leaves the table as it is. -/
theorem rename_duplicates_username :
    uniqueIdentities [aliceRow, bobRow]
      ∧ (UpdateUserById personStore 5 allowedFields bobRename [aliceRow, bobRow]).1
        = ⟨200, .record ⟨2, "alice", "bob@example.com", "", "", "", "", "", "", 0, 5, "u-2"⟩⟩
      ∧ (UpdateUserById personStore 5 allowedFields bobRename [aliceRow, bobRow]).2
        = [aliceRow, { bobRow with Username := "alice", Updated_at := 5 }]
      ∧ ¬ uniqueIdentities
          (UpdateUserById personStore 5 allowedFields bobRename [aliceRow, bobRow]).2
      ∧ CreateUser personStore (bookJWT newAliceBook) plainBcrypt 0 5 6 0
          ⟨[], .ok ⟨0, "alice", "other@example.com", "", "", "", "hunter2", "", "", 0, 0, ""⟩⟩
          [aliceRow, bobRow]
        = (⟨409, .error "username or email already exists"⟩, [aliceRow, bobRow]) := by
  refine ⟨by decide, rfl, by decide, by decide, rfl⟩


/-! ## C25: the valid statuses -/

/-- C25: `isValidStatus s` is true exactly when `s` is one of "Borrowed", "Returned"
and "Overdue", character for character; it is false for the empty string, for
"Lost", for a status in another case and for a status with white space around it. -/
theorem valid_status_exactly (status : String) :
    (isValidStatus status = true ↔
        status = "Borrowed" ∨ status = "Returned" ∨ status = "Overdue")
      ∧ isValidStatus "" = false ∧ isValidStatus "Lost" = false
      ∧ isValidStatus "borrowed" = false ∧ isValidStatus "RETURNED" = false
      ∧ isValidStatus " Overdue" = false ∧ isValidStatus "Overdue " = false := by
  refine ⟨?_, by decide, by decide, by decide, by decide, by decide, by decide⟩
  rw [isValidStatus_iff]
  simp

/-! ## C28: a token without expiry -/

/-- C28: when the signing library parses a token without error and marks it valid,
and its claims carry no `exp`, `ValidateToken` returns these claims with an empty
message, whatever the clock reads: the token is accepted and is not reported as
expired. -/
theorem token_without_expiry_accepted (lib : JWT) (parseNow now : Int) (raw : String)
    (claims : SignedDetails)
    (hparse : lib.ParseWithClaims raw SECRET_KEY parseNow = .ok ⟨some claims, true⟩)
    (hexp : claims.RegisteredClaims.ExpiresAt = none) :
    ValidateToken lib parseNow now raw = (some claims, "") := by
  simp [ValidateToken, hparse, hexp]

/-- C28 for a token signed over claims without `exp`, validated a hundred years
after it was issued. -/
theorem token_without_expiry_accepted_witness :
    (bookJWT openBook).ParseWithClaims "open-1" SECRET_KEY (876000 * Hour)
        = .ok ⟨some openClaims, true⟩
      ∧ openClaims.RegisteredClaims.ExpiresAt = none
      ∧ ValidateToken (bookJWT openBook) (876000 * Hour) (876000 * Hour) "open-1"
        = (some openClaims, "") :=
  ⟨rfl, rfl, token_without_expiry_accepted (bookJWT openBook) (876000 * Hour) (876000 * Hour)
    "open-1" openClaims rfl rfl⟩

/-! ## C29: the two 401 answers of `LoginUser` -/

/-- The answer of `LoginUser` when the SELECT finds no row. -/
theorem LoginUser_unknown {σ : Type} (conn : Driver σ) (jwt : JWT) (bcrypt : Bcrypt)
    (tokenNow updateNow : Int) (c : Context LoginInput) (s : σ) (input : LoginInput)
    (hbody : c.body = .ok input)
    (huser : TrimSpace input.Username ≠ "") (hpw : TrimSpace input.Password ≠ "")
    (hrow : (conn.QueryRow s LoginUser.query [Value.str (TrimSpace input.Username)]).1
      = .errNoRows) :
    LoginUser conn jwt bcrypt tokenNow updateNow c s
      = (⟨401, .error "invalid username or password"⟩,
          (conn.QueryRow s LoginUser.query [Value.str (TrimSpace input.Username)]).2) := by
  rcases hq : conn.QueryRow s LoginUser.query [Value.str (TrimSpace input.Username)]
    with ⟨res, s1⟩
  rw [hq] at hrow
  simp only at hrow
  subst hrow
  simp [LoginUser, Driver.isNil, Database, hbody, huser, hpw, hq]

/-- C29: `LoginUser` answers a request under a username that the SELECT does not
find with 401 and the error "invalid username or password", and a request under a
username that it finds, with a password that does not verify, with 401 and the
error "login or password is incorrect": the same status, and bodies that differ,
so that the response tells whether the username exists. -/
theorem login_failures_distinguishable {σ : Type} (conn : Driver σ) (jwt : JWT)
    (bcrypt : Bcrypt) (tokenNow updateNow : Int) (c1 c2 : Context LoginInput) (s1 s2 : σ)
    (unknown known : LoginInput) (cols : List Value) (user : User) (hashedPassword : String)
    (hbody1 : c1.body = .ok unknown)
    (huser1 : TrimSpace unknown.Username ≠ "") (hpw1 : TrimSpace unknown.Password ≠ "")
    (hnone : (conn.QueryRow s1 LoginUser.query [Value.str (TrimSpace unknown.Username)]).1
      = .errNoRows)
    (hbody2 : c2.body = .ok known)
    (huser2 : TrimSpace known.Username ≠ "") (hpw2 : TrimSpace known.Password ≠ "")
    (hrow : (conn.QueryRow s2 LoginUser.query [Value.str (TrimSpace known.Username)]).1
      = .row cols)
    (hscan : LoginUser.scan cols = some (user, hashedPassword))
    (hbad : (VerifyPassword bcrypt (TrimSpace known.Password) hashedPassword).1 = false) :
    (LoginUser conn jwt bcrypt tokenNow updateNow c1 s1).1
        = ⟨401, .error "invalid username or password"⟩
      ∧ (LoginUser conn jwt bcrypt tokenNow updateNow c2 s2).1
        = ⟨401, .error "login or password is incorrect"⟩
      ∧ (LoginUser conn jwt bcrypt tokenNow updateNow c1 s1).1.status
        = (LoginUser conn jwt bcrypt tokenNow updateNow c2 s2).1.status
      ∧ (LoginUser conn jwt bcrypt tokenNow updateNow c1 s1).1.body
        ≠ (LoginUser conn jwt bcrypt tokenNow updateNow c2 s2).1.body := by
  have h1 := LoginUser_unknown conn jwt bcrypt tokenNow updateNow c1 s1 unknown hbody1 huser1
    hpw1 hnone
  have hcmp : ∃ e, bcrypt.CompareHashAndPassword hashedPassword (TrimSpace known.Password)
      = some e := by
    unfold VerifyPassword at hbad
    cases h : bcrypt.CompareHashAndPassword hashedPassword (TrimSpace known.Password) with
    | none => simp [h] at hbad
    | some e => exact ⟨e, rfl⟩
  obtain ⟨e, he⟩ := hcmp
  have h2 := LoginUser_found conn jwt bcrypt tokenNow updateNow c2 s2 known cols user
    hashedPassword hbody2 huser2 hpw2 hrow hscan
  rw [he] at h2
  rw [h1, h2]
  refine ⟨rfl, rfl, rfl, ?_⟩
  intro h
  simp only [Body.error.injEq] at h
  exact absurd h (by decide)

/-- C29 on the table of alice and bob: the login of carol, whom the table does not
hold, and the login of alice with the password "wrong". -/
theorem login_failures_distinguishable_witness :
    (LoginUser personStore (bookJWT aliceBook) plainBcrypt 0 1 carolLogin
        [aliceRow, bobRow]).1 = ⟨401, .error "invalid username or password"⟩
      ∧ (LoginUser personStore (bookJWT aliceBook) plainBcrypt 0 1 aliceWrongLogin
        [aliceRow, bobRow]).1 = ⟨401, .error "login or password is incorrect"⟩ :=
  match login_failures_distinguishable personStore (bookJWT aliceBook) plainBcrypt 0 1
    carolLogin aliceWrongLogin [aliceRow, bobRow] [aliceRow, bobRow]
    ⟨"carol", "wrong"⟩ ⟨"alice", "wrong"⟩
    [.int 1, .str "alice", .str "alice@example.com", .null, .str "Al", .null,
      .str "$2a$10$secret123", .instant 0, .instant 0, .str "u-1"]
    ⟨1, "alice", "alice@example.com", "", "Al", "", "", "", "", 0, 0, "u-1"⟩
    "$2a$10$secret123" rfl (by decide) (by decide) rfl rfl (by decide) (by decide) rfl rfl
    rfl with
  | ⟨h1, h2, _, _⟩ => ⟨h1, h2⟩

/-! ## C26, C30: `CreateUser` -/

/-- C26: for every `CreateUser` request whose body binds, with username, email and
password trimmed of surrounding white space: if one of the three is empty the
response is 400 "username, email and password are required"; otherwise, if the email
has no "@" or no ".", the response is 400 "invalid email format"; in both cases no
statement is sent to the datastore and its state is left as it was. -/
theorem create_user_validation {σ : Type} (conn : Driver σ) (jwt : JWT) (bcrypt : Bcrypt)
    (entropy : Nat) (now tokenNow : Int) (random : Nat) (c : Context User) (s : σ)
    (newUser : User) (hbody : c.body = .ok newUser) :
    ((TrimSpace newUser.Username = "" ∨ TrimSpace newUser.Email = ""
          ∨ TrimSpace newUser.Password = "") →
        CreateUser conn jwt bcrypt entropy now tokenNow random c s
            = (⟨400, .error "username, email and password are required"⟩, s)
          ∧ (CreateUser conn.traced jwt bcrypt entropy now tokenNow random c (s, [])).2.2 = [])
      ∧ (¬ (TrimSpace newUser.Username = "" ∨ TrimSpace newUser.Email = ""
            ∨ TrimSpace newUser.Password = "") →
          (Contains (TrimSpace newUser.Email) "@" = false
            ∨ Contains (TrimSpace newUser.Email) "." = false) →
          CreateUser conn jwt bcrypt entropy now tokenNow random c s
              = (⟨400, .error "invalid email format"⟩, s)
            ∧ (CreateUser conn.traced jwt bcrypt entropy now tokenNow random c (s, [])).2.2
              = []) := by
  constructor
  · intro hblank
    constructor <;> simp [CreateUser, hbody, hblank]
  · intro hblank hmail
    have hm : (!Contains (TrimSpace newUser.Email) "@"
        || !Contains (TrimSpace newUser.Email) ".") = true := by
      rcases hmail with h | h <;> simp [h]
    constructor <;> simp [CreateUser, hbody, hblank, hm]

/-- C26 on the table of bob: a registration with a blank password and one with an
email without a dot. -/
theorem create_user_validation_witness :
    CreateUser personStore (bookJWT newAliceBook) plainBcrypt 7 5 6 0
        ⟨[], .ok blankPasswordForm⟩ [bobRow]
        = (⟨400, .error "username, email and password are required"⟩, [bobRow])
      ∧ CreateUser personStore (bookJWT newAliceBook) plainBcrypt 7 5 6 0
        ⟨[], .ok dotlessEmailForm⟩ [bobRow]
        = (⟨400, .error "invalid email format"⟩, [bobRow]) :=
  ⟨((create_user_validation personStore (bookJWT newAliceBook) plainBcrypt 7 5 6 0
      ⟨[], .ok blankPasswordForm⟩ [bobRow] blankPasswordForm rfl).1
      (Or.inr (Or.inr (by decide)))).1,
    ((create_user_validation personStore (bookJWT newAliceBook) plainBcrypt 7 5 6 0
      ⟨[], .ok dotlessEmailForm⟩ [bobRow] dotlessEmailForm rfl).2
      (by decide) (Or.inr (by decide))).1⟩

/-- The course of a `CreateUser` request that is answered 201. -/
theorem CreateUser_created {σ : Type} (conn : Driver σ) (jwt : JWT) (bcrypt : Bcrypt)
    (entropy : Nat) (now tokenNow : Int) (random : Nat) (c : Context User) (s : σ) (u : User)
    (h201 : (CreateUser conn jwt bcrypt entropy now tokenNow random c s).1 = ⟨201, .record u⟩) :
    ∃ (newUser : User) (hashed access refresh : String) (id : Int) (cols : List Value),
      c.body = .ok newUser
        ∧ ¬ (TrimSpace newUser.Username = "" ∨ TrimSpace newUser.Email = ""
            ∨ TrimSpace newUser.Password = "")
        ∧ (!Contains (TrimSpace newUser.Email) "@"
            || !Contains (TrimSpace newUser.Email) ".") = false
        ∧ (conn.QueryRow s CreateUser.dupChk
            [Value.str (TrimSpace newUser.Username), Value.str (TrimSpace newUser.Email)]).1
          = .errNoRows
        ∧ HashPassword bcrypt entropy (TrimSpace newUser.Password) = .ok hashed
        ∧ GenerateAllTokens jwt tokenNow (TrimSpace newUser.Email) newUser.FirstName
            newUser.LastName (GenerateUUID random) = .ok (access, refresh)
        ∧ (conn.QueryRow
            (conn.QueryRow s CreateUser.dupChk
              [Value.str (TrimSpace newUser.Username), Value.str (TrimSpace newUser.Email)]).2
            CreateUser.ins
            (CreateUser.insArgs newUser hashed now (GenerateUUID random) access refresh)).1
          = .row cols
        ∧ scanInt cols = some id
        ∧ u = { newUser with
              Username := TrimSpace newUser.Username
              Email := TrimSpace newUser.Email
              Password := hashed
              CreatedAt := now
              UpdatedAt := now
              UserID := GenerateUUID random
              Token := access
              RefreshToken := refresh
              ID := id } := by
  cases hbody : c.body with
  | error e => simp [CreateUser, hbody] at h201
  | ok newUser =>
    by_cases hblank : TrimSpace newUser.Username = "" ∨ TrimSpace newUser.Email = ""
        ∨ TrimSpace newUser.Password = ""
    · simp [CreateUser, hbody, hblank] at h201
    by_cases hmail : (!Contains (TrimSpace newUser.Email) "@"
        || !Contains (TrimSpace newUser.Email) ".") = true
    · simp [CreateUser, hbody, hblank, hmail] at h201
    rcases hq : conn.QueryRow s CreateUser.dupChk
      [Value.str (TrimSpace newUser.Username), Value.str (TrimSpace newUser.Email)]
      with ⟨res, s1⟩
    rcases res with _ | e | cols
    · cases hhash : HashPassword bcrypt entropy (TrimSpace newUser.Password) with
      | error e => simp [CreateUser, Database, hbody, hblank, hmail, hq, hhash] at h201
      | ok hashed =>
        cases hgen : GenerateAllTokens jwt tokenNow (TrimSpace newUser.Email) newUser.FirstName
            newUser.LastName (GenerateUUID random) with
        | error e => simp [CreateUser, Database, hbody, hblank, hmail, hq, hhash, hgen] at h201
        | ok pair =>
          obtain ⟨access, refresh⟩ := pair
          rcases hins : conn.QueryRow s1 CreateUser.ins
            (CreateUser.insArgs newUser hashed now (GenerateUUID random) access refresh)
            with ⟨res2, s2⟩
          have hins2 := hins
          simp only [CreateUser.insArgs] at hins2
          rcases res2 with _ | e | cols
          · simp [CreateUser, Database, hbody, hblank, hmail, hq, hhash, hgen, hins2] at h201
          · simp [CreateUser, Database, hbody, hblank, hmail, hq, hhash, hgen, hins2] at h201
          · cases hscan : scanInt cols with
            | none =>
              simp [CreateUser, Database, hbody, hblank, hmail, hq, hhash, hgen, hins2, hscan]
                at h201
            | some id =>
              simp only [CreateUser, Database, hbody, hblank, hmail, hq, hhash, hgen, hins2,
                hscan, ↓reduceIte, Bool.false_eq_true, Response.mk.injEq, Body.record.injEq,
                true_and] at h201
              exact ⟨newUser, hashed, access, refresh, id, cols, rfl, hblank,
                by simpa using hmail, by rw [hq], hhash, hgen,
                by rw [hq]; exact congrArg Prod.fst hins, hscan, h201.symm⟩
    · simp [CreateUser, Database, hbody, hblank, hmail, hq] at h201
    · cases hscan : scanInt cols <;>
        simp [CreateUser, Database, hbody, hblank, hmail, hq, hscan] at h201

/-- The run of `CreateUser` along its successful course, over any driver. -/
theorem CreateUser_run {τ : Type} (d : Driver τ) (jwt : JWT) (bcrypt : Bcrypt)
    (entropy : Nat) (now tokenNow : Int) (random : Nat) (c : Context User) (st : τ)
    (newUser : User) (hashed access refresh : String) (id : Int) (cols : List Value)
    (hbody : c.body = .ok newUser)
    (hblank : ¬ (TrimSpace newUser.Username = "" ∨ TrimSpace newUser.Email = ""
      ∨ TrimSpace newUser.Password = ""))
    (hmail : (!Contains (TrimSpace newUser.Email) "@"
      || !Contains (TrimSpace newUser.Email) ".") = false)
    (hdup : (d.QueryRow st CreateUser.dupChk
      [Value.str (TrimSpace newUser.Username), Value.str (TrimSpace newUser.Email)]).1
        = .errNoRows)
    (hhash : HashPassword bcrypt entropy (TrimSpace newUser.Password) = .ok hashed)
    (hgen : GenerateAllTokens jwt tokenNow (TrimSpace newUser.Email) newUser.FirstName
      newUser.LastName (GenerateUUID random) = .ok (access, refresh))
    (hins : (d.QueryRow
      (d.QueryRow st CreateUser.dupChk
        [Value.str (TrimSpace newUser.Username), Value.str (TrimSpace newUser.Email)]).2
      CreateUser.ins
      (CreateUser.insArgs newUser hashed now (GenerateUUID random) access refresh)).1
        = .row cols)
    (hscan : scanInt cols = some id) :
    CreateUser d jwt bcrypt entropy now tokenNow random c st
      = (⟨201, .record
          { newUser with
            Username := TrimSpace newUser.Username
            Email := TrimSpace newUser.Email
            Password := hashed
            CreatedAt := now
            UpdatedAt := now
            UserID := GenerateUUID random
            Token := access
            RefreshToken := refresh
            ID := id }⟩,
        (d.QueryRow
          (d.QueryRow st CreateUser.dupChk
            [Value.str (TrimSpace newUser.Username), Value.str (TrimSpace newUser.Email)]).2
          CreateUser.ins
          (CreateUser.insArgs newUser hashed now (GenerateUUID random) access refresh)).2) := by
  rcases hq : d.QueryRow st CreateUser.dupChk
    [Value.str (TrimSpace newUser.Username), Value.str (TrimSpace newUser.Email)]
    with ⟨res, s1⟩
  rw [hq] at hdup hins
  simp only at hdup hins
  subst hdup
  rcases hi : d.QueryRow s1 CreateUser.ins
    (CreateUser.insArgs newUser hashed now (GenerateUUID random) access refresh)
    with ⟨res2, s2⟩
  rw [hi] at hins
  simp only at hins
  subst hins
  have hi2 := hi
  simp only [CreateUser.insArgs] at hi2
  simp [CreateUser, Database, hbody, hblank, hmail, hq, hhash, hgen, hi2, hscan]

/-- C30: for every `CreateUser` request answered 201, the statements sent are the
duplicate check and the INSERT; the `Password` field of the response body is the hash
that `HashPassword` produced and is the fifth argument of the INSERT (the Password
column), so the stored hash is returned to the caller; and the `Token` and
`RefreshToken` fields of the response are the pair that `GenerateAllTokens` issued
and are the tenth and eleventh arguments of the INSERT (the Token and Refresh_Token
columns). -/
theorem created_user_shows_stored {σ : Type} (conn : Driver σ) (jwt : JWT) (bcrypt : Bcrypt)
    (entropy : Nat) (now tokenNow : Int) (random : Nat) (c : Context User) (s : σ) (u : User)
    (h201 : (CreateUser conn jwt bcrypt entropy now tokenNow random c s).1 = ⟨201, .record u⟩) :
    ∃ (newUser : User) (args : List Value),
      c.body = .ok newUser
        ∧ (CreateUser conn.traced jwt bcrypt entropy now tokenNow random c (s, [])).2.2
          = [⟨false, CreateUser.dupChk,
              [Value.str (TrimSpace newUser.Username), Value.str (TrimSpace newUser.Email)]⟩,
             ⟨false, CreateUser.ins, args⟩]
        ∧ args.length = 11
        ∧ args.get? 4 = some (Value.str u.Password)
        ∧ args.get? 9 = some (Value.str u.Token)
        ∧ args.get? 10 = some (Value.str u.RefreshToken)
        ∧ HashPassword bcrypt entropy (TrimSpace newUser.Password) = .ok u.Password
        ∧ GenerateAllTokens jwt tokenNow u.Email u.FirstName u.LastName u.UserID
          = .ok (u.Token, u.RefreshToken) := by
  obtain ⟨newUser, hashed, access, refresh, id, cols, hbody, hblank, hmail, hdup, hhash, hgen,
    hins, hscan, hu⟩ := CreateUser_created conn jwt bcrypt entropy now tokenNow random c s u h201
  refine ⟨newUser, CreateUser.insArgs newUser hashed now (GenerateUUID random) access refresh,
    hbody, ?_, rfl, ?_, ?_, ?_, ?_, ?_⟩
  · rw [CreateUser_run conn.traced jwt bcrypt entropy now tokenNow random c (s, []) newUser
      hashed access refresh id cols hbody hblank hmail (by simpa [Driver.traced] using hdup)
      hhash hgen (by simpa [Driver.traced] using hins) hscan]
    simp [Driver.traced]
  · rw [hu]; rfl
  · rw [hu]; rfl
  · rw [hu]; rfl
  · rw [hu]; exact hhash
  · rw [hu]; exact hgen

/-- C30 for the registration of alice on the table of bob: the response shows the
hash "$2a$10$secret123" and the pair, and the row inserted holds the same hash and
the same pair. -/
theorem created_user_shows_stored_witness :
    (CreateUser personStore (bookJWT newAliceBook) plainBcrypt 7 5 6 0
        ⟨[], .ok aliceForm⟩ [bobRow]).1
        = ⟨201, .record ⟨3, "alice", "alice@example.com", "", "Al", "", "$2a$10$secret123",
            "alice-access", "alice-refresh", 5, 5, "00000000-0000-4000-8000-000000000000"⟩⟩
      ∧ (CreateUser personStore (bookJWT newAliceBook) plainBcrypt 7 5 6 0
        ⟨[], .ok aliceForm⟩ [bobRow]).2
        = [bobRow, ⟨3, "alice", "alice@example.com", some "Al", some "", "$2a$10$secret123",
            some "", 5, 5, "00000000-0000-4000-8000-000000000000", some "alice-access",
            some "alice-refresh"⟩]
      ∧ ∃ (newUser : User) (args : List Value),
        (CreateUser personStore.traced (bookJWT newAliceBook) plainBcrypt 7 5 6 0
            ⟨[], .ok aliceForm⟩ ([bobRow], [])).2.2
          = [⟨false, CreateUser.dupChk,
              [Value.str (TrimSpace newUser.Username), Value.str (TrimSpace newUser.Email)]⟩,
             ⟨false, CreateUser.ins, args⟩]
        ∧ args.get? 4 = some (Value.str "$2a$10$secret123")
        ∧ args.get? 9 = some (Value.str "alice-access")
        ∧ args.get? 10 = some (Value.str "alice-refresh") :=
  ⟨rfl, rfl,
    match created_user_shows_stored personStore (bookJWT newAliceBook) plainBcrypt 7 5 6 0
      ⟨[], .ok aliceForm⟩ [bobRow]
      ⟨3, "alice", "alice@example.com", "", "Al", "", "$2a$10$secret123",
        "alice-access", "alice-refresh", 5, 5, "00000000-0000-4000-8000-000000000000"⟩ rfl with
    | ⟨newUser, args, _, hlog, _, h4, h9, h10, _, _⟩ => ⟨newUser, args, hlog, h4, h9, h10⟩⟩

/-! ## C23: the body of a successful `UpdateOrderBook` -/

/-- C23 fails on the table with the orders 6 and 5: the update of order 5 whose
body provides the status "Returned" alone is answered 200 with a body whose
PersonID and BookID are 0 and whose BorrowDate is empty, while the row as stored
after the update, and as `GetOrderBookByID` then shows it, has PersonID 1, BookID 2
and BorrowDate 2024-01-02: the body is the request as bound, with the id of the
path, not the record. -/
theorem update_order_echoes_request :
    UpdateOrderBook orderStore ⟨[("id", "5")], .ok returnedBody⟩ sampleTable
        = (⟨200, .record ⟨5, 0, 0, "", none, none, "Returned"⟩⟩,
            [⟨6, 1, 3, ⟨2024, 1, 3⟩, some ⟨2024, 2, 3⟩, none, "Borrowed"⟩,
             ⟨5, 1, 2, ⟨2024, 1, 2⟩, none, none, "Returned"⟩])
      ∧ (GetOrderBookByID orderStore ⟨[("id", "5")], .ok ()⟩
          (UpdateOrderBook orderStore ⟨[("id", "5")], .ok returnedBody⟩ sampleTable).2).1
        = ⟨200, .record ⟨5, 1, 2, "2024-01-02", none, none, "Returned"⟩⟩ := by
  constructor <;> rfl

/-! ## C21: the statement text depends on the fields taken up only -/

/-- C21, as stated, fails for `UpdateUserById`: two requests with the same keys,
username and first_name, lead to different statement texts, because a username that
is blank is left out of the SET list. -/
theorem blank_username_changes_statement :
    renamePayload.map Prod.fst = blankNamePayload.map Prod.fst
      ∧ (writes (UpdateUserById (constStore 1).traced 0 allowedFields
          ⟨[("user_id", "u-1")], .ok renamePayload⟩ ((), [])).2.2).map Call.query
        = ["UPDATE Person SET Username = ?, First_name = ?, Updated_at = ? WHERE User_id = ?"]
      ∧ (writes (UpdateUserById (constStore 1).traced 0 allowedFields
          ⟨[("user_id", "u-1")], .ok blankNamePayload⟩ ((), [])).2.2).map Call.query
        = ["UPDATE Person SET First_name = ?, Updated_at = ? WHERE User_id = ?"] := by
  refine ⟨by decide, by decide, by decide⟩

/-- The SET list of `UpdateBook` is read off the fields provided. -/
theorem build_book_clauses (input : UpdateBookInput) :
    (UpdateBook.build input).setClauses
      = flagged input.provided
          ["typeOfBook = ?", "bookName = ?", "bookAuthorName = ?", "isAvailable = ?",
           "bookQuantity = ?", "bookPrice = ?"] := by
  rcases input with ⟨_ | a, _ | b, _ | c, _ | d, _ | e, _ | f⟩ <;> rfl

theorem personID_clauses {o : OrderBook} {b b1 : Builder}
    (h : UpdateOrderBook.personID o b = .ok b1) :
    b1.setClauses = b.setClauses ++ flagged [decide (o.PersonID ≠ 0)] ["PersonID = ?"] := by
  unfold UpdateOrderBook.personID at h
  split_ifs at h with h1 h2
  · cases h
    have : o.PersonID ≠ 0 := by omega
    simp [Builder.add, flagged, this]
  · cases h
    have : o.PersonID = 0 := by omega
    simp [flagged, this]

theorem bookID_clauses {o : OrderBook} {b b1 : Builder}
    (h : UpdateOrderBook.bookID o b = .ok b1) :
    b1.setClauses = b.setClauses ++ flagged [decide (o.BookID ≠ 0)] ["BookID = ?"] := by
  unfold UpdateOrderBook.bookID at h
  split_ifs at h with h1 h2
  · cases h
    have : o.BookID ≠ 0 := by omega
    simp [Builder.add, flagged, this]
  · cases h
    have : o.BookID = 0 := by omega
    simp [flagged, this]

theorem borrowDate_clauses {o : OrderBook} {b b1 : Builder}
    (h : UpdateOrderBook.borrowDate o b = .ok b1) :
    b1.setClauses = b.setClauses ++ flagged [decide (o.BorrowDate ≠ "")] ["BorrowDate = ?"] := by
  unfold UpdateOrderBook.borrowDate at h
  split_ifs at h with h1
  · split at h
    · cases h
    · cases h
      simp [Builder.add, flagged, h1]
  · cases h
    simp at h1
    simp [flagged, h1]

theorem returnDate_clauses {o : OrderBook} {b b1 : Builder}
    (h : UpdateOrderBook.returnDate o b = .ok b1) :
    b1.setClauses = b.setClauses ++ flagged [o.ReturnDate.isSome] ["ReturnDate = ?"] := by
  unfold UpdateOrderBook.returnDate at h
  split at h
  · rename_i d hd
    split at h
    · cases h
    · cases h
      simp [Builder.add, flagged, hd]
  · rename_i hd
    cases h
    simp [flagged, hd]

theorem actualReturnDate_clauses {o : OrderBook} {b b1 : Builder}
    (h : UpdateOrderBook.actualReturnDate o b = .ok b1) :
    b1.setClauses
      = b.setClauses ++ flagged [o.ActualReturnDate.isSome] ["ActualReturnDate = ?"] := by
  unfold UpdateOrderBook.actualReturnDate at h
  split at h
  · rename_i d hd
    split at h
    · cases h
    · cases h
      simp [Builder.add, flagged, hd]
  · rename_i hd
    cases h
    simp [flagged, hd]

theorem status_clauses {o o1 : OrderBook} {b b1 : Builder}
    (h : UpdateOrderBook.status o b = .ok (b1, o1)) :
    b1.setClauses = b.setClauses ++ flagged [decide (o.Status ≠ "")] ["Status = ?"] := by
  unfold UpdateOrderBook.status at h
  by_cases h1 : o.Status = ""
  · simp only [h1, ne_eq, not_true_eq_false, ↓reduceIte, Except.ok.injEq, Prod.mk.injEq] at h
    obtain ⟨hb, -⟩ := h
    subst hb
    simp [flagged, h1]
  · cases h2 : isValidStatus (TrimSpace o.Status)
    · simp [h1, h2] at h
    · simp only [ne_eq, h1, not_false_eq_true, ↓reduceIte, h2, Bool.not_true,
        Bool.false_eq_true, Except.ok.injEq, Prod.mk.injEq] at h
      obtain ⟨hb, -⟩ := h
      subst hb
      simp [Builder.add, flagged, h1]

/-- The SET list of a successful `UpdateOrderBook.build` is read off the fields
provided. -/
theorem build_order_clauses {o o1 : OrderBook} {b : Builder}
    (h : UpdateOrderBook.build o = .ok (b, o1)) :
    b.setClauses
      = flagged o.provided
          ["PersonID = ?", "BookID = ?", "BorrowDate = ?", "ReturnDate = ?",
           "ActualReturnDate = ?", "Status = ?"] := by
  simp only [UpdateOrderBook.build, bind, Except.bind] at h
  split at h
  · cases h
  rename_i b1 h1
  split at h
  · cases h
  rename_i b2 h2
  split at h
  · cases h
  rename_i b3 h3
  split at h
  · cases h
  rename_i b4 h4
  split at h
  · cases h
  rename_i b5 h5
  rw [status_clauses h, actualReturnDate_clauses h5, returnDate_clauses h4,
    borrowDate_clauses h3, bookID_clauses h2, personID_clauses h1]
  simp only [OrderBook.provided, List.nil_append, List.append_assoc]
  generalize decide (o.PersonID ≠ 0) = f1
  generalize decide (o.BookID ≠ 0) = f2
  generalize decide (o.BorrowDate ≠ "") = f3
  generalize o.ReturnDate.isSome = f4
  generalize o.ActualReturnDate.isSome = f5
  generalize decide (o.Status ≠ "") = f6
  cases f1 <;> cases f2 <;> cases f3 <;> cases f4 <;> cases f5 <;> cases f6 <;> rfl

/-- The clauses that the loop of `UpdateUserById` collects are those of the entries
it takes up. -/
theorem assignments_takes (payload : List (String × JsonValue)) :
    ∀ entries : List (String × String),
      (UpdateUserById.assignments payload entries).map Prod.fst
        = (entries.filter (UpdateUserById.takes payload)).map (fun entry => entry.2 ++ " = ?")
  | [] => rfl
  | entry :: rest => by
    have ih := assignments_takes payload rest
    unfold UpdateUserById.assignments at ih ⊢
    cases hact : UpdateUserById.action payload entry with
    | skip => simp [List.filterMap_cons, List.filter_cons, UpdateUserById.takes, hact, ih]
    | reject => simp [List.filterMap_cons, List.filter_cons, UpdateUserById.takes, hact, ih]
    | assign clause arg =>
      simp [List.filterMap_cons, List.filter_cons, UpdateUserById.takes, hact, ih,
        action_assign hact]

/-- The text of the statement that `UpdateBook` sends. -/
theorem UpdateBook_text {σ : Type} (conn : Driver σ) (c : Context UpdateBookInput) (s : σ)
    (input : UpdateBookInput) (hbody : c.body = .ok input) :
    ∀ w ∈ writes (UpdateBook conn.traced c (s, [])).2.2,
      w.query = "UPDATE Book SET "
        ++ Join (flagged input.provided
            ["typeOfBook = ?", "bookName = ?", "bookAuthorName = ?", "isAvailable = ?",
             "bookQuantity = ?", "bookPrice = ?"]) ", "
        ++ " WHERE BookID = ?" := by
  intro w hw
  rcases UpdateBook_writes conn c s with h | ⟨input1, q, args, hb, -, hq, -, hlog, -⟩
  · rw [h] at hw; cases hw
  · rw [hbody] at hb
    cases hb
    rw [hlog] at hw
    obtain rfl := List.mem_singleton.mp hw
    rw [← build_book_clauses]
    exact hq

/-- The text of the statement that `UpdateOrderBook` sends. -/
theorem UpdateOrderBook_text {σ : Type} (conn : Driver σ) (c : Context OrderBook) (s : σ)
    (o : OrderBook) (hbody : c.body = .ok o) :
    ∀ w ∈ writes (UpdateOrderBook conn.traced c (s, [])).2.2,
      w.query = "UPDATE OrderBook SET "
        ++ Join (flagged o.provided
            ["PersonID = ?", "BookID = ?", "BorrowDate = ?", "ReturnDate = ?",
             "ActualReturnDate = ?", "Status = ?"]) ", "
        ++ " WHERE OrderID = ?" := by
  intro w hw
  rcases UpdateOrderBook_writes conn c s with
    h | ⟨o2, b, o1, orderID, q, args, hb, -, -, hbuild, -, hq, -, hlog, -⟩
  · rw [h] at hw; cases hw
  · rw [hbody] at hb
    cases hb
    rw [hlog] at hw
    obtain rfl := List.mem_singleton.mp hw
    rw [← build_order_clauses hbuild]
    exact hq

/-- The text of the statement that `UpdateUserById` sends. -/
theorem UpdateUserById_text {σ : Type} (conn : Driver σ) (now : Int)
    (entries : List (String × String)) (c : Context (List (String × JsonValue))) (s : σ)
    (payload : List (String × JsonValue)) (hbody : c.body = .ok payload) :
    ∀ w ∈ writes (UpdateUserById conn.traced now entries c (s, [])).2.2,
      w.query = "UPDATE Person SET "
        ++ Join ((entries.filter (UpdateUserById.takes payload)).map
              (fun entry => entry.2 ++ " = ?") ++ ["Updated_at = ?"]) ", "
        ++ " WHERE User_id = ?" := by
  intro w hw
  rcases UpdateUserById_writes conn now entries c s with
    h | ⟨payload1, b, q, args, hb, hloop, -, hq, -, hlog, -⟩
  · rw [h] at hw; cases hw
  · rw [hbody] at hb
    cases hb
    rw [hlog] at hw
    obtain rfl := List.mem_singleton.mp hw
    obtain ⟨-, hc, -⟩ := loop_ok payload entries _ _ hloop
    rw [← assignments_takes]
    simp only [Builder.add, hc, List.nil_append] at hq
    exact hq

/-- C21 (amended): the text of the UPDATE that `UpdateBook`, `UpdateOrderBook` and
`UpdateUserById` send is put together from the fixed head of the statement, the
fixed clauses of the fields that the handler takes up and the fixed key predicate.
Two requests from which the handler takes up the same fields (for a book the
fields present; for an order the numbers other than zero, the strings other than
the empty one and the pointers other than `nil`; for a user the keys with a string
value, not blank in the case of username and email) lead to the same statement
text, whatever the values, the record id, the clock and the state of the
datastore; for `UpdateUserById` with two enumeration orders of `allowedFields` the
two SET lists have the same clauses up to their order. -/
theorem statement_text_from_fields {σ : Type} (conn : Driver σ) :
    (∀ (c1 c2 : Context UpdateBookInput) (s1 s2 : σ) (i1 i2 : UpdateBookInput),
        c1.body = .ok i1 → c2.body = .ok i2 → i1.provided = i2.provided →
          ∀ w1 ∈ writes (UpdateBook conn.traced c1 (s1, [])).2.2,
            w1.query = "UPDATE Book SET "
                ++ Join (flagged i1.provided
                    ["typeOfBook = ?", "bookName = ?", "bookAuthorName = ?", "isAvailable = ?",
                     "bookQuantity = ?", "bookPrice = ?"]) ", "
                ++ " WHERE BookID = ?"
              ∧ ∀ w2 ∈ writes (UpdateBook conn.traced c2 (s2, [])).2.2, w1.query = w2.query)
      ∧ (∀ (c1 c2 : Context OrderBook) (s1 s2 : σ) (o1 o2 : OrderBook),
          c1.body = .ok o1 → c2.body = .ok o2 → o1.provided = o2.provided →
            ∀ w1 ∈ writes (UpdateOrderBook conn.traced c1 (s1, [])).2.2,
              w1.query = "UPDATE OrderBook SET "
                  ++ Join (flagged o1.provided
                      ["PersonID = ?", "BookID = ?", "BorrowDate = ?", "ReturnDate = ?",
                       "ActualReturnDate = ?", "Status = ?"]) ", "
                  ++ " WHERE OrderID = ?"
                ∧ ∀ w2 ∈ writes (UpdateOrderBook conn.traced c2 (s2, [])).2.2,
                  w1.query = w2.query)
      ∧ (∀ (now1 now2 : Int) (e1 e2 : List (String × String))
          (c1 c2 : Context (List (String × JsonValue))) (s1 s2 : σ)
          (p1 p2 : List (String × JsonValue)),
          e1.Perm allowedFields → e2.Perm allowedFields →
          c1.body = .ok p1 → c2.body = .ok p2 →
          (∀ entry ∈ allowedFields,
            UpdateUserById.takes p1 entry = UpdateUserById.takes p2 entry) →
            ∀ w1 ∈ writes (UpdateUserById conn.traced now1 e1 c1 (s1, [])).2.2,
            ∀ w2 ∈ writes (UpdateUserById conn.traced now2 e2 c2 (s2, [])).2.2,
              ∃ cls1 cls2,
                w1.query = "UPDATE Person SET " ++ Join (cls1 ++ ["Updated_at = ?"]) ", "
                    ++ " WHERE User_id = ?"
                  ∧ w2.query = "UPDATE Person SET " ++ Join (cls2 ++ ["Updated_at = ?"]) ", "
                    ++ " WHERE User_id = ?"
                  ∧ cls1.Perm cls2
                  ∧ (∀ cl ∈ cls1, cl ∈ userClauses)
                  ∧ (e1 = e2 → w1.query = w2.query)) := by
  refine ⟨?_, ?_, ?_⟩
  · intro c1 c2 s1 s2 i1 i2 hb1 hb2 hsame w1 hw1
    have h1 := UpdateBook_text conn c1 s1 i1 hb1 w1 hw1
    refine ⟨h1, fun w2 hw2 => ?_⟩
    rw [h1, UpdateBook_text conn c2 s2 i2 hb2 w2 hw2, hsame]
  · intro c1 c2 s1 s2 o1 o2 hb1 hb2 hsame w1 hw1
    have h1 := UpdateOrderBook_text conn c1 s1 o1 hb1 w1 hw1
    refine ⟨h1, fun w2 hw2 => ?_⟩
    rw [h1, UpdateOrderBook_text conn c2 s2 o2 hb2 w2 hw2, hsame]
  · intro now1 now2 e1 e2 c1 c2 s1 s2 p1 p2 he1 he2 hb1 hb2 hsame w1 hw1 w2 hw2
    have h1 := UpdateUserById_text conn now1 e1 c1 s1 p1 hb1 w1 hw1
    have h2 := UpdateUserById_text conn now2 e2 c2 s2 p2 hb2 w2 hw2
    have hfilter : ∀ entries : List (String × String), (∀ e ∈ entries, e ∈ allowedFields) →
        entries.filter (UpdateUserById.takes p1) = entries.filter (UpdateUserById.takes p2) := by
      intro entries hsub
      apply List.filter_congr
      intro e he
      exact hsame e (hsub e he)
    refine ⟨_, _, h1, h2, ?_, ?_, ?_⟩
    · rw [hfilter e1 (fun e he => he1.subset he)]
      exact ((he1.trans he2.symm).filter _).map _
    · intro cl hcl
      rw [← assignments_takes, List.mem_map] at hcl
      obtain ⟨ca, hca, rfl⟩ := hcl
      exact assignments_clauses p1 e1 (fun e he => he1.subset he) ca hca
    · intro heq
      subst heq
      rw [h1, h2, hfilter e1 (fun e he => he1.subset he)]

/-- C21 on two book updates that provide the name, the availability and the price,
with other values and for another book: the same statement text. -/
theorem statement_text_from_fields_witness :
    (writes (UpdateBook (constStore 1).traced bookRequest ((), [])).2.2).map Call.query
        = ["UPDATE Book SET bookName = ?, isAvailable = ?, bookPrice = ? WHERE BookID = ?"]
      ∧ (writes (UpdateBook (constStore 1).traced
          ⟨[("id", "12")], .ok ⟨none, some "Emma", none, some false, none, some ⟨0⟩⟩⟩
          ((), [])).2.2).map Call.query
        = ["UPDATE Book SET bookName = ?, isAvailable = ?, bookPrice = ? WHERE BookID = ?"]
      ∧ ∀ w2 ∈ writes (UpdateBook (constStore 1).traced
          ⟨[("id", "12")], .ok ⟨none, some "Emma", none, some false, none, some ⟨0⟩⟩⟩
          ((), [])).2.2, bookCall.query = w2.query :=
  ⟨by decide, by decide,
    ((statement_text_from_fields (constStore 1)).1 bookRequest
      ⟨[("id", "12")], .ok ⟨none, some "Emma", none, some false, none, some ⟨0⟩⟩⟩ () ()
      someBookFields ⟨none, some "Emma", none, some false, none, some ⟨0⟩⟩ rfl rfl rfl
      bookCall (by decide)).2⟩

/-! ## C24: the route of `UpdateUserById` -/

theorem segments_plain : ∀ seg : List Char, '/' ∉ seg → segments seg = [seg]
  | [], _ => rfl
  | c :: cs, h => by
    have hc : c ≠ '/' := fun e => h (by simp [e])
    have hcs : '/' ∉ cs := fun hm => h (List.mem_cons_of_mem _ hm)
    simp [segments, hc, segments_plain cs hcs]

/-- The path parameters of a request `PUT /user/<segment>`: the route of
`UpdateUserById` serves it and binds the segment to the name `id`. -/
theorem dispatch_put_user (seg : String) (hne : seg ≠ "") (hslash : '/' ∉ seg.data) :
    dispatch UserRoutes "PUT" ("/user/" ++ seg) = some (.UpdateUserById, [("id", seg)]) := by
  have hseg : segments ("/user/" ++ seg).data = [[], "user".data, seg.data] := by
    have h0 : ("/user/" ++ seg).data = '/' :: 'u' :: 's' :: 'e' :: 'r' :: '/' :: seg.data := rfl
    rw [h0]
    simp [segments, segments_plain seg.data hslash]
  have hdata : seg.data ≠ [] := fun h => hne (by
    cases seg
    simp only at h
    subst h
    rfl)
  have hpat : segments ("/user" ++ "/:id").data = [[], "user".data, ":id".data] := by decide
  have h1 : segments ("/user" ++ "").data = [[], "user".data] := by decide
  have h3 : segments ("/user" ++ "/:user_id").data = [[], "user".data, ":user_id".data] := by
    decide
  simp only [dispatch, UserRoutes, List.findSome?, hseg, hpat, h1, h3]
  simp [matchSegments, hdata]

/-- C24 fails for every request: a request `PUT /user/<segment>` is served by the
route of `UpdateUserById`, which binds the segment to the name `id`; the handler
reads the name `user_id`, finds it empty and, the body being bound, answers 400
"invalid user_id" without sending any statement to the datastore. -/
theorem put_user_is_rejected {σ : Type} (conn : Driver σ) (now : Int)
    (entries : List (String × String)) (seg : String) (payload : List (String × JsonValue))
    (s : σ) (hne : seg ≠ "") (hslash : '/' ∉ seg.data) :
    dispatch UserRoutes "PUT" ("/user/" ++ seg) = some (.UpdateUserById, [("id", seg)])
      ∧ (⟨[("id", seg)], .ok payload⟩ : Context (List (String × JsonValue))).Param "user_id" = ""
      ∧ UpdateUserById conn now entries ⟨[("id", seg)], .ok payload⟩ s
        = (⟨400, .error "invalid user_id"⟩, s)
      ∧ (UpdateUserById conn.traced now entries ⟨[("id", seg)], .ok payload⟩ (s, [])).2.2
        = [] := by
  have hparam : (⟨[("id", seg)], .ok payload⟩ : Context (List (String × JsonValue))).Param
      "user_id" = "" := by
    simp [Context.Param, List.lookup]
  refine ⟨dispatch_put_user seg hne hslash, hparam, ?_, ?_⟩
  · simp [UpdateUserById, Driver.isNil, hparam]
  · simp [UpdateUserById, Driver.isNil, hparam]

/-- C24 on the table of alice and bob: the request `PUT /user/u-2` with the body
that sets the first name is answered 400 and leaves the table as it is, while the
handler, were the segment bound to `user_id`, would update the row of bob. -/
theorem put_user_is_rejected_witness :
    dispatch UserRoutes "PUT" "/user/u-2" = some (.UpdateUserById, [("id", "u-2")])
      ∧ UpdateUserById personStore 5 allowedFields
          ⟨[("id", "u-2")], .ok [("first_name", .string "Bo")]⟩ [aliceRow, bobRow]
        = (⟨400, .error "invalid user_id"⟩, [aliceRow, bobRow])
      ∧ (UpdateUserById personStore 5 allowedFields
          ⟨[("user_id", "u-2")], .ok [("first_name", .string "Bo")]⟩ [aliceRow, bobRow]).1
        = ⟨200, .record ⟨2, "bob", "bob@example.com", "", "Bo", "", "", "", "", 0, 5, "u-2"⟩⟩ :=
  match put_user_is_rejected personStore 5 allowedFields "u-2" [("first_name", .string "Bo")]
    [aliceRow, bobRow] (by decide) (by decide) with
  | ⟨h1, _, h3, _⟩ => ⟨h1, h3, rfl⟩

/-! ## C27: the length of a fine name -/

/-- C27 fails for a name with letters outside ASCII: the name of 51 letters e with
an acute accent has 51 characters and is rejected with 400 "name_of_fine is too long
(max 100 characters)", because the handler counts its 102 bytes; a name of 100
letters a is accepted. -/
theorem short_name_rejected_as_too_long :
    accentedName.length = 51 ∧ accentedName.utf8ByteSize = 102
      ∧ TrimSpace accentedName = accentedName
      ∧ CreateFine fineStore asciiLower (fun _ => "") ⟨[], .ok ⟨0, accentedName, ⟨0⟩⟩⟩ ()
        = (⟨400, .error "name_of_fine is too long (max 100 characters)"⟩, ())
      ∧ CreateFine fineStore asciiLower (fun _ => "") ⟨[], .ok ⟨0, plainName, ⟨0⟩⟩⟩ ()
        = (⟨201, .record (.fine ⟨1, plainName, ⟨0⟩⟩)⟩, ()) := by
  refine ⟨by decide, by decide, by decide, by decide, by decide⟩

/-- The test that `CreateFine` makes on the length of a name that is not blank: the
answer is 400 "name_of_fine is too long (max 100 characters)" exactly when the
trimmed name takes more than 100 bytes. -/
theorem CreateFine_name_length {σ : Type} (conn : Driver σ) (ToLower : String → String)
    (scanError : List Value → String) (c : Context Fine) (s : σ) (newFine : Fine)
    (hbody : c.body = .ok newFine) (hname : TrimSpace newFine.NameOfFine ≠ "") :
    (CreateFine conn ToLower scanError c s).1
        = ⟨400, .error "name_of_fine is too long (max 100 characters)"⟩
      ↔ (TrimSpace newFine.NameOfFine).utf8ByteSize > 100 := by
  constructor
  · intro h
    by_contra hlen
    by_cases h1 : newFine.FineAmount.ltZero = true
    · simp [CreateFine, Driver.isNil, hbody, hname, hlen, h1] at h
    by_cases h2 : newFine.FineAmount.gtMillion = true
    · simp [CreateFine, Driver.isNil, hbody, hname, hlen, h1, h2] at h
    rcases hq : conn.QueryRow s CreateFine.checkQuery
      [Value.str (TrimSpace newFine.NameOfFine)] with ⟨res, s1⟩
    rcases res with _ | e | cols
    · rcases hi : conn.QueryRow s1 CreateFine.insertQuery
        [Value.str (TrimSpace newFine.NameOfFine), Value.float newFine.FineAmount]
        with ⟨res2, s2⟩
      rcases res2 with _ | e | cols
      · simp only [CreateFine, Driver.isNil, Database, hbody, hname, hlen, h1, h2, hq, hi,
          CreateFine.insertFailed] at h
        split_ifs at h <;> simp at h
      · simp only [CreateFine, Driver.isNil, Database, hbody, hname, hlen, h1, h2, hq, hi,
          CreateFine.insertFailed] at h
        split_ifs at h <;> simp at h
      · cases hscan : scanInt cols with
        | none =>
          simp only [CreateFine, Driver.isNil, Database, hbody, hname, hlen, h1, h2, hq, hi,
            hscan, CreateFine.insertFailed] at h
          split_ifs at h <;> simp at h
        | some id =>
          simp [CreateFine, Driver.isNil, Database, hbody, hname, hlen, h1, h2, hq, hi,
            hscan] at h
    · simp [CreateFine, Driver.isNil, Database, hbody, hname, hlen, h1, h2, hq] at h
    · cases hscan : scanInt cols <;>
        simp [CreateFine, Driver.isNil, Database, hbody, hname, hlen, h1, h2, hq, hscan] at h
  · intro hlen
    simp [CreateFine, Driver.isNil, hbody, hname, hlen]

/-! ## C22: the answers to a failure of the datastore -/

theorem GetBookByID_fails {σ : Type} (conn : Driver σ) (c : Context Unit) (s : σ) :
    failsWith (GetBookByID conn.audited c (s, false))
      [.error "Unable to fetch book data. Please try again later."] := by
  unfold failsWith GetBookByID
  simp only [Driver.audited, Database]
  rcases conn.QueryRow s GetBookByID.query [Value.str (c.Param "id")] with ⟨res, s1⟩
  rcases res with _ | e | cols
  · simp [RowResult.failed]
  · simp [RowResult.failed]
  · cases h : scanBook cols <;> simp [h, RowResult.failed]

theorem GetBookByID_blind {σ : Type} (conn : Driver σ) (f : String → String)
    (c : Context Unit) (s : σ) :
    GetBookByID (conn.mapErr f) c s = GetBookByID conn c s := by
  unfold GetBookByID
  simp only [Driver.mapErr, Database]
  rcases conn.QueryRow s GetBookByID.query [Value.str (c.Param "id")] with ⟨res, s1⟩
  rcases res with _ | e | cols <;> rfl

theorem CreateBook_fails {σ : Type} (conn : Driver σ) (c : Context Book) (s : σ) :
    failsWith (CreateBook conn.audited c (s, false))
      [.error "Unable to verify book uniqueness. Please try again later.",
       .error "Unable to create book. Please try again later.",
       .error "Unable to fetch created book data. Please try again later."] := by
  unfold failsWith CreateBook
  simp only [Driver.audited, Database]
  cases c.body with
  | error e => simp
  | ok newBook =>
    by_cases hreq : newBook.BookName = "" ∨ newBook.TypeOfBook = "" ∨ newBook.BookAuthorName = ""
    · simp [hreq]
    simp only [hreq, ↓reduceIte]
    rcases conn.QueryRow s CreateBook.checkQuery
      [Value.str newBook.BookName, Value.str newBook.BookAuthorName] with ⟨res, s1⟩
    rcases res with _ | e | cols
    · simp only [RowResult.failed, Bool.or_false]
      rcases conn.QueryRow s1 CreateBook.query _ with ⟨res2, s2⟩
      rcases res2 with _ | e | cols
      · simp [RowResult.failed]
      · simp [RowResult.failed]
      · cases h : scanInt cols with
        | none => simp [h, RowResult.failed]
        | some id =>
          simp only [h, RowResult.failed, Bool.or_false]
          rcases conn.QueryRow s2 CreateBook.fetchQuery [Value.int id] with ⟨res3, s3⟩
          rcases res3 with _ | e | cols
          · simp [RowResult.failed]
          · simp [RowResult.failed]
          · cases h3 : scanBook cols <;> simp [h3, RowResult.failed]
    · simp [RowResult.failed]
    · cases h : scanInt cols <;> simp [h, RowResult.failed]

theorem CreateBook_blind {σ : Type} (conn : Driver σ) (f : String → String)
    (c : Context Book) (s : σ) :
    CreateBook (conn.mapErr f) c s = CreateBook conn c s := by
  unfold CreateBook
  simp only [Driver.mapErr, Database]
  cases c.body with
  | error e => rfl
  | ok newBook =>
    by_cases hreq : newBook.BookName = "" ∨ newBook.TypeOfBook = "" ∨ newBook.BookAuthorName = ""
    · simp [hreq]
    simp only [hreq, ↓reduceIte]
    rcases conn.QueryRow s CreateBook.checkQuery
      [Value.str newBook.BookName, Value.str newBook.BookAuthorName] with ⟨res, s1⟩
    rcases res with _ | e | cols
    · simp only [RowResult.mapErr]
      rcases conn.QueryRow s1 CreateBook.query _ with ⟨res2, s2⟩
      rcases res2 with _ | e | cols
      · rfl
      · rfl
      · simp only [RowResult.mapErr]
        cases h : scanInt cols with
        | none => rfl
        | some id =>
          simp only
          rcases conn.QueryRow s2 CreateBook.fetchQuery [Value.int id] with ⟨res3, s3⟩
          rcases res3 with _ | e | cols <;> rfl
    · rfl
    · rfl

theorem GetFineBookByID_fails {σ : Type} (conn : Driver σ) (c : Context Unit) (s : σ) :
    failsWith (GetFineBookByID conn.audited c (s, false))
      [.error "failed to retrieve fine record"] := by
  unfold failsWith GetFineBookByID
  simp only [Driver.audited, Database, Driver.isNil, Bool.false_eq_true, ↓reduceIte]
  cases Atoi (c.Param "id") with
  | none => simp
  | some fineID =>
    by_cases hpos : fineID ≤ 0
    · simp [hpos]
    simp only [hpos, ↓reduceIte]
    rcases conn.QueryRow s GetFineBookByID.query [Value.int fineID] with ⟨res, s1⟩
    rcases res with _ | e | cols
    · simp [RowResult.failed]
    · simp [RowResult.failed]
    · cases h : scanFineBook cols <;> simp [h, RowResult.failed]

theorem GetFineBookByID_blind {σ : Type} (conn : Driver σ) (f : String → String)
    (c : Context Unit) (s : σ) :
    GetFineBookByID (conn.mapErr f) c s = GetFineBookByID conn c s := by
  unfold GetFineBookByID
  simp only [Driver.mapErr, Database, Driver.isNil, Bool.false_eq_true, ↓reduceIte]
  cases Atoi (c.Param "id") with
  | none => rfl
  | some fineID =>
    by_cases hpos : fineID ≤ 0
    · simp [hpos]
    simp only [hpos, ↓reduceIte]
    rcases conn.QueryRow s GetFineBookByID.query [Value.int fineID] with ⟨res, s1⟩
    rcases res with _ | e | cols <;> rfl

theorem GetUserById_fails {σ : Type} (conn : Driver σ) (c : Context Unit) (s : σ) :
    failsWith (GetUserById conn.audited c (s, false)) [.error "failed to retrieve user"] := by
  unfold failsWith GetUserById
  simp only [Driver.audited, Database, Driver.isNil, Bool.false_eq_true, ↓reduceIte]
  rcases conn.QueryRow s GetUserById.q [Value.str (c.Param "user_id")] with ⟨res, s1⟩
  rcases res with _ | e | cols
  · simp [RowResult.failed]
  · simp [RowResult.failed]
  · cases h : UpdateUserById.scan cols <;> simp [h, RowResult.failed]

theorem GetUserById_blind {σ : Type} (conn : Driver σ) (f : String → String)
    (c : Context Unit) (s : σ) :
    GetUserById (conn.mapErr f) c s = GetUserById conn c s := by
  unfold GetUserById
  simp only [Driver.mapErr, Database, Driver.isNil, Bool.false_eq_true, ↓reduceIte]
  rcases conn.QueryRow s GetUserById.q [Value.str (c.Param "user_id")] with ⟨res, s1⟩
  rcases res with _ | e | cols <;> rfl

theorem GetUserByName_fails {σ : Type} (conn : Driver σ) (c : Context Unit) (s : σ) :
    failsWith (GetUserByName conn.audited c (s, false)) [.error "internal error"] := by
  unfold failsWith GetUserByName
  simp only [Driver.audited, Database]
  rcases conn.QueryRow s GetUserByName.q [Value.str (c.Param "username")] with ⟨res, s1⟩
  rcases res with _ | e | cols
  · simp [RowResult.failed]
  · simp [RowResult.failed]
  · cases h : UpdateUserById.scan cols <;> simp [h, RowResult.failed]

theorem GetUserByName_blind {σ : Type} (conn : Driver σ) (f : String → String)
    (c : Context Unit) (s : σ) :
    GetUserByName (conn.mapErr f) c s = GetUserByName conn c s := by
  unfold GetUserByName
  simp only [Driver.mapErr, Database]
  rcases conn.QueryRow s GetUserByName.q [Value.str (c.Param "username")] with ⟨res, s1⟩
  rcases res with _ | e | cols <;> rfl

theorem GetOrderBookByID_fails {σ : Type} (conn : Driver σ) (c : Context Unit) (s : σ) :
    failsWith (GetOrderBookByID conn.audited c (s, false))
      [.error "failed to retrieve order"] := by
  unfold failsWith GetOrderBookByID
  simp only [Driver.audited, Database, Driver.isNil, Bool.false_eq_true, ↓reduceIte]
  cases Atoi (c.Param "id") with
  | none => simp
  | some orderID =>
    by_cases hpos : orderID ≤ 0
    · simp [hpos]
    simp only [hpos, ↓reduceIte]
    rcases conn.QueryRow s GetOrderBookByID.query [Value.int orderID] with ⟨res, s1⟩
    rcases res with _ | e | cols
    · simp [RowResult.failed]
    · simp [RowResult.failed]
    · cases h : GetOrderBookByID.scan cols <;> simp [h, RowResult.failed]

theorem GetOrderBookByID_blind {σ : Type} (conn : Driver σ) (f : String → String)
    (c : Context Unit) (s : σ) :
    GetOrderBookByID (conn.mapErr f) c s = GetOrderBookByID conn c s := by
  unfold GetOrderBookByID
  simp only [Driver.mapErr, Database, Driver.isNil, Bool.false_eq_true, ↓reduceIte]
  cases Atoi (c.Param "id") with
  | none => rfl
  | some orderID =>
    by_cases hpos : orderID ≤ 0
    · simp [hpos]
    simp only [hpos, ↓reduceIte]
    rcases conn.QueryRow s GetOrderBookByID.query [Value.int orderID] with ⟨res, s1⟩
    rcases res with _ | e | cols <;> rfl

theorem CreateFineBook_fails {σ : Type} (conn : Driver σ) (c : Context FineBook) (s : σ) :
    failsWith (CreateFineBook conn.audited c (s, false))
      [.error "failed to create fine record"] := by
  unfold failsWith CreateFineBook
  simp only [Driver.audited, Database, Driver.isNil, Bool.false_eq_true, ↓reduceIte]
  cases c.body with
  | error e => simp
  | ok newFine =>
    by_cases hval : newFine.PersonID ≤ 0 ∨ newFine.OrderID ≤ 0 ∨ newFine.FineTypeID ≤ 0
        ∨ newFine.FineAmount.leZero = true
    · simp [hval]
    simp only [hval, ↓reduceIte]
    rcases conn.QueryRow s CreateFineBook.insertQuery _ with ⟨res, s1⟩
    rcases res with _ | e | cols
    · simp [RowResult.failed]
    · simp [RowResult.failed]
    · cases h : scanInt cols <;> simp [h, RowResult.failed]

theorem CreateFineBook_blind {σ : Type} (conn : Driver σ) (f : String → String)
    (c : Context FineBook) (s : σ) :
    CreateFineBook (conn.mapErr f) c s = CreateFineBook conn c s := by
  unfold CreateFineBook
  simp only [Driver.mapErr, Database, Driver.isNil, Bool.false_eq_true, ↓reduceIte]
  cases c.body with
  | error e => rfl
  | ok newFine =>
    by_cases hval : newFine.PersonID ≤ 0 ∨ newFine.OrderID ≤ 0 ∨ newFine.FineTypeID ≤ 0
        ∨ newFine.FineAmount.leZero = true
    · simp [hval]
    simp only [hval, ↓reduceIte]
    rcases conn.QueryRow s CreateFineBook.insertQuery _ with ⟨res, s1⟩
    rcases res with _ | e | cols <;> rfl

theorem UpdateFineBook_fails {σ : Type} (conn : Driver σ) (c : Context FineBook) (s : σ) :
    failsWith (UpdateFineBook conn.audited c (s, false))
      [.error "failed to update fine record", .error "failed to verify update"] := by
  unfold failsWith UpdateFineBook
  simp only [Driver.audited, Database, Driver.isNil, Bool.false_eq_true, ↓reduceIte]
  cases Atoi (c.Param "id") with
  | none => simp
  | some fineID =>
    by_cases hpos : fineID ≤ 0
    · simp [hpos]
    simp only [hpos, ↓reduceIte]
    cases c.body with
    | error e => simp
    | ok updateFine =>
      by_cases hval : updateFine.PersonID ≤ 0 ∨ updateFine.OrderID ≤ 0
          ∨ updateFine.FineTypeID ≤ 0 ∨ updateFine.FineAmount.leZero = true
      · simp [hval]
      simp only [hval, ↓reduceIte]
      rcases conn.Exec s UpdateFineBook.updateQuery _ with ⟨res, s1⟩
      rcases res with e | (e | n)
      · simp [ExecResult.failed]
      · simp [ExecResult.failed]
      · by_cases h0 : n = 0 <;> simp [h0, ExecResult.failed]

theorem UpdateFineBook_blind {σ : Type} (conn : Driver σ) (f : String → String)
    (c : Context FineBook) (s : σ) :
    UpdateFineBook (conn.mapErr f) c s = UpdateFineBook conn c s := by
  unfold UpdateFineBook
  simp only [Driver.mapErr, Database, Driver.isNil, Bool.false_eq_true, ↓reduceIte]
  cases Atoi (c.Param "id") with
  | none => rfl
  | some fineID =>
    by_cases hpos : fineID ≤ 0
    · simp [hpos]
    simp only [hpos, ↓reduceIte]
    cases c.body with
    | error e => rfl
    | ok updateFine =>
      by_cases hval : updateFine.PersonID ≤ 0 ∨ updateFine.OrderID ≤ 0
          ∨ updateFine.FineTypeID ≤ 0 ∨ updateFine.FineAmount.leZero = true
      · simp [hval]
      simp only [hval, ↓reduceIte]
      rcases conn.Exec s UpdateFineBook.updateQuery _ with ⟨res, s1⟩
      rcases res with e | (e | n) <;> rfl

theorem UpdateBook_fails {σ : Type} (conn : Driver σ) (c : Context UpdateBookInput) (s : σ) :
    failsWith (UpdateBook conn.audited c (s, false))
      [.errorData "Failed to update book", .errorData "Failed to verify update"] := by
  unfold failsWith UpdateBook
  simp only [Driver.audited, Database]
  by_cases hid : TrimSpace (c.Param "id") = ""
  · simp [hid]
  simp only [hid, ↓reduceIte]
  cases c.body with
  | error e => simp
  | ok input =>
    by_cases hlen : (UpdateBook.build input).setClauses.length = 0
    · simp [hlen]
    simp only [hlen, ↓reduceIte]
    rcases conn.Exec s _ _ with ⟨res, s1⟩
    rcases res with e | (e | n)
    · simp [ExecResult.failed]
    · simp [ExecResult.failed]
    · by_cases h0 : n = 0 <;> simp [h0, ExecResult.failed]

theorem UpdateBook_blind {σ : Type} (conn : Driver σ) (f : String → String)
    (c : Context UpdateBookInput) (s : σ) :
    UpdateBook (conn.mapErr f) c s = UpdateBook conn c s := by
  unfold UpdateBook
  simp only [Driver.mapErr, Database]
  by_cases hid : TrimSpace (c.Param "id") = ""
  · simp [hid]
  simp only [hid, ↓reduceIte]
  cases c.body with
  | error e => rfl
  | ok input =>
    by_cases hlen : (UpdateBook.build input).setClauses.length = 0
    · simp [hlen]
    simp only [hlen, ↓reduceIte]
    rcases conn.Exec s _ _ with ⟨res, s1⟩
    rcases res with e | (e | n) <;> rfl

theorem UpdateOrderBook_fails {σ : Type} (conn : Driver σ) (c : Context OrderBook) (s : σ) :
    failsWith (UpdateOrderBook conn.audited c (s, false))
      [.error "failed to update order", .error "failed to verify update"] := by
  unfold failsWith UpdateOrderBook
  simp only [Driver.audited, Database, Driver.isNil, Bool.false_eq_true, ↓reduceIte]
  cases Atoi (c.Param "id") with
  | none => simp
  | some orderID =>
    by_cases hpos : orderID ≤ 0
    · simp [hpos]
    simp only [hpos, ↓reduceIte]
    cases c.body with
    | error e => simp
    | ok o =>
      cases hbuild : UpdateOrderBook.build o with
      | error r => simp [hbuild]
      | ok res =>
        obtain ⟨b, o1⟩ := res
        by_cases hlen : b.setClauses.length = 0
        · simp [hbuild, hlen]
        simp only [hbuild, hlen, ↓reduceIte]
        rcases conn.Exec s _ _ with ⟨res, s1⟩
        rcases res with e | (e | n)
        · simp [ExecResult.failed]
        · simp [ExecResult.failed]
        · by_cases h0 : n = 0 <;> simp [h0, ExecResult.failed]

theorem UpdateOrderBook_blind {σ : Type} (conn : Driver σ) (f : String → String)
    (c : Context OrderBook) (s : σ) :
    UpdateOrderBook (conn.mapErr f) c s = UpdateOrderBook conn c s := by
  unfold UpdateOrderBook
  simp only [Driver.mapErr, Database, Driver.isNil, Bool.false_eq_true, ↓reduceIte]
  cases Atoi (c.Param "id") with
  | none => rfl
  | some orderID =>
    by_cases hpos : orderID ≤ 0
    · simp [hpos]
    simp only [hpos, ↓reduceIte]
    cases c.body with
    | error e => rfl
    | ok o =>
      cases hbuild : UpdateOrderBook.build o with
      | error r => simp only [hbuild]
      | ok res =>
        obtain ⟨b, o1⟩ := res
        by_cases hlen : b.setClauses.length = 0
        · simp [hbuild, hlen]
        simp only [hbuild, hlen, ↓reduceIte]
        rcases conn.Exec s _ _ with ⟨res, s1⟩
        rcases res with e | (e | n) <;> rfl

theorem CreateOrderBook_fails {σ : Type} (conn : Driver σ) (c : Context OrderBook) (s : σ) :
    failsWith (CreateOrderBook conn.audited c (s, false)) [.error "failed to create order"] := by
  unfold failsWith CreateOrderBook
  simp only [Driver.audited, Database, Driver.isNil, Bool.false_eq_true, ↓reduceIte]
  cases c.body with
  | error e => simp
  | ok newOrder =>
    by_cases h1 : newOrder.PersonID ≤ 0
    · simp [h1]
    by_cases h2 : newOrder.BookID ≤ 0
    · simp [h1, h2]
    by_cases h3 : newOrder.BorrowDate = ""
    · simp [h1, h2, h3]
    simp only [h1, h2, h3, ↓reduceIte]
    cases timeParse newOrder.BorrowDate with
    | none => simp
    | some borrowDate =>
      by_cases h4 : unparsable newOrder.ReturnDate = true
      · simp [h4]
      by_cases h5 : unparsable newOrder.ActualReturnDate = true
      · simp [h4, h5]
      simp only [h4, h5, ↓reduceIte]
      split_ifs <;>
        first
          | (simp; done)
          | (rcases conn.QueryRow s CreateOrderBook.insertQuery _ with ⟨res, s1⟩
             rcases res with _ | e | cols
             · simp [RowResult.failed]
             · simp [RowResult.failed]
             · cases h : scanInt cols <;> simp [h, RowResult.failed])

theorem CreateOrderBook_blind {σ : Type} (conn : Driver σ) (f : String → String)
    (c : Context OrderBook) (s : σ) :
    CreateOrderBook (conn.mapErr f) c s = CreateOrderBook conn c s := by
  unfold CreateOrderBook
  simp only [Driver.mapErr, Database, Driver.isNil, Bool.false_eq_true, ↓reduceIte]
  cases c.body with
  | error e => rfl
  | ok newOrder =>
    by_cases h1 : newOrder.PersonID ≤ 0
    · simp [h1]
    by_cases h2 : newOrder.BookID ≤ 0
    · simp [h1, h2]
    by_cases h3 : newOrder.BorrowDate = ""
    · simp [h1, h2, h3]
    simp only [h1, h2, h3, ↓reduceIte]
    cases timeParse newOrder.BorrowDate with
    | none => rfl
    | some borrowDate =>
      by_cases h4 : unparsable newOrder.ReturnDate = true
      · simp [h4]
      by_cases h5 : unparsable newOrder.ActualReturnDate = true
      · simp [h4, h5]
      simp only [h4, h5, ↓reduceIte]
      split_ifs <;>
        first
          | rfl
          | (rcases conn.QueryRow s CreateOrderBook.insertQuery _ with ⟨res, s1⟩
             rcases res with _ | e | cols <;> rfl)

theorem UpdateUserById_fails {σ : Type} (conn : Driver σ) (now : Int)
    (entries : List (String × String)) (c : Context (List (String × JsonValue))) (s : σ) :
    failsWith (UpdateUserById conn.audited now entries c (s, false))
      [.error "failed to update user", .error "failed to verify update",
       .error "failed to retrieve updated user"] := by
  unfold failsWith UpdateUserById
  simp only [Driver.audited, Database, Driver.isNil, Bool.false_eq_true, ↓reduceIte]
  cases c.body with
  | error e => simp
  | ok payload =>
    by_cases huid : c.Param "user_id" = "" ∨ (c.Param "user_id").utf8ByteSize > 36
    · simp [huid]
    simp only [huid, ↓reduceIte]
    cases hloop : UpdateUserById.loop payload entries ⟨[], []⟩ with
    | error r =>
      simp only [hloop]
      intro h
      cases h
    | ok b =>
      by_cases hlen : (b.add "Updated_at = ?" (Value.instant now)).setClauses.length = 1
      · simp [hloop, hlen]
      simp only [hloop, hlen, ↓reduceIte]
      rcases conn.Exec s _ _ with ⟨res, s1⟩
      rcases res with e | (e | n)
      · simp [ExecResult.failed]
      · simp [ExecResult.failed]
      · by_cases h0 : n = 0
        · simp [h0, ExecResult.failed]
        simp only [h0, ↓reduceIte, ExecResult.failed, Bool.or_false]
        rcases conn.QueryRow s1 UpdateUserById.selectQuery _ with ⟨row, s2⟩
        rcases row with _ | e | cols
        · simp [RowResult.failed]
        · simp [RowResult.failed]
        · cases h : UpdateUserById.scan cols <;> simp [h, RowResult.failed]

theorem UpdateUserById_blind {σ : Type} (conn : Driver σ) (f : String → String) (now : Int)
    (entries : List (String × String)) (c : Context (List (String × JsonValue))) (s : σ) :
    UpdateUserById (conn.mapErr f) now entries c s = UpdateUserById conn now entries c s := by
  unfold UpdateUserById
  simp only [Driver.mapErr, Database, Driver.isNil, Bool.false_eq_true, ↓reduceIte]
  cases c.body with
  | error e => rfl
  | ok payload =>
    by_cases huid : c.Param "user_id" = "" ∨ (c.Param "user_id").utf8ByteSize > 36
    · simp [huid]
    simp only [huid, ↓reduceIte]
    cases hloop : UpdateUserById.loop payload entries ⟨[], []⟩ with
    | error r => simp only [hloop]
    | ok b =>
      by_cases hlen : (b.add "Updated_at = ?" (Value.instant now)).setClauses.length = 1
      · simp [hloop, hlen]
      simp only [hloop, hlen, ↓reduceIte]
      rcases conn.Exec s _ _ with ⟨res, s1⟩
      rcases res with e | (e | n)
      · rfl
      · rfl
      · by_cases h0 : n = 0
        · simp [h0, ExecResult.mapErr]
        simp only [h0, ↓reduceIte, ExecResult.mapErr]
        rcases conn.QueryRow s1 UpdateUserById.selectQuery _ with ⟨row, s2⟩
        rcases row with _ | e | cols <;> rfl

theorem CreateUser_fails {σ : Type} (conn : Driver σ) (jwt : JWT) (bcrypt : Bcrypt)
    (entropy : Nat) (now tokenNow : Int) (random : Nat) (c : Context User) (s : σ) :
    failsWith (CreateUser conn.audited jwt bcrypt entropy now tokenNow random c (s, false))
      [.error "internal error", .error "failed to create user"] := by
  unfold failsWith CreateUser
  simp only [Driver.audited, Database]
  cases c.body with
  | error e => simp
  | ok newUser =>
    by_cases hblank : TrimSpace newUser.Username = "" ∨ TrimSpace newUser.Email = ""
        ∨ TrimSpace newUser.Password = ""
    · simp [hblank]
    by_cases hmail : (!Contains (TrimSpace newUser.Email) "@"
        || !Contains (TrimSpace newUser.Email) ".") = true
    · simp [hblank, hmail]
    simp only [hblank, hmail, ↓reduceIte]
    rcases conn.QueryRow s CreateUser.dupChk _ with ⟨res, s1⟩
    rcases res with _ | e | cols
    · simp only [RowResult.failed, Bool.or_false]
      cases hhash : HashPassword bcrypt entropy (TrimSpace newUser.Password) with
      | error e => simp [hhash]
      | ok hashed =>
        simp only [hhash]
        cases hgen : GenerateAllTokens jwt tokenNow (TrimSpace newUser.Email) newUser.FirstName
            newUser.LastName (GenerateUUID random) with
        | error e => simp [hgen]
        | ok pair =>
          obtain ⟨access, refresh⟩ := pair
          simp only [hgen]
          rcases conn.QueryRow s1 CreateUser.ins _ with ⟨res2, s2⟩
          rcases res2 with _ | e | cols
          · simp [RowResult.failed]
          · simp [RowResult.failed]
          · cases h : scanInt cols <;> simp [h, RowResult.failed]
    · simp [RowResult.failed]
    · cases h : scanInt cols <;> simp [h, RowResult.failed]

theorem CreateUser_blind {σ : Type} (conn : Driver σ) (f : String → String) (jwt : JWT)
    (bcrypt : Bcrypt) (entropy : Nat) (now tokenNow : Int) (random : Nat) (c : Context User)
    (s : σ) :
    CreateUser (conn.mapErr f) jwt bcrypt entropy now tokenNow random c s
      = CreateUser conn jwt bcrypt entropy now tokenNow random c s := by
  unfold CreateUser
  simp only [Driver.mapErr, Database]
  cases c.body with
  | error e => rfl
  | ok newUser =>
    by_cases hblank : TrimSpace newUser.Username = "" ∨ TrimSpace newUser.Email = ""
        ∨ TrimSpace newUser.Password = ""
    · simp [hblank]
    by_cases hmail : (!Contains (TrimSpace newUser.Email) "@"
        || !Contains (TrimSpace newUser.Email) ".") = true
    · simp [hblank, hmail]
    simp only [hblank, hmail, ↓reduceIte]
    rcases conn.QueryRow s CreateUser.dupChk _ with ⟨res, s1⟩
    rcases res with _ | e | cols
    · simp only [RowResult.mapErr]
      cases hhash : HashPassword bcrypt entropy (TrimSpace newUser.Password) with
      | error e => simp only [hhash]
      | ok hashed =>
        simp only [hhash]
        cases hgen : GenerateAllTokens jwt tokenNow (TrimSpace newUser.Email) newUser.FirstName
            newUser.LastName (GenerateUUID random) with
        | error e => simp only [hgen]
        | ok pair =>
          obtain ⟨access, refresh⟩ := pair
          simp only [hgen]
          rcases conn.QueryRow s1 CreateUser.ins _ with ⟨res2, s2⟩
          rcases res2 with _ | e | cols <;> rfl
    · rfl
    · rfl

theorem LoginUser_fails {σ : Type} (conn : Driver σ) (jwt : JWT) (bcrypt : Bcrypt)
    (tokenNow updateNow : Int) (c : Context LoginInput) (s : σ) :
    failsWith (LoginUser conn.audited jwt bcrypt tokenNow updateNow c (s, false))
      [.error "failed to retrieve user", .error "failed to update tokens"] := by
  unfold failsWith LoginUser
  simp only [Driver.audited, Database, Driver.isNil, Bool.false_eq_true, ↓reduceIte]
  cases c.body with
  | error e => simp
  | ok input =>
    by_cases hblank : TrimSpace input.Username = "" ∨ TrimSpace input.Password = ""
    · simp [hblank]
    simp only [hblank, ↓reduceIte]
    rcases conn.QueryRow s LoginUser.query _ with ⟨res, s1⟩
    rcases res with _ | e | cols
    · simp [RowResult.failed]
    · simp [RowResult.failed]
    · simp only [RowResult.failed, Bool.or_false]
      cases hscan : LoginUser.scan cols with
      | none => simp [hscan]
      | some found =>
        obtain ⟨user, hashedPassword⟩ := found
        simp only [hscan]
        rcases hv : VerifyPassword bcrypt (TrimSpace input.Password) hashedPassword
          with ⟨ok, msg⟩
        cases ok with
        | false => simp [hv]
        | true =>
          simp only [hv]
          cases hgen : GenerateAllTokens jwt tokenNow user.Email user.FirstName user.LastName
              user.UserID with
          | error e => simp [hgen]
          | ok pair =>
            obtain ⟨token, refreshToken⟩ := pair
            simp only [hgen, UpdateAllTokens, Database, Driver.isNil, Bool.false_eq_true,
              ↓reduceIte]
            rcases conn.Exec s1 UpdateAllTokens.stmt _ with ⟨res2, s2⟩
            rcases res2 with e | (e | n)
            · simp [ExecResult.failed]
            · simp [ExecResult.failed]
            · by_cases h0 : n = 0 <;> simp [h0, ExecResult.failed]

theorem LoginUser_blind {σ : Type} (conn : Driver σ) (f : String → String) (jwt : JWT)
    (bcrypt : Bcrypt) (tokenNow updateNow : Int) (c : Context LoginInput) (s : σ) :
    LoginUser (conn.mapErr f) jwt bcrypt tokenNow updateNow c s
      = LoginUser conn jwt bcrypt tokenNow updateNow c s := by
  unfold LoginUser
  simp only [Driver.mapErr, Database, Driver.isNil, Bool.false_eq_true, ↓reduceIte]
  cases c.body with
  | error e => rfl
  | ok input =>
    by_cases hblank : TrimSpace input.Username = "" ∨ TrimSpace input.Password = ""
    · simp [hblank]
    simp only [hblank, ↓reduceIte]
    rcases conn.QueryRow s LoginUser.query _ with ⟨res, s1⟩
    rcases res with _ | e | cols
    · rfl
    · rfl
    · simp only [RowResult.mapErr]
      cases hscan : LoginUser.scan cols with
      | none => simp only [hscan]
      | some found =>
        obtain ⟨user, hashedPassword⟩ := found
        simp only [hscan]
        rcases hv : VerifyPassword bcrypt (TrimSpace input.Password) hashedPassword
          with ⟨ok, msg⟩
        cases ok with
        | false => simp only [hv]
        | true =>
          simp only [hv]
          cases hgen : GenerateAllTokens jwt tokenNow user.Email user.FirstName user.LastName
              user.UserID with
          | error e => simp only [hgen]
          | ok pair =>
            obtain ⟨token, refreshToken⟩ := pair
            simp only [hgen, UpdateAllTokens, Database, Driver.isNil, Bool.false_eq_true,
              ↓reduceIte]
            rcases conn.Exec s1 UpdateAllTokens.stmt _ with ⟨res2, s2⟩
            rcases res2 with e | (e | n)
            · rfl
            · rfl
            · by_cases h0 : n = 0 <;> simp [h0, ExecResult.mapErr]

theorem GetBooks_fails {σ : Type} (conn : DB σ) (s : σ) :
    failsWith (GetBooks conn.audited (s, false))
      [.error "Unable to fetch books. Please try again later."] := by
  unfold failsWith GetBooks
  simp only [DB.audited]
  rcases conn.Query s GetBooks.query [] with ⟨res, s1⟩
  rcases res with e | ⟨rs, iterErr⟩
  · simp [RowsResult.failed]
  · cases h : scanRows scanBook rs with
    | none => simp [h, RowsResult.failed]
    | some books => cases iterErr <;> simp [h, RowsResult.failed]

theorem GetBooks_blind {σ : Type} (conn : DB σ) (f : String → String) (s : σ) :
    GetBooks (conn.mapErr f) s = GetBooks conn s := by
  unfold GetBooks
  simp only [DB.mapErr]
  rcases conn.Query s GetBooks.query [] with ⟨res, s1⟩
  rcases res with e | ⟨rs, iterErr⟩
  · rfl
  · simp only [RowsResult.mapErr]
    cases h : scanRows scanBook rs with
    | none => rfl
    | some books => cases iterErr <;> rfl

theorem searchBooks_fails {σ : Type} (conn : DB σ) (query : String) (arg : Value)
    (nothing : String) (s : σ) :
    failsWith (searchBooks conn.audited query arg nothing (s, false))
      [.errorData "Unable to fetch book data"] := by
  unfold failsWith searchBooks
  simp only [DB.audited]
  rcases conn.Query s query [arg] with ⟨res, s1⟩
  rcases res with e | ⟨rs, iterErr⟩
  · simp [RowsResult.failed]
  · cases h : scanRows scanBook rs with
    | none => simp [h, RowsResult.failed]
    | some books =>
      cases iterErr with
      | some e => simp [h, RowsResult.failed]
      | none => by_cases hlen : books.length = 0 <;> simp [h, hlen, RowsResult.failed]

theorem searchBooks_blind {σ : Type} (conn : DB σ) (f : String → String) (query : String)
    (arg : Value) (nothing : String) (s : σ) :
    searchBooks (conn.mapErr f) query arg nothing s = searchBooks conn query arg nothing s := by
  unfold searchBooks
  simp only [DB.mapErr]
  rcases conn.Query s query [arg] with ⟨res, s1⟩
  rcases res with e | ⟨rs, iterErr⟩
  · rfl
  · simp only [RowsResult.mapErr]
    cases h : scanRows scanBook rs with
    | none => rfl
    | some books => cases iterErr <;> rfl

theorem GetBookByName_fails {σ : Type} (conn : DB σ) (c : Context Unit) (s : σ) :
    failsWith (GetBookByName conn.audited c (s, false))
      [.errorData "Unable to fetch book data"] := by
  unfold GetBookByName
  by_cases h : TrimSpace (c.Param "name") = ""
  · simp [h, failsWith]
  · simp only [h, ↓reduceIte]
    exact searchBooks_fails conn _ _ _ s

theorem GetBookByName_blind {σ : Type} (conn : DB σ) (f : String → String)
    (c : Context Unit) (s : σ) :
    GetBookByName (conn.mapErr f) c s = GetBookByName conn c s := by
  unfold GetBookByName
  by_cases h : TrimSpace (c.Param "name") = ""
  · simp [h]
  · simp only [h, ↓reduceIte]
    exact searchBooks_blind conn f _ _ _ s

theorem GetBookByAuthor_fails {σ : Type} (conn : DB σ) (c : Context Unit) (s : σ) :
    failsWith (GetBookByAuthor conn.audited c (s, false))
      [.errorData "Unable to fetch book data"] := by
  unfold GetBookByAuthor
  by_cases h : TrimSpace (c.Param "author") = ""
  · simp [h, failsWith]
  · simp only [h, ↓reduceIte]
    exact searchBooks_fails conn _ _ _ s

theorem GetBookByAuthor_blind {σ : Type} (conn : DB σ) (f : String → String)
    (c : Context Unit) (s : σ) :
    GetBookByAuthor (conn.mapErr f) c s = GetBookByAuthor conn c s := by
  unfold GetBookByAuthor
  by_cases h : TrimSpace (c.Param "author") = ""
  · simp [h]
  · simp only [h, ↓reduceIte]
    exact searchBooks_blind conn f _ _ _ s

theorem GetBookByType_fails {σ : Type} (conn : DB σ) (c : Context Unit) (s : σ) :
    failsWith (GetBookByType conn.audited c (s, false))
      [.errorData "Unable to fetch book data"] := by
  unfold GetBookByType
  by_cases h : TrimSpace (c.Param "type") = ""
  · simp [h, failsWith]
  · simp only [h, ↓reduceIte]
    exact searchBooks_fails conn _ _ _ s

theorem GetBookByType_blind {σ : Type} (conn : DB σ) (f : String → String)
    (c : Context Unit) (s : σ) :
    GetBookByType (conn.mapErr f) c s = GetBookByType conn c s := by
  unfold GetBookByType
  by_cases h : TrimSpace (c.Param "type") = ""
  · simp [h]
  · simp only [h, ↓reduceIte]
    exact searchBooks_blind conn f _ _ _ s

theorem GetBookByAvailability_fails {σ : Type} (conn : DB σ) (ToLower : String → String)
    (c : Context Unit) (s : σ) :
    failsWith (GetBookByAvailability conn.audited ToLower c (s, false))
      [.errorData "Unable to fetch book data"] := by
  unfold GetBookByAvailability
  by_cases h : TrimSpace (c.Param "isAvailable") = ""
  · simp [h, failsWith]
  · simp only [h, ↓reduceIte]
    split
    · simp [failsWith]
    · exact searchBooks_fails conn _ _ _ s

theorem GetBookByAvailability_blind {σ : Type} (conn : DB σ) (f : String → String)
    (ToLower : String → String) (c : Context Unit) (s : σ) :
    GetBookByAvailability (conn.mapErr f) ToLower c s
      = GetBookByAvailability conn ToLower c s := by
  unfold GetBookByAvailability
  by_cases h : TrimSpace (c.Param "isAvailable") = ""
  · simp [h]
  · simp only [h, ↓reduceIte]
    split
    · rfl
    · exact searchBooks_blind conn f _ _ _ s

theorem GetAllFineBooks_fails {σ : Type} (conn : DB σ) (s : σ) :
    failsWith (GetAllFineBooks conn.audited (s, false))
      [.error "failed to get fine records"] := by
  unfold failsWith GetAllFineBooks
  simp only [DB.audited, Driver.isNil, Bool.false_eq_true, ↓reduceIte]
  rcases conn.Query s GetAllFineBooks.query [] with ⟨res, s1⟩
  rcases res with e | ⟨rs, iterErr⟩
  · simp [RowsResult.failed]
  · cases h : scanRows scanFineBook rs with
    | none => simp [h, RowsResult.failed]
    | some fines => cases iterErr <;> simp [h, RowsResult.failed]

theorem GetAllFineBooks_blind {σ : Type} (conn : DB σ) (f : String → String) (s : σ) :
    GetAllFineBooks (conn.mapErr f) s = GetAllFineBooks conn s := by
  unfold GetAllFineBooks
  simp only [DB.mapErr, Driver.isNil, Bool.false_eq_true, ↓reduceIte]
  rcases conn.Query s GetAllFineBooks.query [] with ⟨res, s1⟩
  rcases res with e | ⟨rs, iterErr⟩
  · rfl
  · simp only [RowsResult.mapErr]
    cases h : scanRows scanFineBook rs with
    | none => rfl
    | some fines => cases iterErr <;> rfl

theorem GetFines_fails {σ : Type} (conn : DB σ) (s : σ) :
    failsWith (GetFines conn.audited (s, false)) [.error "failed to fetch fines"] := by
  unfold failsWith GetFines
  simp only [DB.audited]
  rcases conn.Query s GetFines.query [] with ⟨res, s1⟩
  rcases res with e | ⟨rs, iterErr⟩
  · simp [RowsResult.failed]
  · cases h : scanRows scanFine rs <;> simp [h, RowsResult.failed]

theorem GetFines_blind {σ : Type} (conn : DB σ) (f : String → String) (s : σ) :
    GetFines (conn.mapErr f) s = GetFines conn s := by
  unfold GetFines
  simp only [DB.mapErr]
  rcases conn.Query s GetFines.query [] with ⟨res, s1⟩
  rcases res with e | ⟨rs, iterErr⟩ <;> rfl

theorem GetAllOrderBooks_fails {σ : Type} (conn : DB σ) (s : σ) :
    failsWith (GetAllOrderBooks conn.audited (s, false)) [.error "failed to get orders"] := by
  unfold failsWith GetAllOrderBooks
  simp only [DB.audited, Driver.isNil, Bool.false_eq_true, ↓reduceIte]
  rcases conn.Query s GetAllOrderBooks.query [] with ⟨res, s1⟩
  rcases res with e | ⟨rs, iterErr⟩
  · simp [RowsResult.failed]
  · cases h : scanRows GetAllOrderBooks.row rs with
    | none => simp [h, RowsResult.failed]
    | some orders => cases iterErr <;> simp [h, RowsResult.failed]

theorem GetAllOrderBooks_blind {σ : Type} (conn : DB σ) (f : String → String) (s : σ) :
    GetAllOrderBooks (conn.mapErr f) s = GetAllOrderBooks conn s := by
  unfold GetAllOrderBooks
  simp only [DB.mapErr, Driver.isNil, Bool.false_eq_true, ↓reduceIte]
  rcases conn.Query s GetAllOrderBooks.query [] with ⟨res, s1⟩
  rcases res with e | ⟨rs, iterErr⟩
  · rfl
  · simp only [RowsResult.mapErr]
    cases h : scanRows GetAllOrderBooks.row rs with
    | none => rfl
    | some orders => cases iterErr <;> rfl

theorem GetUsers_fails {σ : Type} (conn : DB σ) (s : σ) :
    failsWith (GetUsers conn.audited (s, false)) [.error "failed to retrieve users"] := by
  unfold failsWith GetUsers
  simp only [DB.audited]
  rcases conn.Query s GetUsers.q [] with ⟨res, s1⟩
  rcases res with e | ⟨rs, iterErr⟩
  · simp [RowsResult.failed]
  · cases h : scanRows UpdateUserById.scan rs with
    | none => simp [h, RowsResult.failed]
    | some users => cases iterErr <;> simp [h, RowsResult.failed]

theorem GetUsers_blind {σ : Type} (conn : DB σ) (f : String → String) (s : σ) :
    GetUsers (conn.mapErr f) s = GetUsers conn s := by
  unfold GetUsers
  simp only [DB.mapErr]
  rcases conn.Query s GetUsers.q [] with ⟨res, s1⟩
  rcases res with e | ⟨rs, iterErr⟩
  · rfl
  · simp only [RowsResult.mapErr]
    cases h : scanRows UpdateUserById.scan rs with
    | none => rfl
    | some users => cases iterErr <;> rfl

/-- C22, as stated, fails for the INSERT of `CreateFine`: when the INSERT fails with
an error whose text speaks of a unique constraint, the answer is 409, not 500; the
same failure under another text is answered 500, so the status depends on the text
of the error. -/
theorem unique_violation_answered_409 :
    CreateFine uniqueStore.audited asciiLower (fun _ => "") lateFine ((), false)
        = (⟨409, .error "a fine with this name already exists"⟩, ((), true))
      ∧ CreateFine (uniqueStore.mapErr (fun _ => "mssql: connection reset")).audited asciiLower
          (fun _ => "") lateFine ((), false)
        = (⟨500, .error "failed to create fine"⟩, ((), true)) := by
  constructor <;> decide

/-- The answers of `CreateFine` to a failure of the datastore: 500 "failed to check
fine existence" for the check, and for the INSERT the answer that
`CreateFine.insertFailed` reads off the text of the error. -/
theorem CreateFine_fails {σ : Type} (conn : Driver σ) (ToLower : String → String)
    (scanError : List Value → String) (c : Context Fine) (s : σ) :
    (CreateFine conn.audited ToLower scanError c (s, false)).2.2 = true →
      (CreateFine conn.audited ToLower scanError c (s, false)).1
          = ⟨500, .error "failed to check fine existence"⟩
        ∨ ∃ (newFine : Fine) (err : String),
          c.body = .ok newFine
            ∧ (conn.QueryRow
                (conn.QueryRow s CreateFine.checkQuery
                  [Value.str (TrimSpace newFine.NameOfFine)]).2
                CreateFine.insertQuery
                [Value.str (TrimSpace newFine.NameOfFine), Value.float newFine.FineAmount]).1
              = .err err
            ∧ (CreateFine conn.audited ToLower scanError c (s, false)).1
              = CreateFine.insertFailed ToLower err := by
  unfold CreateFine
  simp only [Driver.audited, Database, Driver.isNil, Bool.false_eq_true, ↓reduceIte]
  cases hbody : c.body with
  | error e => simp
  | ok newFine =>
    by_cases h0 : TrimSpace newFine.NameOfFine = ""
    · simp [h0]
    by_cases h1 : (TrimSpace newFine.NameOfFine).utf8ByteSize > 100
    · simp [h0, h1]
    by_cases h2 : newFine.FineAmount.ltZero = true
    · simp [h0, h1, h2]
    by_cases h3 : newFine.FineAmount.gtMillion = true
    · simp [h0, h1, h2, h3]
    simp only [h0, h1, h2, h3, ↓reduceIte]
    rcases hq : conn.QueryRow s CreateFine.checkQuery
      [Value.str (TrimSpace newFine.NameOfFine)] with ⟨res, s1⟩
    rcases res with _ | e | cols
    · simp only [RowResult.failed, Bool.or_false]
      rcases hi : conn.QueryRow s1 CreateFine.insertQuery
        [Value.str (TrimSpace newFine.NameOfFine), Value.float newFine.FineAmount]
        with ⟨res2, s2⟩
      rcases res2 with _ | e | cols
      · simp [RowResult.failed]
      · intro _
        right
        exact ⟨newFine, e, rfl, by rw [hq, hi], rfl⟩
      · cases h : scanInt cols <;> simp [h, RowResult.failed]
    · simp [RowResult.failed]
    · cases h : scanInt cols <;> simp [h, RowResult.failed]

/-- C22 (amended): for every handler of `controllers/` and every failure of the
datastore (an error from `Query`, from `QueryRow(...).Scan` other than
`sql.ErrNoRows`, from `Exec` or from `RowsAffected`), the INSERT of `CreateFine`
apart, the response has status 500 and its body is one of the fixed messages of the
handler; and the whole outcome of the handler is the same when the datastore fails
at the same statements with other error texts.  For `CreateFine` the body is one of
three fixed messages too, the status is 500, or 409 only when the INSERT has failed
with an error whose text, in lower case, contains "unique". -/
theorem datastore_failures_answered {σ : Type} (conn : Driver σ) (db : DB σ) (s : σ)
    (f : String → String) (ToLower : String → String) (scanError : List Value → String)
    (jwt : JWT) (bcrypt : Bcrypt) (entropy random : Nat) (now tokenNow updateNow : Int)
    (entries : List (String × String))
    (cUnit : Context Unit) (cBook : Context Book) (cUpdateBook : Context UpdateBookInput)
    (cOrder : Context OrderBook) (cFineBook : Context FineBook) (cFine : Context Fine)
    (cUser : Context User) (cLogin : Context LoginInput)
    (cPayload : Context (List (String × JsonValue))) :
    (failsWith (CreateBook conn.audited cBook (s, false))
          [.error "Unable to verify book uniqueness. Please try again later.",
           .error "Unable to create book. Please try again later.",
           .error "Unable to fetch created book data. Please try again later."]
        ∧ CreateBook (conn.mapErr f) cBook s = CreateBook conn cBook s)
      ∧ (failsWith (GetBooks db.audited (s, false))
            [.error "Unable to fetch books. Please try again later."]
          ∧ GetBooks (db.mapErr f) s = GetBooks db s)
      ∧ (failsWith (GetBookByID conn.audited cUnit (s, false))
            [.error "Unable to fetch book data. Please try again later."]
          ∧ GetBookByID (conn.mapErr f) cUnit s = GetBookByID conn cUnit s)
      ∧ (failsWith (GetBookByName db.audited cUnit (s, false))
            [.errorData "Unable to fetch book data"]
          ∧ GetBookByName (db.mapErr f) cUnit s = GetBookByName db cUnit s)
      ∧ (failsWith (GetBookByAuthor db.audited cUnit (s, false))
            [.errorData "Unable to fetch book data"]
          ∧ GetBookByAuthor (db.mapErr f) cUnit s = GetBookByAuthor db cUnit s)
      ∧ (failsWith (GetBookByType db.audited cUnit (s, false))
            [.errorData "Unable to fetch book data"]
          ∧ GetBookByType (db.mapErr f) cUnit s = GetBookByType db cUnit s)
      ∧ (failsWith (GetBookByAvailability db.audited ToLower cUnit (s, false))
            [.errorData "Unable to fetch book data"]
          ∧ GetBookByAvailability (db.mapErr f) ToLower cUnit s
            = GetBookByAvailability db ToLower cUnit s)
      ∧ (failsWith (UpdateBook conn.audited cUpdateBook (s, false))
            [.errorData "Failed to update book", .errorData "Failed to verify update"]
          ∧ UpdateBook (conn.mapErr f) cUpdateBook s = UpdateBook conn cUpdateBook s)
      ∧ (failsWith (CreateFineBook conn.audited cFineBook (s, false))
            [.error "failed to create fine record"]
          ∧ CreateFineBook (conn.mapErr f) cFineBook s = CreateFineBook conn cFineBook s)
      ∧ (failsWith (GetAllFineBooks db.audited (s, false))
            [.error "failed to get fine records"]
          ∧ GetAllFineBooks (db.mapErr f) s = GetAllFineBooks db s)
      ∧ (failsWith (GetFineBookByID conn.audited cUnit (s, false))
            [.error "failed to retrieve fine record"]
          ∧ GetFineBookByID (conn.mapErr f) cUnit s = GetFineBookByID conn cUnit s)
      ∧ (failsWith (UpdateFineBook conn.audited cFineBook (s, false))
            [.error "failed to update fine record", .error "failed to verify update"]
          ∧ UpdateFineBook (conn.mapErr f) cFineBook s = UpdateFineBook conn cFineBook s)
      ∧ (failsWith (GetFines db.audited (s, false)) [.error "failed to fetch fines"]
          ∧ GetFines (db.mapErr f) s = GetFines db s)
      ∧ (failsWith (CreateOrderBook conn.audited cOrder (s, false))
            [.error "failed to create order"]
          ∧ CreateOrderBook (conn.mapErr f) cOrder s = CreateOrderBook conn cOrder s)
      ∧ (failsWith (UpdateOrderBook conn.audited cOrder (s, false))
            [.error "failed to update order", .error "failed to verify update"]
          ∧ UpdateOrderBook (conn.mapErr f) cOrder s = UpdateOrderBook conn cOrder s)
      ∧ (failsWith (GetAllOrderBooks db.audited (s, false)) [.error "failed to get orders"]
          ∧ GetAllOrderBooks (db.mapErr f) s = GetAllOrderBooks db s)
      ∧ (failsWith (GetOrderBookByID conn.audited cUnit (s, false))
            [.error "failed to retrieve order"]
          ∧ GetOrderBookByID (conn.mapErr f) cUnit s = GetOrderBookByID conn cUnit s)
      ∧ (failsWith (CreateUser conn.audited jwt bcrypt entropy now tokenNow random cUser
              (s, false))
            [.error "internal error", .error "failed to create user"]
          ∧ CreateUser (conn.mapErr f) jwt bcrypt entropy now tokenNow random cUser s
            = CreateUser conn jwt bcrypt entropy now tokenNow random cUser s)
      ∧ (failsWith (GetUsers db.audited (s, false)) [.error "failed to retrieve users"]
          ∧ GetUsers (db.mapErr f) s = GetUsers db s)
      ∧ (failsWith (GetUserById conn.audited cUnit (s, false))
            [.error "failed to retrieve user"]
          ∧ GetUserById (conn.mapErr f) cUnit s = GetUserById conn cUnit s)
      ∧ (failsWith (GetUserByName conn.audited cUnit (s, false)) [.error "internal error"]
          ∧ GetUserByName (conn.mapErr f) cUnit s = GetUserByName conn cUnit s)
      ∧ (failsWith (UpdateUserById conn.audited now entries cPayload (s, false))
            [.error "failed to update user", .error "failed to verify update",
             .error "failed to retrieve updated user"]
          ∧ UpdateUserById (conn.mapErr f) now entries cPayload s
            = UpdateUserById conn now entries cPayload s)
      ∧ (failsWith (LoginUser conn.audited jwt bcrypt tokenNow updateNow cLogin (s, false))
            [.error "failed to retrieve user", .error "failed to update tokens"]
          ∧ LoginUser (conn.mapErr f) jwt bcrypt tokenNow updateNow cLogin s
            = LoginUser conn jwt bcrypt tokenNow updateNow cLogin s)
      ∧ ((CreateFine conn.audited ToLower scanError cFine (s, false)).2.2 = true →
          (CreateFine conn.audited ToLower scanError cFine (s, false)).1.body
              ∈ [.error "failed to check fine existence", .error "failed to create fine",
                 .error "a fine with this name already exists"]
            ∧ ((CreateFine conn.audited ToLower scanError cFine (s, false)).1.status = 500
              ∨ (CreateFine conn.audited ToLower scanError cFine (s, false)).1.status = 409
                ∧ ∃ (newFine : Fine) (err : String),
                  cFine.body = .ok newFine
                    ∧ (conn.QueryRow
                        (conn.QueryRow s CreateFine.checkQuery
                          [Value.str (TrimSpace newFine.NameOfFine)]).2
                        CreateFine.insertQuery
                        [Value.str (TrimSpace newFine.NameOfFine),
                         Value.float newFine.FineAmount]).1 = .err err
                    ∧ Contains (ToLower err) "unique" = true)) := by
  refine ⟨⟨CreateBook_fails conn cBook s, CreateBook_blind conn f cBook s⟩,
    ⟨GetBooks_fails db s, GetBooks_blind db f s⟩,
    ⟨GetBookByID_fails conn cUnit s, GetBookByID_blind conn f cUnit s⟩,
    ⟨GetBookByName_fails db cUnit s, GetBookByName_blind db f cUnit s⟩,
    ⟨GetBookByAuthor_fails db cUnit s, GetBookByAuthor_blind db f cUnit s⟩,
    ⟨GetBookByType_fails db cUnit s, GetBookByType_blind db f cUnit s⟩,
    ⟨GetBookByAvailability_fails db ToLower cUnit s,
      GetBookByAvailability_blind db f ToLower cUnit s⟩,
    ⟨UpdateBook_fails conn cUpdateBook s, UpdateBook_blind conn f cUpdateBook s⟩,
    ⟨CreateFineBook_fails conn cFineBook s, CreateFineBook_blind conn f cFineBook s⟩,
    ⟨GetAllFineBooks_fails db s, GetAllFineBooks_blind db f s⟩,
    ⟨GetFineBookByID_fails conn cUnit s, GetFineBookByID_blind conn f cUnit s⟩,
    ⟨UpdateFineBook_fails conn cFineBook s, UpdateFineBook_blind conn f cFineBook s⟩,
    ⟨GetFines_fails db s, GetFines_blind db f s⟩,
    ⟨CreateOrderBook_fails conn cOrder s, CreateOrderBook_blind conn f cOrder s⟩,
    ⟨UpdateOrderBook_fails conn cOrder s, UpdateOrderBook_blind conn f cOrder s⟩,
    ⟨GetAllOrderBooks_fails db s, GetAllOrderBooks_blind db f s⟩,
    ⟨GetOrderBookByID_fails conn cUnit s, GetOrderBookByID_blind conn f cUnit s⟩,
    ⟨CreateUser_fails conn jwt bcrypt entropy now tokenNow random cUser s,
      CreateUser_blind conn f jwt bcrypt entropy now tokenNow random cUser s⟩,
    ⟨GetUsers_fails db s, GetUsers_blind db f s⟩,
    ⟨GetUserById_fails conn cUnit s, GetUserById_blind conn f cUnit s⟩,
    ⟨GetUserByName_fails conn cUnit s, GetUserByName_blind conn f cUnit s⟩,
    ⟨UpdateUserById_fails conn now entries cPayload s,
      UpdateUserById_blind conn f now entries cPayload s⟩,
    ⟨LoginUser_fails conn jwt bcrypt tokenNow updateNow cLogin s,
      LoginUser_blind conn f jwt bcrypt tokenNow updateNow cLogin s⟩, ?_⟩
  intro hflag
  rcases CreateFine_fails conn ToLower scanError cFine s hflag with
    h | ⟨newFine, err, hbody, hins, h⟩
  · rw [h]
    exact ⟨by simp, Or.inl rfl⟩
  · rw [h]
    unfold CreateFine.insertFailed
    by_cases hu : Contains (ToLower err) "unique" = true
    · rw [if_pos hu]
      exact ⟨by simp, Or.inr ⟨rfl, newFine, err, hbody, hins, hu⟩⟩
    · rw [if_neg hu]
      exact ⟨by simp, Or.inl rfl⟩

/-- C22 on a datastore that has lost its connection: the update of a book, the
login of alice and the list of the books are answered 500 with a fixed message, and
the update of a book is answered the same under another error text. -/
theorem datastore_failures_answered_witness :
    UpdateBook brokenStore.toDriver.audited bookRequest ((), false)
        = (⟨500, .errorData "Failed to update book"⟩, ((), true))
      ∧ LoginUser brokenStore.toDriver.audited (bookJWT aliceBook) plainBcrypt 0 1 aliceLogin
          ((), false)
        = (⟨500, .error "failed to retrieve user"⟩, ((), true))
      ∧ GetBooks brokenStore.audited ((), false)
        = (⟨500, .error "Unable to fetch books. Please try again later."⟩, ((), true))
      ∧ UpdateBook (brokenStore.toDriver.mapErr (fun _ => "i/o timeout")) bookRequest ()
        = UpdateBook brokenStore.toDriver bookRequest () :=
  ⟨by decide, by decide, by decide,
    (datastore_failures_answered brokenStore.toDriver brokenStore () (fun _ => "i/o timeout")
      asciiLower (fun _ => "") (bookJWT aliceBook) plainBcrypt 0 0 0 0 1 allowedFields
      ⟨[], .ok ()⟩ ⟨[], .error ""⟩ bookRequest orderRequest ⟨[], .error ""⟩ lateFine
      ⟨[], .ok aliceForm⟩ aliceLogin userRequest).2.2.2.2.2.2.2.1.2⟩

/-- An error that ends the iteration over the rows, which `rows.Err` reports, is
answered 500 by `GetUsers`, whereas `GetFines`, which does not look at `rows.Err`,
answers 200 with the rows read so far. -/
theorem GetFines_ignores_rows_err :
    GetUsers cutStore () = (⟨500, .error "failed to process users"⟩, ())
      ∧ GetFines cutStore () = (⟨200, .record []⟩, ()) := by
  constructor <;> rfl

/-! ## C19: the identity operations as the router serves them -/

/-- The route of `UpdateUserById` binds one path parameter, under the name `id`:
whatever the method and the path of the request that the router hands to
`UpdateUserById`, the parameters are a single pair named `id`. -/
theorem dispatch_update_params (method path : String) (params : List (String × String))
    (h : dispatch UserRoutes method path = some (.UpdateUserById, params)) :
    ∃ seg, params = [("id", seg)] := by
  obtain ⟨r, hr, hf⟩ := List.exists_of_findSome?_eq_some h
  have hpat : segments ("/user" ++ "/:id").data = [[], "user".data, ":id".data] := by decide
  simp only [UserRoutes, List.mem_cons, List.mem_singleton, List.not_mem_nil, or_false] at hr
  rcases hr with rfl | rfl | rfl | rfl | rfl
  · split_ifs at hf
    simp only [Option.map_eq_some', Prod.mk.injEq] at hf
    obtain ⟨_, -, hh, -⟩ := hf
    cases hh
  · split_ifs at hf
    simp only [Option.map_eq_some', Prod.mk.injEq] at hf
    obtain ⟨_, -, hh, -⟩ := hf
    cases hh
  · split_ifs at hf
    simp only [Option.map_eq_some', Prod.mk.injEq] at hf
    obtain ⟨_, -, hh, -⟩ := hf
    cases hh
  · split_ifs at hf
    simp only [Option.map_eq_some', Prod.mk.injEq] at hf
    obtain ⟨ps, hm, -, rfl⟩ := hf
    rw [hpat] at hm
    rcases hseg : segments path.data with _ | ⟨s0, _ | ⟨s1, _ | ⟨s2, _ | ⟨s3, rest⟩⟩⟩⟩
    · rw [hseg] at hm; simp [matchSegments] at hm
    · rw [hseg] at hm
      simp only [matchSegments] at hm
      split_ifs at hm
    · rw [hseg] at hm
      simp only [matchSegments] at hm
      split_ifs at hm
    · rw [hseg] at hm
      simp only [matchSegments] at hm
      split_ifs at hm
      simp only [Option.map_eq_some'] at hm
      obtain ⟨a, ha, rfl⟩ := hm
      cases ha
      exact ⟨_, rfl⟩
    · rw [hseg] at hm
      simp only [matchSegments] at hm
      split_ifs at hm
      simp at hm
  · split_ifs at hf
    simp only [Option.map_eq_some', Prod.mk.injEq] at hf
    obtain ⟨_, -, hh, -⟩ := hf
    cases hh

/-- With no path parameter named `user_id`, `UpdateUserById` answers 400 and sends
no statement. -/
theorem UpdateUserById_unbound {σ : Type} (conn : Driver σ) (now : Int)
    (entries : List (String × String)) (c : Context (List (String × JsonValue))) (s : σ)
    (hparam : c.Param "user_id" = "") :
    (UpdateUserById conn now entries c s).1.status = 400
      ∧ (UpdateUserById conn now entries c s).2 = s := by
  cases hbody : c.body with
  | error e => simp [UpdateUserById, Driver.isNil, hbody]
  | ok payload => simp [UpdateUserById, Driver.isNil, hbody, hparam]

/-- C19: over the table model of Person, from a table whose usernames are pairwise
distinct and whose emails are pairwise distinct, every identity operation of the
service leaves a table with pairwise distinct usernames and pairwise distinct
emails: `CreateUser` and `LoginUser` for every request, and `UpdateUserById` for
every request that the router of `UserRoutes` hands to it, whatever its method, path
and body.  Such a request binds its path segment to the name `id`, so the handler,
which reads the name `user_id`, answers 400 and sends no statement: the log of the
datastore stays empty and the table is the one before. -/
theorem identities_stay_unique (table : List PersonRow) (jwt : JWT) (bcrypt : Bcrypt)
    (entropy : Nat) (now tokenNow : Int) (random : Nat) (cc : Context User)
    (loginNow updateNow : Int) (cl : Context LoginInput)
    (entries : List (String × String)) (method path : String)
    (params : List (String × String)) (body : Except String (List (String × JsonValue)))
    (huniq : uniqueIdentities table)
    (hroute : dispatch UserRoutes method path = some (.UpdateUserById, params)) :
    uniqueIdentities (CreateUser personStore jwt bcrypt entropy now tokenNow random cc table).2
      ∧ uniqueIdentities (LoginUser personStore jwt bcrypt loginNow updateNow cl table).2
      ∧ (UpdateUserById personStore.traced now entries ⟨params, body⟩ (table, [])).1.status = 400
      ∧ (UpdateUserById personStore.traced now entries ⟨params, body⟩ (table, [])).2
        = (table, [])
      ∧ (UpdateUserById personStore now entries ⟨params, body⟩ table).2 = table
      ∧ uniqueIdentities (UpdateUserById personStore now entries ⟨params, body⟩ table).2 := by
  obtain ⟨seg, rfl⟩ := dispatch_update_params method path params hroute
  have hparam : (⟨[("id", seg)], body⟩ : Context (List (String × JsonValue))).Param "user_id"
      = "" := by
    simp [Context.Param, List.lookup]
  have h1 := UpdateUserById_unbound personStore.traced now entries ⟨[("id", seg)], body⟩
    (table, []) hparam
  have h2 := UpdateUserById_unbound personStore now entries ⟨[("id", seg)], body⟩ table hparam
  refine ⟨CreateUser_unique table jwt bcrypt entropy now tokenNow random cc huniq,
    LoginUser_unique table jwt bcrypt loginNow updateNow cl huniq, h1.1, h1.2, h2.2, ?_⟩
  rw [h2.2]
  exact huniq

/-- C19 on the table of alice and bob: a registration under the username of alice,
a login of alice and the request `PUT /user/u-2` that asks for the username of
alice leave usernames and emails pairwise distinct; the request to rename is
answered 400 and leaves the table as it is. -/
theorem identities_stay_unique_witness :
    uniqueIdentities [aliceRow, bobRow]
      ∧ dispatch UserRoutes "PUT" "/user/u-2" = some (.UpdateUserById, [("id", "u-2")])
      ∧ uniqueIdentities (CreateUser personStore (bookJWT newAliceBook) plainBcrypt 0 5 6 0
          ⟨[], .ok ⟨0, "alice", "other@example.com", "", "", "", "hunter2", "", "", 0, 0, ""⟩⟩
          [aliceRow, bobRow]).2
      ∧ uniqueIdentities (LoginUser personStore (bookJWT aliceBook) plainBcrypt 0 1 aliceLogin
          [aliceRow, bobRow]).2
      ∧ (UpdateUserById personStore.traced 5 allowedFields
          ⟨[("id", "u-2")], .ok [("username", JsonValue.string "alice")]⟩
          ([aliceRow, bobRow], [])).1.status = 400
      ∧ (UpdateUserById personStore 5 allowedFields
          ⟨[("id", "u-2")], .ok [("username", JsonValue.string "alice")]⟩
          [aliceRow, bobRow]).2 = [aliceRow, bobRow] :=
  match identities_stay_unique [aliceRow, bobRow] (bookJWT newAliceBook) plainBcrypt 0 5 6 0
    ⟨[], .ok ⟨0, "alice", "other@example.com", "", "", "", "hunter2", "", "", 0, 0, ""⟩⟩
    0 1 ⟨[], .ok ⟨"alice", "secret123"⟩⟩ allowedFields "PUT" "/user/u-2" [("id", "u-2")]
    (.ok [("username", JsonValue.string "alice")]) (by decide) (by decide) with
  | ⟨h1, _, h3, _, h5, _⟩ => ⟨by decide, by decide, h1, by decide, h3, h5⟩

end BookManagement
